import Mathlib

/-! LuxCore: the life cycle of the BAKECPU render engine and the OpenCL context of the film.

A shallow embedding of `src/slg/engines/bakecpu/bakecpu.cpp` and of `src/slg/film/filmocl.cpp`
(the film part starts at the section on the OpenCL context).  C++ objects reached through
pointers live in an explicit heap (`World.caches`), so that aliasing of a cache pointer between
an engine and a render state is visible.  A C++ exception is an `Except.error` result paired with
the world as it stands at the `throw`: whatever was mutated before the `throw` stays mutated.
The constructor ends with an engine or with a `ConstructorFault`: an exception, or a read of a
destroyed temporary object, from which the behaviour of the program is undefined.
Calls into collaborating objects are recorded, in program order, in `World.trace`.
-/

namespace LuxCore

/-- The modulus of the C++ type `u_int` (32 bit unsigned). -/
def UINT_MOD : Nat := 2 ^ 32

/-- A `Scene *`: scenes are opaque here, only their identity matters. -/
abbrev ScenePtr := Nat

/-- A `PhotonGICache *` that is not null: an index into `World.caches`. -/
abbrev CachePtr := Nat

/-- Modelled from the spec: the class `luxrays::Property` is not in the sources. A property is a
dotted key with its list of values. -/
structure Property where
  name : String
  values : List String
deriving DecidableEq, Repr

/-- Modelled from the spec: the class `luxrays::Properties` is not in the sources. It is "a
property bag keyed by dotted namespaces". -/
abbrev Properties := List Property

/-- Modelled from the spec: `Properties::Get(const Property &)` is not in the sources. "Absence of
a required key falls back to a documented default value": the stored property of that name when
there is one, the supplied default otherwise. In luxrays the method is declared
`const Property &Get(const Property &defaultProp) const`: what it returns is a reference, to the
stored property or to the argument `defaultProp` itself. This definition gives the property the
reference designates while the argument is alive, that is inside the full expression of the
call. -/
def Properties.Get (cfg : Properties) (dflt : Property) : Property :=
  match cfg.find? (fun p => p.name == dflt.name) with
  | some p => p
  | none => dflt

/-- Modelled from the spec: `Property::Get<string>()` is not in the sources. It reads the single
value of a property and raises an error when the property does not hold exactly one value. -/
def Property.GetString (p : Property) : Except String String :=
  match p.values with
  | [v] => .ok v
  | _ => .error ("Wrong number of values in property: " ++ p.name)

/-- The value of a decimal numeral read from left to right, `acc` being the value of the digits
already read; `none` when a character is not a digit. -/
def decimalValue : List Char → Nat → Option Nat
  | [], acc => some acc
  | c :: cs, acc =>
    if c.isDigit then decimalValue cs (10 * acc + (c.toNat - '0'.toNat)) else none

/-- Modelled from the spec: `Property::Get<u_int>()` is not in the sources. It reads the single
value of a property as an unsigned 32 bit number and raises an error when the property does not
hold exactly one value or the value is not a decimal numeral below `2 ^ 32`. -/
def Property.GetUInt (p : Property) : Except String Nat :=
  match p.values with
  | [v] =>
    match v.toList with
    | [] => .error ("Bad unsigned value in property: " ++ p.name)
    | c :: cs =>
      match decimalValue (c :: cs) 0 with
      | some n =>
        if n < UINT_MOD then .ok n else .error ("Bad unsigned value in property: " ++ p.name)
      | none => .error ("Bad unsigned value in property: " ++ p.name)
  | _ => .error ("Wrong number of values in property: " ++ p.name)

/-- The fields of a dotted name: the pieces between the dots, the piece being read (`cur`)
included. A name with `n` dots has `n + 1` fields, some of them possibly empty. -/
def splitFields : List Char → List Char → List (List Char)
  | [], cur => [cur]
  | c :: cs, cur => if c = '.' then cur :: splitFields cs [] else splitFields cs (cur ++ [c])

/-- Modelled from the spec: `Property::ExtractField(name, index)` is not in the sources. It is
the field of that index in the dotted name, the empty string when the name has no such field. -/
def Property.ExtractField (name : String) (index : Nat) : String :=
  String.mk ((splitFields name.toList []).getD index [])

/-- Modelled from the spec: `Property::ExtractPrefix(name, count)` is not in the sources. It is
the part of the dotted name made of its first `count` fields, the empty string when the name has
no field after them. -/
def Property.ExtractPrefix (name : String) (count : Nat) : String :=
  if count < (splitFields name.toList []).length then
    String.mk (List.intercalate ['.'] ((splitFields name.toList []).take count))
  else ""

/-- Insert each name that is not empty and not yet in `defined` at the end of `defined`. -/
def uniqueNames : List String → List String → List String
  | [], defined => defined
  | s :: rest, defined =>
    if s ≠ "" ∧ s ∉ defined then uniqueNames rest (defined ++ [s]) else uniqueNames rest defined

/-- Modelled from the spec: `Properties::GetAllUniqueSubNames(prefix)` is not in the sources.
"Each sub-namespace under a repeating-group key (e.g. `bake.maps.*`) must resolve to a unique
tag": for every property whose name starts with the given key, in the order of the properties,
the name cut after the field that follows the key, each such sub-name listed once. -/
def Properties.GetAllUniqueSubNames (cfg : Properties) (key : String) : List String :=
  uniqueNames
    (((cfg.map fun p => p.name).filter fun name => key.toList.isPrefixOf name.toList).map
      fun name => Property.ExtractPrefix name ((key.toList.filter fun c => c = '.').length + 2))
    []

/-- The `RenderConfig` fields read by the engine: `cfg` and `scene`. -/
structure RenderConfig where
  cfg : Properties
  scene : ScenePtr
deriving DecidableEq, Repr

/-- Modelled from the spec: the class `PhotonGICache` is not in the sources. The heap cell of a
cache: the scene back-reference (absent in a deserialized cache), the number of completed
`Preprocess` calls, and whether `delete` has been applied to it. -/
structure PhotonGICache where
  scene : Option ScenePtr
  preprocessed : Nat
  deleted : Bool
deriving DecidableEq, Repr

/-- Modelled from the spec: the class `BakeCPURenderState` is not in the sources
(`bakecpurenderstate.h`). It is an "engine-type-tagged snapshot" with the two fields that
`StartLockLess` reads: `bootStrapSeed` and `photonGICache`. -/
structure BakeCPURenderState where
  engineTag : String
  bootStrapSeed : Nat
  photonGICache : Option CachePtr
deriving DecidableEq, Repr

/-- Modelled from the spec: the class `PathTracer` is not in the sources. What the engine sets in
it: the parsed options, the pixel filter distribution and the cache pointer. -/
structure PathTracer where
  options : Option Properties
  pixelFilterDistribution : Bool
  photonGICache : Option CachePtr
deriving DecidableEq, Repr

/-- The enumeration `BakeMapType` of `bakecpu.h`: the only type the constructor accepts. -/
inductive BakeMapType where
  | LIGHTMAP
deriving DecidableEq, Repr

/-- The descriptor `BakeMapInfo` of one map to bake, with the five members the constructor
assigns. -/
structure BakeMapInfo where
  type : BakeMapType
  fileName : String
  width : Nat
  height : Nat
  objectNames : List String
deriving DecidableEq, Repr

/-- The fields of `BakeCPURenderEngine` (its own and the inherited ones) used by the
constructor, `GetRenderState`, `StartLockLess` and `StopLockLess`. `renderThreads` is
`renderThreads.size()`; `threadsRunning` tells whether the base class has started the worker
threads; `mapInfos` is the list of bake maps read by the constructor. -/
structure BakeCPURenderEngine where
  renderConfig : RenderConfig
  bootStrapSeed : Nat
  startRenderState : Option BakeCPURenderState
  photonGICache : Option CachePtr
  renderThreads : Nat
  threadsRunning : Bool
  pathTracer : PathTracer
  mapInfos : List BakeMapInfo
deriving DecidableEq, Repr

/-- The calls an engine makes into its collaborators, in program order. -/
inductive Event where
  | setSeed (seed : Nat)
  | setScene (c : CachePtr) (scene : ScenePtr)
  | deleteRenderState (rs : BakeCPURenderState)
  | fromProperties (scene : ScenePtr) (cfg : Properties) (result : Option CachePtr)
  | preprocess (c : CachePtr) (threads : Nat)
  | parseOptions (cfg : Properties)
  | initPixelFilterDistribution
  | setPhotonGICache (c : Option CachePtr)
  | startThreads
  | stopThreads
  | deletePixelFilterDistribution
  | deleteCache (c : Option CachePtr)
deriving DecidableEq, Repr

/-- One engine, the heap of cache objects, and the trace of calls made so far. -/
structure World where
  engine : BakeCPURenderEngine
  caches : List PhotonGICache
  trace : List Event
deriving DecidableEq, Repr

/-- The result of a call: the world it leaves behind and either its value or the message of the
exception it raised. -/
structure Outcome (α : Type) where
  world : World
  result : Except String α

/-- Whether the call raised an exception. -/
def Outcome.failed {α : Type} (o : Outcome α) : Bool :=
  match o.result with
  | .ok _ => false
  | .error _ => true

/-- The parts of the repository outside the sources that the engine calls and whose result
depends on things not modelled: they are parameters.
* `CheckSamplersForNoTile engineName cfg`: the message of the exception it raises, if any;
* `sobolTag`: `SobolSampler::GetObjectTag()`;
* `FromProperties scene cfg`: whether `PhotonGICache::FromProperties` returns a cache (`true`)
  or `nullptr` because the cache is disabled (`false`);
* `Preprocess scene cfg threads`: the message of the exception `PhotonGICache::Preprocess`
  raises, if any. -/
structure Env where
  CheckSamplersForNoTile : String → Properties → Option String
  sobolTag : String
  FromProperties : ScenePtr → Properties → Bool
  Preprocess : ScenePtr → Properties → Nat → Option String

/-- Heap update: apply `f` to the object at address `c`; an address past the last object of the
heap changes nothing. -/
def updateCache (f : PhotonGICache → PhotonGICache) :
    List PhotonGICache → CachePtr → List PhotonGICache
  | [], _ => []
  | x :: xs, 0 => f x :: xs
  | x :: xs, c + 1 => x :: updateCache f xs c

/-- Modelled from the spec: `PhotonGICache::SetScene` is not in the sources; it is the spec's
`ReattachScene`, which sets the scene back-reference of the cache. -/
def PhotonGICache.SetScene (scene : ScenePtr) (c : PhotonGICache) : PhotonGICache :=
  { c with scene := some scene }

/-- The C++ `delete p` on a cache pointer: a null pointer is left alone. -/
def deleteCache (caches : List PhotonGICache) : Option CachePtr → List PhotonGICache
  | none => caches
  | some c => updateCache (fun x => { x with deleted := true }) caches c

/-- How the constructor of the engine ends when it does not produce an engine. `raised msg` is
an exception with its message: a `runtime_error` of the constructor or the error of a
`Property::Get<T>`. `danglingDefault name` is a read through a reference to the default
`Property` of that name after this temporary object was destroyed: the behaviour of the
program is undefined from there on. -/
inductive ConstructorFault where
  | raised (msg : String)
  | danglingDefault (name : String)
deriving DecidableEq, Repr

namespace BakeCPURenderEngine

/-- The engine tag `BakeCPURenderEngine::GetObjectTag()` (declared in `bakecpu.h`). -/
def GetObjectTag : String := "BAKECPU"

/-- The name `RenderEngineType2String(GetType())` of the engine type. -/
def engineTypeName : String := "BAKECPU"

/-- Modelled from the spec: `RenderState::CheckEngineTag` is not in the sources. "Verify
state's recorded engine-type tag equals engine's type; on mismatch, fail fatally with a
descriptive error". -/
def CheckEngineTag (rs : BakeCPURenderState) (tag : String) : Except String Unit :=
  if tag ≠ rs.engineTag then
    .error ("Wrong engine type in a render state: " ++ rs.engineTag ++ " instead of " ++ tag)
  else .ok ()

/-- Modelled from the spec: `RenderEngine::SetSeed` is not in the sources; it stores the boot
seed of the engine. -/
def SetSeed (e : BakeCPURenderEngine) (seed : Nat) : BakeCPURenderEngine :=
  { e with bootStrapSeed := seed }

/-- The reads of lines 62-63 through the reference `objNamesProp` that line 61 binds to the
result of `cfg.Get(Property(prefix + ".objectnames", "objectNameToBake"))`. The argument of
`Get` is a temporary `Property`, destroyed at the end of the declaration of line 61; `Get`
returns a reference (see `Properties.Get`), so no lifetime is extended. When the key is defined
the reference designates the property stored in `cfg` and the loop reads its values; when it is
not, the reference designates the destroyed temporary and `GetSize()` and `Get<string>(i)` read
an object that no longer exists. -/
def readObjectNames (cfg : Properties) (name : String) :
    Except ConstructorFault (List String) :=
  match cfg.find? (fun p => p.name == name) with
  | some p => .ok p.values
  | none => .error (.danglingDefault name)

/-- The body of the loop of the constructor (bakecpu.cpp 39-65) for one sub-name `mapKey`:
the descriptor read from the configuration, or how the constructor ends instead. -/
def parseBakeMap (cfg : Properties) (mapKey : String) : Except ConstructorFault BakeMapInfo :=
  let mapTagStr := Property.ExtractField mapKey 2
  if mapTagStr = "" then
    .error (.raised ("Syntax error in bake map definition: " ++ mapKey))
  else
    let pfx := "bake.maps." ++ mapTagStr
    match (Properties.Get cfg { name := pfx ++ ".type", values := ["LIGHTMAP"] }).GetString with
    | .error msg => .error (.raised msg)
    | .ok mapType =>
      if mapType = "LIGHTMAP" then
        match (Properties.Get cfg
          { name := pfx ++ ".filename", values := ["objectNameToBake"] }).GetString with
        | .error msg => .error (.raised msg)
        | .ok fileName =>
          match (Properties.Get cfg { name := pfx ++ ".width", values := ["512"] }).GetUInt with
          | .error msg => .error (.raised msg)
          | .ok width =>
            match (Properties.Get cfg
              { name := pfx ++ ".height", values := ["512"] }).GetUInt with
            | .error msg => .error (.raised msg)
            | .ok height =>
              match readObjectNames cfg (pfx ++ ".objectnames") with
              | .error fault => .error fault
              | .ok objectNames =>
                .ok { type := .LIGHTMAP
                      fileName := fileName
                      width := width
                      height := height
                      objectNames := objectNames }
      else
        .error (.raised ("Unknown bake map type: " ++ mapType))

/-- The loop of the constructor (bakecpu.cpp 38-66) over the sub-names still to read,
`mapInfos` being the descriptors pushed so far. -/
def parseBakeMaps (cfg : Properties) : List String → List BakeMapInfo →
    Except ConstructorFault (List BakeMapInfo)
  | [], mapInfos => .ok mapInfos
  | mapKey :: rest, mapInfos =>
    match parseBakeMap cfg mapKey with
    | .error fault => .error fault
    | .ok mapInfo => parseBakeMaps cfg rest (mapInfos ++ [mapInfo])

/-- The constructor `BakeCPURenderEngine::BakeCPURenderEngine` (bakecpu.cpp 32-69). The base
class constructor is not in the sources: the boot seed and the number of render threads it
sets up are parameters. The engine exists only when the constructor ends normally. -/
def construct (rcfg : RenderConfig) (seed threads : Nat) :
    Except ConstructorFault BakeCPURenderEngine :=
  match parseBakeMaps rcfg.cfg (Properties.GetAllUniqueSubNames rcfg.cfg "bake.maps") [] with
  | .error fault => .error fault
  | .ok mapInfos =>
    .ok { renderConfig := rcfg
          bootStrapSeed := seed
          startRenderState := none
          photonGICache := none
          renderThreads := threads
          threadsRunning := false
          pathTracer :=
            { options := none, pixelFilterDistribution := false, photonGICache := none }
          mapInfos := mapInfos }

/-- Modelled from the spec: the constructor of `BakeCPURenderState` is not in the sources.
`BakeCPURenderState(seed, pgic)` is tagged with the type of the producing engine and "records
the current boot seed" and the cache pointer it is given. -/
def newRenderState (seed : Nat) (pgic : Option CachePtr) : BakeCPURenderState :=
  { engineTag := GetObjectTag, bootStrapSeed := seed, photonGICache := pgic }

/-- `BakeCPURenderEngine::GetRenderState` (bakecpu.cpp 82-84):
`return new BakeCPURenderState(bootStrapSeed, photonGICache);`. No member is assigned and
nothing is thrown. -/
def GetRenderState (w : World) : Outcome BakeCPURenderState :=
  { world := w
    result := .ok (newRenderState w.engine.bootStrapSeed w.engine.photonGICache) }

/-- Lines 99-101 of `StartLockLess`: read `sampler.type`, with the Sobol tag as default. -/
def samplerType (env : Env) (cfg : Properties) : Except String String :=
  (Properties.Get cfg { name := "sampler.type", values := [env.sobolTag] }).GetString

/-- Lines 99-101 of `StartLockLess`: the check that rejects `RTPATHCPUSAMPLER`. The result is
the message of the exception raised, if any. -/
def checkRTPathSampler (env : Env) (cfg : Properties) : Option String :=
  match samplerType env cfg with
  | .error msg => some msg
  | .ok s =>
    if s = "RTPATHCPUSAMPLER" then
      some "BAKECPU render engine can not use RTPATHCPUSAMPLER"
    else none

/-- Lines 93-101 of `StartLockLess`: `CheckSamplersForNoTile` and then the `RTPATHCPUSAMPLER`
check. The result is the message of the exception raised, if any. Nothing is assigned here. -/
def checkSamplers (env : Env) (cfg : Properties) : Option String :=
  match env.CheckSamplersForNoTile engineTypeName cfg with
  | some msg => some msg
  | none => checkRTPathSampler env cfg

/-- Lines 113-125 of `StartLockLess`: the new seed, the transfer of the cache pointer out of the
render state `rs`, and the scene re-attachment. Returns the world and what is left of `rs`. -/
def transferRenderState (w : World) (rs : BakeCPURenderState) : World × BakeCPURenderState :=
  let newSeed := (rs.bootStrapSeed + 1) % UINT_MOD
  let e1 := SetSeed w.engine newSeed
  let e2 := { e1 with photonGICache := rs.photonGICache }
  let rs1 := { rs with photonGICache := none }
  match e2.photonGICache with
  | some c =>
    ({ engine := { e2 with startRenderState := some rs1 }
       caches := updateCache (PhotonGICache.SetScene e2.renderConfig.scene) w.caches c
       trace := w.trace ++ [.setSeed newSeed, .setScene c e2.renderConfig.scene] }, rs1)
  | none =>
    ({ engine := { e2 with startRenderState := some rs1 }
       caches := w.caches
       trace := w.trace ++ [.setSeed newSeed] }, rs1)

/-- Lines 107-129 of `StartLockLess`: restore the render state if there is one. -/
def restoreRenderState (w : World) : Outcome Unit :=
  match w.engine.startRenderState with
  | none => { world := w, result := .ok () }
  | some rs =>
    match CheckEngineTag rs GetObjectTag with
    | .error msg => { world := w, result := .error msg }
    | .ok _ =>
      let (w1, rs1) := transferRenderState w rs
      { world :=
          { w1 with
            engine := { w1.engine with startRenderState := none }
            trace := w1.trace ++ [.deleteRenderState rs1] }
        result := .ok () }

/-- Lines 136-142 of `StartLockLess`: allocate the cache when the engine has none. A new cache
is placed at the first free heap address. -/
def allocPhotonGICache (env : Env) (w : World) : Outcome Unit :=
  match w.engine.photonGICache with
  | some _ => { world := w, result := .ok () }
  | none =>
    let scene := w.engine.renderConfig.scene
    let cfg := w.engine.renderConfig.cfg
    if env.FromProperties scene cfg then
      let c := w.caches.length
      let w1 : World :=
        { engine := { w.engine with photonGICache := some c }
          caches := w.caches ++ [{ scene := some scene, preprocessed := 0, deleted := false }]
          trace := w.trace ++
            [.fromProperties scene cfg (some c), .preprocess c w.engine.renderThreads] }
      match env.Preprocess scene cfg w.engine.renderThreads with
      | some msg => { world := w1, result := .error msg }
      | none =>
        { world :=
            { w1 with
              caches :=
                updateCache (fun x => { x with preprocessed := x.preprocessed + 1 }) w1.caches c }
          result := .ok () }
    else
      { world := { w with trace := w.trace ++ [.fromProperties scene cfg none] }
        result := .ok () }

/-- Modelled from the spec: lines 148-155 of `StartLockLess` call `PathTracer::ParseOptions`,
`InitPixelFilterDistribution`, `SetPhotonGICache` and `CPUNoTileRenderEngine::StartLockLess`,
none of which is in the sources. "Derive all per-run algorithm-parameter objects from
configuration", then "transition to Running by starting the worker-thread pool". -/
def startPathTracerAndThreads (w : World) : World :=
  { w with
    engine :=
      { w.engine with
        pathTracer :=
          { options := some w.engine.renderConfig.cfg
            pixelFilterDistribution := true
            photonGICache := w.engine.photonGICache }
        threadsRunning := true }
    trace := w.trace ++
      [.parseOptions w.engine.renderConfig.cfg, .initPixelFilterDistribution,
       .setPhotonGICache w.engine.photonGICache, .startThreads] }

/-- `BakeCPURenderEngine::StartLockLess` (bakecpu.cpp 86-156). -/
def StartLockLess (env : Env) (w : World) : Outcome Unit :=
  match checkSamplers env w.engine.renderConfig.cfg with
  | some msg => { world := w, result := .error msg }
  | none =>
    let r := restoreRenderState w
    match r.result with
    | .error msg => { world := r.world, result := .error msg }
    | .ok _ =>
      let a := allocPhotonGICache env r.world
      match a.result with
      | .error msg => { world := a.world, result := .error msg }
      | .ok _ => { world := startPathTracerAndThreads a.world, result := .ok () }

/-- `BakeCPURenderEngine::StopLockLess` (bakecpu.cpp 158-165): the base class stops the worker
threads, the pixel filter distribution is deleted, the cache is deleted and its pointer set to
`nullptr`. -/
def StopLockLess (w : World) : World :=
  { engine :=
      { w.engine with
        threadsRunning := false
        pathTracer := { w.engine.pathTracer with pixelFilterDistribution := false }
        photonGICache := none }
    caches := deleteCache w.caches w.engine.photonGICache
    trace := w.trace ++
      [.stopThreads, .deletePixelFilterDistribution, .deleteCache w.engine.photonGICache] }

/-- The destructor `~BakeCPURenderEngine` (bakecpu.cpp 71-73): `delete photonGICache;`. -/
def destroy (w : World) : World :=
  { w with
    caches := deleteCache w.caches w.engine.photonGICache
    trace := w.trace ++ [.deleteCache w.engine.photonGICache] }

end BakeCPURenderEngine

/-- The events a call added to the trace of `before`. -/
def newEvents (before after : World) : List Event :=
  after.trace.drop before.trace.length

/-- The arguments of the calls of `PhotonGICache::FromProperties` in a trace. -/
def factoryCalls (tr : List Event) : List (ScenePtr × Properties) :=
  tr.filterMap fun ev =>
    match ev with
    | .fromProperties scene cfg _ => some (scene, cfg)
    | _ => none

/-- The receiver and argument of the calls of `PhotonGICache::Preprocess` in a trace. -/
def preprocessCalls (tr : List Event) : List (CachePtr × Nat) :=
  tr.filterMap fun ev =>
    match ev with
    | .preprocess c threads => some (c, threads)
    | _ => none

/-- A sampler configuration that passes both checks of `StartLockLess`. -/
def validSamplers (env : Env) (cfg : Properties) : Prop :=
  BakeCPURenderEngine.checkSamplers env cfg = none

instance (env : Env) (cfg : Properties) : Decidable (validSamplers env cfg) := by
  unfold validSamplers; infer_instance

/-- The caches on which `PhotonGICache::Preprocess` has been called in a trace. -/
def preprocessedCaches (tr : List Event) : List CachePtr :=
  (preprocessCalls tr).map Prod.fst

/-- The device classes of `luxrays::DeviceType` (the enumeration is not in the sources). -/
inductive DeviceType where
  | DEVICE_TYPE_NATIVE_THREAD
  | DEVICE_TYPE_OPENCL_DEFAULT
  | DEVICE_TYPE_OPENCL_CPU
  | DEVICE_TYPE_OPENCL_GPU
  | DEVICE_TYPE_OPENCL_UNKNOWN
deriving DecidableEq, Repr

/-- Modelled from the spec: the class `OpenCLDeviceDescription` is not in the sources. It
"describes one physical/logical compute device": what `CreateOCLContext` reads of it is its
name, its class, its OpenCL version string and whether that version is 1.1 or better. -/
structure DeviceDescription where
  name : String
  type : DeviceType
  openCLVersion : String
  isOpenCL_1_1 : Bool
deriving DecidableEq, Repr

/-- Modelled from the spec: the class `luxrays::Context` is not in the sources. The platform
index it was created with, the device descriptions (addresses in the list of descriptions) for
which it has allocated a device, and whether `delete` has been applied to it. -/
structure Context where
  platformIndex : Int
  devices : List Nat
  deleted : Bool
deriving DecidableEq, Repr

/-- Modelled from the spec: the class `OpenCLIntersectionDevice` is not in the sources. The
description it was allocated for and its data parallel (hybrid rendering) support flag. -/
structure OpenCLIntersectionDevice where
  deviceDesc : Nat
  dataParallelSupport : Bool
deriving DecidableEq, Repr

/-- The OpenCL members of `Film`. A `DeviceDescription *` that is not null is the index of the
description in the list of descriptions of the context. -/
structure Film where
  oclPlatformIndex : Int
  oclDeviceIndex : Int
  ctx : Option Context
  selectedDeviceDesc : Option Nat
  oclIntersectionDevice : Option OpenCLIntersectionDevice
  ocl_RGB_TONEMAPPED : Option Nat
deriving DecidableEq, Repr

/-- The result of a call on a film: the film it leaves behind, the lines it logged, and
whether it raised an exception. -/
structure FilmOutcome where
  film : Film
  log : List String
  result : Except String Unit

/-- The C++ conversion `(int)n` of a `size_t`: modulo `2 ^ 32`, read as a signed 32 bit
number. -/
def toInt32 (n : Nat) : Int :=
  if n % 2 ^ 32 < 2 ^ 31 then ((n % 2 ^ 32 : Nat) : Int) else ((n % 2 ^ 32 : Nat) : Int) - 2 ^ 32

/-- The loop of `CreateOCLContext` (filmocl.cpp 58-65): the index of the first description of
class GPU, if any. -/
def findGPU : List DeviceDescription → Option Nat
  | [] => none
  | desc :: rest =>
    if desc.type = .DEVICE_TYPE_OPENCL_GPU then some 0 else (findGPU rest).map (· + 1)

/-- The device selection of `CreateOCLContext` (filmocl.cpp 51-68): the value assigned to
`selectedDeviceDesc`, for the requested index and the filtered list of descriptions. -/
def selectDevice (oclDeviceIndex : Int) (descs : List DeviceDescription) : Option Nat :=
  if oclDeviceIndex ≥ 0 ∧ oclDeviceIndex < toInt32 descs.length then
    some oclDeviceIndex.toNat
  else if descs.length > 0 then
    findGPU descs
  else
    none

namespace Film

/-- `Film::SetUpOCL` (filmocl.cpp 31-41). -/
def SetUpOCL (film : Film) : Film :=
  { film with
    oclPlatformIndex := -1
    oclDeviceIndex := -1
    ctx := none
    oclIntersectionDevice := none
    ocl_RGB_TONEMAPPED := none }

/-- `Film::CreateOCLContext` (filmocl.cpp 43-90). `descs` is the list of descriptions the new
context returns (`GetAvailableDeviceDescriptions`) once filtered by
`DeviceDescription::Filter(DEVICE_TYPE_OPENCL_ALL, descs)`; neither function is in the sources.
Modelled from the spec: `Context::AddIntersectionDevices` is not in the sources; it "allocates
exactly one device", and "failure to allocate the device (driver/runtime error) is fatal to
this call": `allocError k` is the message of the exception raised while allocating the device
of description `k`, if any. -/
def CreateOCLContext (allocError : Nat → Option String) (descs : List DeviceDescription)
    (film : Film) : FilmOutcome :=
  let film1 : Film :=
    { film with
      ctx := some { platformIndex := film.oclPlatformIndex, devices := [], deleted := false }
      selectedDeviceDesc := selectDevice film.oclDeviceIndex descs }
  match film1.selectedDeviceDesc with
  | none => { film := film1, log := [], result := .ok () }
  | some k =>
    match allocError k with
    | some msg => { film := film1, log := [], result := .error msg }
    | none =>
      let name := (descs[k]?.map fun d => d.name).getD ""
      let version := (descs[k]?.map fun d => d.openCLVersion).getD ""
      let film2 : Film :=
        { film1 with
          ctx := some { platformIndex := film.oclPlatformIndex, devices := [k], deleted := false }
          oclIntersectionDevice := some { deviceDesc := k, dataParallelSupport := false } }
      if (descs[k]?.map fun d => d.isOpenCL_1_1).getD false then
        { film := film2
          log := ["Film OpenCL Device used: " ++ name, "  Device OpenCL version: " ++ version]
          result := .ok () }
      else
        { film := film2
          log := ["Film OpenCL Device used: " ++ name, "  Device OpenCL version: " ++ version,
            "WARNING: OpenCL version 1.1 or better is required. Device " ++ name ++
              " may not work."]
          result := .ok () }

/-- `Film::DeleteOCLContext` (filmocl.cpp 92-96): `delete ctx;`, which leaves a null pointer
alone and does not assign `ctx`. -/
def DeleteOCLContext (film : Film) : Film :=
  match film.ctx with
  | none => film
  | some c => { film with ctx := some { c with deleted := true } }

end Film

/-- The description a film has selected, looked up in the list of descriptions. -/
def selectedDevice (descs : List DeviceDescription) (film : Film) : Option DeviceDescription :=
  match film.selectedDeviceDesc with
  | none => none
  | some k => descs[k]?

/-- The sub-name `mapKey` of `bake.maps` can be read by the constructor: its tag is not empty,
its type (or the default) is `LIGHTMAP`, its file name, width and height (or their defaults)
can be read, and its key `.objectnames` is defined. -/
def readableBakeMap (cfg : Properties) (mapKey : String) : Prop :=
  Property.ExtractField mapKey 2 ≠ "" ∧
  (Properties.Get cfg
    { name := "bake.maps." ++ Property.ExtractField mapKey 2 ++ ".type"
      values := ["LIGHTMAP"] }).GetString = .ok "LIGHTMAP" ∧
  (∃ fileName, (Properties.Get cfg
    { name := "bake.maps." ++ Property.ExtractField mapKey 2 ++ ".filename"
      values := ["objectNameToBake"] }).GetString = .ok fileName) ∧
  (∃ width, (Properties.Get cfg
    { name := "bake.maps." ++ Property.ExtractField mapKey 2 ++ ".width"
      values := ["512"] }).GetUInt = .ok width) ∧
  (∃ height, (Properties.Get cfg
    { name := "bake.maps." ++ Property.ExtractField mapKey 2 ++ ".height"
      values := ["512"] }).GetUInt = .ok height) ∧
  (∃ p, cfg.find? (fun q => q.name == "bake.maps." ++ Property.ExtractField mapKey 2
    ++ ".objectnames") = some p)

/-- The property `bake.maps.<tag><field>` that the constructor reads for the sub-name `mapKey`,
with its default value `dflt`. -/
def bakeMapProperty (cfg : Properties) (mapKey field dflt : String) : Property :=
  Properties.Get cfg
    { name := "bake.maps." ++ Property.ExtractField mapKey 2 ++ field, values := [dflt] }

/-- Lines 48-53 of the constructor, the type check of one sub-name: the type read (`LIGHTMAP`
when the key is absent) must be `LIGHTMAP`. -/
def bakeMapTypeCheck (cfg : Properties) (mapKey : String) : Except String BakeMapType :=
  match (bakeMapProperty cfg mapKey ".type" "LIGHTMAP").GetString with
  | .error msg => .error msg
  | .ok mapType =>
    if mapType = "LIGHTMAP" then .ok .LIGHTMAP
    else .error ("Unknown bake map type: " ++ mapType)

/-- The name `bake.maps.<tag><field>` of a key of the sub-name `mapKey`. -/
def bakeMapKeyName (mapKey field : String) : String :=
  "bake.maps." ++ Property.ExtractField mapKey 2 ++ field

/-- No property of the configuration has this name. -/
def keyAbsent (cfg : Properties) (name : String) : Prop :=
  ∀ p ∈ cfg, p.name ≠ name

instance (cfg : Properties) (name : String) : Decidable (keyAbsent cfg name) := by
  unfold keyAbsent; infer_instance

/-- The property of this name in the configuration is `p`. -/
def keyPresent (cfg : Properties) (name : String) (p : Property) : Prop :=
  cfg.find? (fun q => q.name == name) = some p

/-- Modelled from the spec: `CPUNoTileRenderEngine::StopLockLess` is not in the sources. The
first statement of `StopLockLess` (bakecpu.cpp 159): "stop worker threads first (join/drain)". -/
def BakeCPURenderEngine.stopWorkerThreads (w : World) : World :=
  { w with
    engine := { w.engine with threadsRunning := false }
    trace := w.trace ++ [.stopThreads] }

/-- The second statement of `StopLockLess` (bakecpu.cpp 161):
`pathTracer.DeletePixelFilterDistribution()`. -/
def BakeCPURenderEngine.releasePixelFilterDistribution (w : World) : World :=
  { w with
    engine :=
      { w.engine with
        pathTracer := { w.engine.pathTracer with pixelFilterDistribution := false } }
    trace := w.trace ++ [.deletePixelFilterDistribution] }

/-- The last statements of `StopLockLess` (bakecpu.cpp 163-164): `delete photonGICache;
photonGICache = nullptr;`. -/
def BakeCPURenderEngine.releasePhotonGICache (w : World) : World :=
  { engine := { w.engine with photonGICache := none }
    caches := deleteCache w.caches w.engine.photonGICache
    trace := w.trace ++ [.deleteCache w.engine.photonGICache] }

/-- The calls of `StartLockLess` that come before the path tracer is set up: the restore of
the render state and the allocation of the cache. -/
def Event.beforePathTracer : Event → Bool
  | .setSeed _ => true
  | .setScene _ _ => true
  | .deleteRenderState _ => true
  | .fromProperties _ _ _ => true
  | .preprocess _ _ => true
  | _ => false

/-! ## Blender glue (`src/luxcore/pyluxcoreforblender.cpp`) -/

/-- A C++ `float`: a finite value, given by the rational number it stands for, an infinity or a
NaN. Only comparisons of finite values are used below; they agree with the comparisons of the
rational numbers. -/
inductive FloatValue where
  | finite (q : ℚ)
  | posInf
  | negInf
  | nan
deriving DecidableEq

/-- The loop of `ConvertFilmChannelOutput_4xFloat_To_4xFloatList` that looks for the maximum
(pyluxcoreforblender.cpp 343-349), over the values still to read, `i` being the index of the
first of them and `maxValue` the maximum so far. The test of line 347 is
`(i % 4 != 0) && !isinf(value) && !isnan(value) && (value > maxValue)`. -/
def maxValueLoop : List FloatValue → Nat → ℚ → ℚ
  | [], _, maxValue => maxValue
  | value :: rest, i, maxValue =>
    match value with
    | .finite q =>
      if i % 4 ≠ 0 ∧ q > maxValue then maxValueLoop rest (i + 1) q
      else maxValueLoop rest (i + 1) maxValue
    | _ => maxValueLoop rest (i + 1) maxValue

/-- The value `maxValue` from which `ConvertFilmChannelOutput_4xFloat_To_4xFloatList` computes
its scale `k = (maxValue == 0.f) ? 0.f : (1.f / maxValue)` when `normalize` is set: the loop
runs over the first `width * height * 4` (`u_int` product) values of `renderPass->rect`. -/
def normalizeMaxValue (width height : Nat) (rect : List FloatValue) : ℚ :=
  maxValueLoop (rect.take ((width * height * 4) % UINT_MOD)) 0 0

/-- What the comment of the source asks for ("only among RGB values, not Alpha"): the largest
finite positive value among the components of index `i` with `i % 4` in `{0, 1, 2}`, 0 when
there is none. -/
def maxRGBLoop : List FloatValue → Nat → ℚ → ℚ
  | [], _, maxValue => maxValue
  | value :: rest, i, maxValue =>
    match value with
    | .finite q =>
      if i % 4 ≠ 3 ∧ q > maxValue then maxRGBLoop rest (i + 1) q
      else maxRGBLoop rest (i + 1) maxValue
    | _ => maxRGBLoop rest (i + 1) maxValue

/-- A Blender `MLoopTri`: the three loop indices `tri[0..2]` and the polygon index. -/
structure MLoopTri where
  tri0 : Nat
  tri1 : Nat
  tri2 : Nat
  poly : Nat
deriving DecidableEq, Repr

/-- What `Scene_DefineBlenderMesh` reads of a Blender `MPoly`: `mat_nr` (a `short`) and
whether `flag & ME_SMOOTH` is set. -/
structure MPoly where
  mat_nr : Int
  smooth : Bool
deriving DecidableEq, Repr

/-- The Blender arrays that `Scene_DefineBlenderMesh` receives as raw pointers. `loopV i` is
`loops[i].v`; `hasUVs` and `hasCols` tell whether `loopUVs` and `loopCols` are not null.
Coordinates, normals, UVs and colors are floats and are not modelled: a mesh element is
represented by the place it was copied from (a vertex index, a loop index). `uvDiffers tri src`
is the outcome of the comparison of lines 522-523 between `loopUVs[tri]` and a stored UV that
was copied from `loopUVs[src]`, `colDiffers tri src` the one of lines 532-534. -/
structure BlenderMeshData where
  loopTris : List MLoopTri
  loopV : Nat → Nat
  polygons : Nat → MPoly
  hasUVs : Bool
  hasCols : Bool
  uvDiffers : Nat → Nat → Bool
  colDiffers : Nat → Nat → Bool

/-- The origin of a normal of the mesh: the Blender normal of a vertex (smooth shading) or the
face normal computed from the three vertices of a triangle (flat shading). -/
inductive NormalSource where
  | vertex (index : Nat)
  | face (v0 v1 v2 : Nat)
deriving DecidableEq, Repr

/-- The local variables of `Scene_DefineBlenderMesh` (pyluxcoreforblender.cpp 486-493).
`tmpMeshVerts` holds the Blender vertex index each point was copied from, `tmpMeshUVs` and
`tmpMeshCols` the loop index each entry was copied from, `vertexMap` the insertions of the
`unordered_map`, the latest first. -/
structure MeshBuild where
  tmpMeshVerts : List Nat
  tmpMeshNorms : List NormalSource
  tmpMeshUVs : List Nat
  tmpMeshCols : List Nat
  tmpMeshTris : List (Nat × Nat × Nat)
  vertFreeIndex : Nat
  vertexMap : List (Nat × Nat)
deriving DecidableEq, Repr

/-- The lookup `vertexMap.find(index)`: the value of the latest insertion for that key. -/
def vertexMapFind (index : Nat) : List (Nat × Nat) → Option Nat
  | [] => none
  | (key, value) :: rest => if key = index then some value else vertexMapFind index rest

/-- Lines 544-565 and 593-611 of `Scene_DefineBlenderMesh`: add the vertex `index` reached
through the loop `tri`, with its normal, its UV when `loopUVs` is given and its color when
`loopCols` is given. Returns the new state and the index `vertFreeIndex++` (`u_int`). -/
def addMeshVertex (d : BlenderMeshData) (st : MeshBuild) (tri index : Nat)
    (normal : NormalSource) : MeshBuild × Nat :=
  ({ st with
     tmpMeshVerts := st.tmpMeshVerts ++ [index]
     tmpMeshNorms := st.tmpMeshNorms ++ [normal]
     tmpMeshUVs := if d.hasUVs then st.tmpMeshUVs ++ [tri] else st.tmpMeshUVs
     tmpMeshCols := if d.hasCols then st.tmpMeshCols ++ [tri] else st.tmpMeshCols
     vertFreeIndex := (st.vertFreeIndex + 1) % UINT_MOD }, st.vertFreeIndex)

/-- The body of the loop over the three corners of a smooth shaded triangle (lines 510-571),
for the loop index `tri`: reuse the mapped vertex when it has the right UV and color, add a
new vertex and map it otherwise. -/
def smoothMeshVertex (d : BlenderMeshData) (st : MeshBuild) (tri : Nat) : MeshBuild × Nat :=
  let index := d.loopV tri
  let fresh : MeshBuild × Nat :=
    let r := addMeshVertex d st tri index (.vertex index)
    ({ r.1 with vertexMap := (index, r.2) :: r.1.vertexMap }, r.2)
  match vertexMapFind index st.vertexMap with
  | none => fresh
  | some mappedIndex =>
    if (d.hasUVs && d.uvDiffers tri (st.tmpMeshUVs.getD mappedIndex 0)) ||
        (d.hasCols && d.colDiffers tri (st.tmpMeshCols.getD mappedIndex 0)) then
      fresh
    else
      (st, mappedIndex)

/-- The body of the loop over the loop triangles (lines 499-617) for one loop triangle. -/
def addLoopTri (d : BlenderMeshData) (matIndex : Int) (st : MeshBuild) (loopTri : MLoopTri) :
    MeshBuild :=
  if (d.polygons loopTri.poly).mat_nr ≠ matIndex then st
  else if (d.polygons loopTri.poly).smooth then
    let r0 := smoothMeshVertex d st loopTri.tri0
    let r1 := smoothMeshVertex d r0.1 loopTri.tri1
    let r2 := smoothMeshVertex d r1.1 loopTri.tri2
    { r2.1 with tmpMeshTris := r2.1.tmpMeshTris ++ [(r0.2, r1.2, r2.2)] }
  else
    let faceNormal := NormalSource.face (d.loopV loopTri.tri0) (d.loopV loopTri.tri1)
      (d.loopV loopTri.tri2)
    let r0 := addMeshVertex d st loopTri.tri0 (d.loopV loopTri.tri0) faceNormal
    let r1 := addMeshVertex d r0.1 loopTri.tri1 (d.loopV loopTri.tri1) faceNormal
    let r2 := addMeshVertex d r1.1 loopTri.tri2 (d.loopV loopTri.tri2) faceNormal
    { r2.1 with tmpMeshTris := r2.1.tmpMeshTris ++ [(r0.2, r1.2, r2.2)] }

/-- The empty local variables at the start of `Scene_DefineBlenderMesh`. -/
def MeshBuild.empty : MeshBuild :=
  { tmpMeshVerts := [], tmpMeshNorms := [], tmpMeshUVs := [], tmpMeshCols := [],
    tmpMeshTris := [], vertFreeIndex := 0, vertexMap := [] }

/-- The mesh handed to `new luxrays::ExtTriangleMesh(...)` (lines 625-648): the two counts and
the buffers; the UV and color buffers are null when `loopUVs`, `loopCols` are. -/
structure ExtTriangleMesh where
  vertCount : Nat
  triCount : Nat
  verts : List Nat
  tris : List (Nat × Nat × Nat)
  norms : List NormalSource
  uvs : Option (List Nat)
  cols : Option (List Nat)
deriving DecidableEq, Repr

/-- `Scene_DefineBlenderMesh` (pyluxcoreforblender.cpp 470-657): `none` is the result `false`
(nothing defined), `some mesh` the result `true` with the mesh passed to `DefineMesh`. The
loop counter is a `u_int`: the list of loop triangles is shorter than `2^32`. The
transformation and the name of the mesh are not modelled. -/
def Scene_DefineBlenderMesh (d : BlenderMeshData) (matIndex : Int) : Option ExtTriangleMesh :=
  let st := d.loopTris.foldl (addLoopTri d matIndex) MeshBuild.empty
  if st.tmpMeshTris.length = 0 then none
  else
    some { vertCount := st.tmpMeshVerts.length
           triCount := st.tmpMeshTris.length
           verts := st.tmpMeshVerts
           tris := st.tmpMeshTris
           norms := st.tmpMeshNorms
           uvs := if d.hasUVs then some st.tmpMeshUVs else none
           cols := if d.hasCols then some st.tmpMeshCols else none }

/-- The invariant of the loop of `Scene_DefineBlenderMesh`: one normal per vertex, one UV and
one color per vertex when these inputs are given, every index stored in a triangle or in the
vertex map below the number of vertices, and `vertFreeIndex` not above it. -/
structure MeshInv (d : BlenderMeshData) (st : MeshBuild) : Prop where
  norms : st.tmpMeshNorms.length = st.tmpMeshVerts.length
  uvs : d.hasUVs = true → st.tmpMeshUVs.length = st.tmpMeshVerts.length
  cols : d.hasCols = true → st.tmpMeshCols.length = st.tmpMeshVerts.length
  tris : ∀ t ∈ st.tmpMeshTris, t.1 < st.tmpMeshVerts.length ∧
    t.2.1 < st.tmpMeshVerts.length ∧ t.2.2 < st.tmpMeshVerts.length
  map : ∀ kv ∈ st.vertexMap, kv.2 < st.tmpMeshVerts.length
  free : st.vertFreeIndex ≤ st.tmpMeshVerts.length

/-- The loop triangle belongs to the material `matIndex` (line 502). -/
def matchesMaterial (d : BlenderMeshData) (matIndex : Int) (loopTri : MLoopTri) : Bool :=
  (d.polygons loopTri.poly).mat_nr = matIndex

/-- The emitted triangle `t` is made of copies of the three Blender vertices of the loop
triangle `loopTri`, in the order of its corners (`verts` holds the Blender vertex index each
emitted vertex was copied from). -/
def triangleOf (d : BlenderMeshData) (verts : List Nat) (t : Nat × Nat × Nat)
    (loopTri : MLoopTri) : Prop :=
  verts[t.1]? = some (d.loopV loopTri.tri0) ∧
  verts[t.2.1]? = some (d.loopV loopTri.tri1) ∧
  verts[t.2.2]? = some (d.loopV loopTri.tri2)

/-- The invariant of the loop of `Scene_DefineBlenderMesh` that relates the triangles emitted
so far to the loop triangles `processed` so far, as long as `vertFreeIndex` has not wrapped. -/
structure MeshOrd (d : BlenderMeshData) (matIndex : Int) (processed : List MLoopTri)
    (st : MeshBuild) : Prop where
  free : st.vertFreeIndex = st.tmpMeshVerts.length
  map : ∀ kv ∈ st.vertexMap, st.tmpMeshVerts[kv.2]? = some kv.1
  tris : List.Forall₂ (triangleOf d st.tmpMeshVerts) st.tmpMeshTris
    (processed.filter (matchesMaterial d matIndex))
  size : st.tmpMeshVerts.length ≤ 3 * (processed.filter (matchesMaterial d matIndex)).length

/-! ### Hair strands (`Scene_DefineBlenderStrands`) -/

/-- A one-dimensional numpy array of `float32` as `Scene_DefineBlenderStrands` sees it: the
size `shape(0)` and the element at each offset from the start pointer `get_data()`. The sizes
are read into an `int`: they are below `2^31`. -/
structure FloatArray (F : Type) where
  size : Nat
  data : Nat → F

/-- The three input arrays that the filtering loop reads through a pointer. -/
inductive StrandArray where
  | points
  | uvs
  | colors
deriving DecidableEq, Repr

/-- What `Scene_DefineBlenderStrands` computes with floats, for a type `F` of float values.
`makePoint x y z` is `makePoint(arrayPos, worldscale)` for the three floats read at `arrayPos`;
`skipSegment lastPoint currPoint` is the outcome of the two tests of lines 995-1004 (one of the
points is the invalid point `(0, 0, 0)`, or the squared distance is below `epsilon`);
`fraction u` is `u - floor(u)`; `pointThickness step` is the thickness pushed for the point of
step `step` of a strand (lines 1014 and 1052-1062; 0 stands for the root point, and for the
default thickness of line 948); `pointColor step u v r g b` is the color pushed for the point
of step `step` (lines 1022-1038 and 1071-1092). -/
structure StrandFloats (F : Type) where
  zero : F
  one : F
  makePoint : F → F → F → F × F × F
  skipSegment : F × F × F → F × F × F → Bool
  fraction : F → F
  pointThickness : Nat → F
  pointColor : Nat → F → F → F → F → F → F × F × F

/-- The arguments of `Scene_DefineBlenderStrands` that decide which checks pass and what the
filtering loop reads. The type of the arrays stands for the checks of the dtype and of the
number of dimensions. `rootColorLen` and `tipColorLen` are `len(rootColor)`, `len(tipColor)`;
`imageError` is the exception thrown while the image is loaded (lines 890-916), if any;
`useThicknessArray` is the outcome of line 942 and `useRootTipColors` the one of line 841. -/
structure StrandsInput (F : Type) where
  pointsPerStrand : Nat
  points : FloatArray F
  colors : FloatArray F
  uvs : FloatArray F
  rootColorLen : Nat
  tipColorLen : Nat
  imageFilename : String
  imageError : Option String
  copyUVs : Bool
  tessellationTypeStr : String
  useThicknessArray : Bool
  useRootTipColors : Bool

/-- `inputPointCount` (line 807). -/
def StrandsInput.inputPointCount {F : Type} (inp : StrandsInput F) : Nat :=
  inp.points.size / 3

/-- `inputUVCount` (line 859). -/
def StrandsInput.inputUVCount {F : Type} (inp : StrandsInput F) : Nat :=
  inp.uvs.size / 2

/-- `inputStrandCount` (line 860); `pointsPerStrand` is not 0 there. -/
def StrandsInput.inputStrandCount {F : Type} (inp : StrandsInput F) : Nat :=
  inp.inputPointCount / inp.pointsPerStrand

/-- `useVertexCols` (line 824). -/
def StrandsInput.useVertexCols {F : Type} (inp : StrandsInput F) : Bool :=
  decide (inp.colors.size > 0)

/-- `colorsFromImage` (line 921). -/
def StrandsInput.colorsFromImage {F : Type} (inp : StrandsInput F) : Bool :=
  decide (inp.uvs.size > 0) && !(inp.imageFilename == "")

/-- `useColorsArray` (line 951). -/
def StrandsInput.useColorsArray {F : Type} (inp : StrandsInput F) : Bool :=
  inp.colorsFromImage || inp.useVertexCols || inp.useRootTipColors

/-- `useUVsArray` (line 957). -/
def StrandsInput.useUVsArray {F : Type} (inp : StrandsInput F) : Bool :=
  decide (inp.inputUVCount > 0) && inp.copyUVs

/-- The checks of `Scene_DefineBlenderStrands` before the filtering loop (lines 790-923), in
the order of the source: the message of the first `runtime_error` thrown, `none` when every
check passes. -/
def strandsValidate {F : Type} (inp : StrandsInput F) : Option String :=
  if inp.pointsPerStrand = 0 then
    some "pointsPerStrand needs to be greater than 0"
  else if inp.rootColorLen ≠ 3 then
    some "rootColor list has wrong length (required: 3)"
  else if inp.tipColorLen ≠ 3 then
    some "tipColor list has wrong length (required: 3)"
  else if inp.uvs.size > 0 ∧ inp.inputUVCount ≠ inp.inputStrandCount then
    some ("UV array size is " ++ toString inp.inputUVCount
      ++ " (expected: " ++ toString inp.inputStrandCount ++ ")")
  else if inp.copyUVs = true ∧ inp.uvs.size = 0 then
    some "Can not copy UVs without UV array"
  else if ¬ (inp.tessellationTypeStr = "ribbon" ∨ inp.tessellationTypeStr = "ribbonadaptive"
      ∨ inp.tessellationTypeStr = "solid" ∨ inp.tessellationTypeStr = "solidadaptive") then
    some ("Unknown tessellation type: " ++ inp.tessellationTypeStr)
  else if inp.colorsFromImage = true ∧ inp.imageError.isSome = true then
    inp.imageError
  else if (inp.imageFilename == "") = false ∧ inp.uvs.size = 0 then
    some "Image provided, but no UV data"
  else if inp.useVertexCols = true ∧ inp.colorsFromImage = true then
    some "Can't copy colors from both image and color array"
  else none

/-- The variables of the filtering loop that live across strands: the offsets of `pointPtr`,
`uvPtr` and `colorPtr` from the start of their arrays, and the output vectors. -/
structure StrandsState (F : Type) where
  pointIdx : Nat
  uvIdx : Nat
  colorIdx : Nat
  segments : List Nat
  filteredPoints : List F
  thickness : List F
  filteredColors : List F
  filteredUVs : List F
deriving DecidableEq, Repr

/-- The values read once per strand (line 971): `u`, `v`, `r`, `g`, `b`. -/
structure StrandHead (F : Type) where
  u : F
  v : F
  r : F
  g : F
  b : F

/-- A read `arr[index]` through one of the three pointers: the element when the offset is
inside the array, an error naming the array and the offset otherwise (the read is then outside
the memory of the array). -/
def readArray {F : Type} (which : StrandArray) (arr : FloatArray F) (index : Nat) :
    Except (StrandArray × Nat) F :=
  if index < arr.size then .ok (arr.data index) else .error (which, index)

/-- The pattern `makePoint(pointPtr, worldscale); pointPtr += pointStride` (lines 985-986 and
992-993). -/
def readPoint {F : Type} (ops : StrandFloats F) (inp : StrandsInput F) (st : StrandsState F) :
    Except (StrandArray × Nat) ((F × F × F) × StrandsState F) :=
  match readArray .points inp.points st.pointIdx with
  | .error e => .error e
  | .ok x =>
    match readArray .points inp.points (st.pointIdx + 1) with
    | .error e => .error e
    | .ok y =>
      match readArray .points inp.points (st.pointIdx + 2) with
      | .error e => .error e
      | .ok z => .ok (ops.makePoint x y z, { st with pointIdx := st.pointIdx + 3 })

/-- The pushes for one kept point (lines 1007-1043 for the root point, with `step` 0, and
lines 1046-1097 for the current point): three floats of the point, and one thickness, two UV
floats and three color floats when these arrays are used. The increment of `validPointCount`
is done by the caller. -/
def pushStrandPoint {F : Type} (ops : StrandFloats F) (inp : StrandsInput F)
    (head : StrandHead F) (step : Nat) (point : F × F × F) (st : StrandsState F) :
    StrandsState F :=
  { st with
    filteredPoints := st.filteredPoints ++ [point.1, point.2.1, point.2.2]
    thickness :=
      if inp.useThicknessArray then st.thickness ++ [ops.pointThickness step] else st.thickness
    filteredUVs :=
      if inp.useUVsArray then st.filteredUVs ++ [head.u, head.v] else st.filteredUVs
    filteredColors :=
      if inp.useColorsArray then
        st.filteredColors ++
          [(ops.pointColor step head.u head.v head.r head.g head.b).1,
           (ops.pointColor step head.u head.v head.r head.g head.b).2.1,
           (ops.pointColor step head.u head.v head.r head.g head.b).2.2]
      else st.filteredColors }

/-- The increment `validPointCount++` of an `u_short`. -/
def incrValidPointCount (validPointCount : Nat) : Nat :=
  (validPointCount + 1) % 65536

/-- One iteration of the loop over the steps of a strand (lines 991-1097): returns the new
`currPoint`, the new `validPointCount` and the new state. -/
def strandStep {F : Type} (ops : StrandFloats F) (inp : StrandsInput F) (head : StrandHead F)
    (step : Nat) (currPoint : F × F × F) (validPointCount : Nat) (st : StrandsState F) :
    Except (StrandArray × Nat) ((F × F × F) × Nat × StrandsState F) :=
  let lastPoint := currPoint
  match readPoint ops inp st with
  | .error e => .error e
  | .ok (currPoint, st) =>
    if ops.skipSegment lastPoint currPoint then .ok (currPoint, validPointCount, st)
    else if step = 1 then
      .ok (currPoint, incrValidPointCount (incrValidPointCount validPointCount),
        pushStrandPoint ops inp head step currPoint
          (pushStrandPoint ops inp head 0 lastPoint st))
    else
      .ok (currPoint, incrValidPointCount validPointCount,
        pushStrandPoint ops inp head step currPoint st)

/-- The loop `for (u_int step = 1; step < pointsPerStrand; ++step)` (line 990), for the
`remaining` iterations from `step` on. -/
def strandSteps {F : Type} (ops : StrandFloats F) (inp : StrandsInput F) (head : StrandHead F) :
    Nat → Nat → F × F × F → Nat → StrandsState F →
    Except (StrandArray × Nat) ((F × F × F) × Nat × StrandsState F)
  | 0, _, currPoint, validPointCount, st => .ok (currPoint, validPointCount, st)
  | remaining + 1, step, currPoint, validPointCount, st =>
    match strandStep ops inp head step currPoint validPointCount st with
    | .error e => .error e
    | .ok (currPoint, validPointCount, st) =>
      strandSteps ops inp head remaining (step + 1) currPoint validPointCount st

/-- Lines 972-978: read `u` and `v` when the UVs are used. -/
def readStrandUV {F : Type} (ops : StrandFloats F) (inp : StrandsInput F) (st : StrandsState F) :
    Except (StrandArray × Nat) (F × F × StrandsState F) :=
  if inp.useUVsArray || inp.colorsFromImage then
    match readArray .uvs inp.uvs st.uvIdx with
    | .error e => .error e
    | .ok u =>
      match readArray .uvs inp.uvs (st.uvIdx + 1) with
      | .error e => .error e
      | .ok v => .ok (ops.fraction u, ops.fraction v, { st with uvIdx := st.uvIdx + 2 })
  else .ok (ops.zero, ops.zero, st)

/-- Lines 979-983: read `r`, `g` and `b` when the array of colors is not empty. -/
def readStrandColor {F : Type} (ops : StrandFloats F) (inp : StrandsInput F)
    (st : StrandsState F) : Except (StrandArray × Nat) (F × F × F × StrandsState F) :=
  if inp.useVertexCols then
    match readArray .colors inp.colors st.colorIdx with
    | .error e => .error e
    | .ok r =>
      match readArray .colors inp.colors (st.colorIdx + 1) with
      | .error e => .error e
      | .ok g =>
        match readArray .colors inp.colors (st.colorIdx + 2) with
        | .error e => .error e
        | .ok b => .ok (r, g, b, { st with colorIdx := st.colorIdx + 3 })
  else .ok (ops.one, ops.one, ops.one, st)

/-- The end of the body of the `while` loop (lines 1100-1119): the rollback of a strand with a
single valid point, or the record of the number of segments of the strand. -/
def closeStrand {F : Type} (inp : StrandsInput F) (validPointCount : Nat)
    (st : StrandsState F) : StrandsState F :=
  if validPointCount = 1 then
    { st with
      filteredPoints := st.filteredPoints.dropLast.dropLast.dropLast
      thickness := if inp.useThicknessArray then st.thickness.dropLast else st.thickness
      filteredColors :=
        if inp.useColorsArray then st.filteredColors.dropLast.dropLast.dropLast
        else st.filteredColors
      filteredUVs :=
        if inp.useUVsArray then st.filteredUVs.dropLast.dropLast else st.filteredUVs }
  else if validPointCount > 1 then
    { st with segments := st.segments ++ [validPointCount - 1] }
  else st

/-- The body of the `while` loop (lines 968-1119): one strand. -/
def strandBody {F : Type} (ops : StrandFloats F) (inp : StrandsInput F) (st : StrandsState F) :
    Except (StrandArray × Nat) (StrandsState F) :=
  match readStrandUV ops inp st with
  | .error e => .error e
  | .ok (u, v, st) =>
    match readStrandColor ops inp st with
    | .error e => .error e
    | .ok (r, g, b, st) =>
      match readPoint ops inp st with
      | .error e => .error e
      | .ok (currPoint, st) =>
        match strandSteps ops inp ⟨u, v, r, g, b⟩ (inp.pointsPerStrand - 1) 1 currPoint 0 st with
        | .error e => .error e
        | .ok (_, validPointCount, st) => .ok (closeStrand inp validPointCount st)

/-- The loop `while (pointPtr < (pointsStartPtr + pointArraySize))` (line 967), with a bound
on the number of iterations: `none` when the bound is reached. -/
def strandsLoop {F : Type} (ops : StrandFloats F) (inp : StrandsInput F) :
    Nat → StrandsState F → Option (Except (StrandArray × Nat) (StrandsState F))
  | 0, st => if st.pointIdx < inp.points.size then none else some (.ok st)
  | fuel + 1, st =>
    if st.pointIdx < inp.points.size then
      match strandBody ops inp st with
      | .error e => some (.error e)
      | .ok st => strandsLoop ops inp fuel st
    else some (.ok st)

/-- The state at the start of the filtering loop (lines 933-965). -/
def StrandsState.start {F : Type} (ops : StrandFloats F) (inp : StrandsInput F) :
    StrandsState F :=
  { pointIdx := 0, uvIdx := 0, colorIdx := 0, segments := [], filteredPoints := [],
    thickness := if inp.useThicknessArray then [] else [ops.pointThickness 0],
    filteredColors := [], filteredUVs := [] }

/-- What `Scene_DefineBlenderStrands` hands to the hair file (lines 1140-1191): the number of
hairs, the number of points and the arrays. -/
structure HairFile (F : Type) where
  hairCount : Nat
  pointCount : Nat
  segments : List Nat
  points : List F
  thickness : List F
  colors : List F
  uvs : List F
deriving DecidableEq, Repr

/-- The outcomes of `Scene_DefineBlenderStrands`: a `runtime_error` of the checks, a read
outside one of the input arrays in the filtering loop, the result `false` (no valid segment),
or the result `true` with the hair file defined. -/
inductive StrandsOutcome (F : Type) where
  | invalid (msg : String)
  | outOfBounds (array : StrandArray) (index : Nat)
  | aborted
  | defined (hair : HairFile F)
deriving DecidableEq, Repr

/-- `Scene_DefineBlenderStrands` (pyluxcoreforblender.cpp 767-1199). Every iteration of the
`while` loop moves `pointPtr` forward, so `points.size` iterations are enough
(`strandsLoop_total`). -/
def Scene_DefineBlenderStrands {F : Type} (ops : StrandFloats F) (inp : StrandsInput F) :
    Option (StrandsOutcome F) :=
  match strandsValidate inp with
  | some msg => some (.invalid msg)
  | none =>
    match strandsLoop ops inp inp.points.size (StrandsState.start ops inp) with
    | none => none
    | some (.error (array, index)) => some (.outOfBounds array index)
    | some (.ok st) =>
      if st.segments.isEmpty then some .aborted
      else
        some (.defined
          { hairCount := st.segments.length
            pointCount := st.filteredPoints.length / 3
            segments := st.segments
            points := st.filteredPoints
            thickness := st.thickness
            colors := st.filteredColors
            uvs := st.filteredUVs })

/-! ## Concrete engines and environments -/

/-- An environment where the cache is enabled and `Preprocess` completes. -/
def envEnabled : Env :=
  { CheckSamplersForNoTile := fun _ _ => none
    sobolTag := "SOBOL"
    FromProperties := fun _ _ => true
    Preprocess := fun _ _ _ => none }

/-- An environment where the cache is enabled and `Preprocess` raises. -/
def envRaising : Env :=
  { CheckSamplersForNoTile := fun _ _ => none
    sobolTag := "SOBOL"
    FromProperties := fun _ _ => true
    Preprocess := fun _ _ _ => some "out of memory" }

/-- An environment where the cache is disabled. -/
def envDisabled : Env :=
  { CheckSamplersForNoTile := fun _ _ => none
    sobolTag := "SOBOL"
    FromProperties := fun _ _ => false
    Preprocess := fun _ _ _ => none }

/-- An engine as its constructor leaves it (`photonGICache(nullptr)`), with an empty
configuration, scene 5, boot seed 131 and 4 render threads. -/
def engineFresh : BakeCPURenderEngine :=
  { renderConfig := { cfg := [], scene := 5 }
    bootStrapSeed := 131
    startRenderState := none
    photonGICache := none
    renderThreads := 4
    threadsRunning := false
    pathTracer := { options := none, pixelFilterDistribution := false, photonGICache := none }
    mapInfos := [] }

/-- The fresh engine alone in an empty heap. -/
def worldFresh : World := { engine := engineFresh, caches := [], trace := [] }

/-- The fresh engine after a first `Start`: running, with the cache at address 0. -/
def worldRunning : World := (BakeCPURenderEngine.StartLockLess envEnabled worldFresh).world

/-- The fresh engine after a `Start` in which `Preprocess` raised. -/
def worldFailedStart : World := (BakeCPURenderEngine.StartLockLess envRaising worldFresh).world

/-- A render state of a BAKECPU engine with seed 41 and the cache at address 0. -/
def stateResume : BakeCPURenderState :=
  { engineTag := "BAKECPU", bootStrapSeed := 41, photonGICache := some 0 }

/-- The fresh engine with `stateResume` pending; the cache at address 0 is a deserialized one,
without scene. -/
def worldResume : World :=
  { engine := { engineFresh with startRenderState := some stateResume }
    caches := [{ scene := none, preprocessed := 1, deleted := false }]
    trace := [] }

/-- A render state recorded by an engine of another type. -/
def stateForeign : BakeCPURenderState :=
  { engineTag := "PATHCPU", bootStrapSeed := 41, photonGICache := some 0 }

/-- The fresh engine with `stateForeign` pending. -/
def worldForeign : World :=
  { engine := { engineFresh with startRenderState := some stateForeign }
    caches := [{ scene := none, preprocessed := 1, deleted := false }]
    trace := [] }

/-- The engine of `worldResume` configured with `sampler.type = RTPATHCPUSAMPLER`. -/
def worldRTPath : World :=
  { worldResume with
    engine :=
      { worldResume.engine with
        renderConfig :=
          { cfg := [{ name := "sampler.type", values := ["RTPATHCPUSAMPLER"] }], scene := 5 } } }

/-- A render state of a BAKECPU engine that recorded the largest `u_int` seed, with no cache. -/
def stateMaxSeed : BakeCPURenderState :=
  { engineTag := "BAKECPU", bootStrapSeed := 4294967295, photonGICache := none }

/-- The fresh engine with `stateMaxSeed` pending. -/
def worldMaxSeed : World :=
  { engine := { engineFresh with startRenderState := some stateMaxSeed }
    caches := []
    trace := [] }

/-- A film before `SetUpOCL`, with arbitrary values in its OpenCL members. -/
def filmRaw : Film :=
  { oclPlatformIndex := 0
    oclDeviceIndex := 0
    ctx := none
    selectedDeviceDesc := none
    oclIntersectionDevice := none
    ocl_RGB_TONEMAPPED := none }

/-- A film after `SetUpOCL`: platform and device index are -1, no context, no device. -/
def filmSetUp : Film := Film.SetUpOCL filmRaw

/-- The film of `filmSetUp` with the device of index 2 requested. -/
def filmIndex2 : Film := { filmSetUp with oclDeviceIndex := 2 }

/-- A list of four OpenCL devices: a CPU, a GPU that reports OpenCL 1.0, a CPU and a GPU. -/
def descsMixed : List DeviceDescription :=
  [{ name := "cpu0", type := .DEVICE_TYPE_OPENCL_CPU, openCLVersion := "OpenCL 1.2",
     isOpenCL_1_1 := true },
   { name := "gpu0", type := .DEVICE_TYPE_OPENCL_GPU, openCLVersion := "OpenCL 1.0",
     isOpenCL_1_1 := false },
   { name := "cpu1", type := .DEVICE_TYPE_OPENCL_CPU, openCLVersion := "OpenCL 1.2",
     isOpenCL_1_1 := true },
   { name := "gpu1", type := .DEVICE_TYPE_OPENCL_GPU, openCLVersion := "OpenCL 1.2",
     isOpenCL_1_1 := true }]

/-- The devices of `descsMixed`, all reporting OpenCL 1.2. -/
def descsMixedNew : List DeviceDescription :=
  descsMixed.map fun d => { d with openCLVersion := "OpenCL 1.2", isOpenCL_1_1 := true }

/-- A driver that allocates every device. -/
def allocAlways : Nat → Option String := fun _ => none

/-- A configuration whose only bake map key has an empty tag field; its type is `LIGHTMAP`. -/
def cfgEmptyTag : Properties :=
  [{ name := "bake.maps..type", values := ["LIGHTMAP"] }]

/-- A configuration with two bake maps, `0` and `b`, and a key that is not a bake map key. -/
def cfgTwoMaps : Properties :=
  [{ name := "bake.maps.0.type", values := ["LIGHTMAP"] },
   { name := "bake.maps.0.width", values := ["64"] },
   { name := "sampler.type", values := ["SOBOL"] },
   { name := "bake.maps.b.objectnames", values := ["x", "y"] },
   { name := "bake.maps.0.filename", values := ["f.png"] }]

/-- A configuration with one bake map, `0`, of type `LIGHTMAP` and without a key
`bake.maps.0.objectnames`. -/
def cfgNoObjectNames : Properties :=
  [{ name := "bake.maps.0.type", values := ["LIGHTMAP"] }]

/-- A configuration with one bake map `m` that sets every key but the type. -/
def cfgFullMap : Properties :=
  [{ name := "bake.maps.m.filename", values := ["wall.exr"] },
   { name := "bake.maps.m.width", values := ["1024"] },
   { name := "bake.maps.m.height", values := ["256"] },
   { name := "bake.maps.m.objectnames", values := ["wall", "floor", "wall"] }]

/-- A Blender mesh of four vertices and three loop triangles: two smooth shaded triangles of
material 0 that share the vertices 0 and 2, and a flat shaded triangle of material 1 between
them. -/
def meshExample : BlenderMeshData :=
  { loopTris := [⟨0, 1, 2, 0⟩, ⟨3, 4, 5, 1⟩, ⟨6, 7, 8, 2⟩]
    loopV := fun i => [0, 1, 2, 2, 1, 3, 0, 2, 3].getD i 0
    polygons := fun p => [⟨0, true⟩, ⟨1, false⟩, ⟨0, true⟩].getD p ⟨0, false⟩
    hasUVs := false
    hasCols := false
    uvDiffers := fun _ _ => false
    colDiffers := fun _ _ => false }

/-- The mesh defined from `meshExample` for the material 0. -/
def meshExampleResult : ExtTriangleMesh :=
  { vertCount := 4
    triCount := 2
    verts := [0, 1, 2, 3]
    tris := [(0, 1, 2), (0, 2, 3)]
    norms := [.vertex 0, .vertex 1, .vertex 2, .vertex 3]
    uvs := none
    cols := none }

/-- The float operations on values for which they are exact: `worldscale` is 1, the
coordinates are small integers, `epsilon` is `0.000000001`, the thickness is constant and the
color of a point is the color read for its strand (`rootColor` and `tipColor` white, no
image). -/
def exactFloats : StrandFloats ℚ :=
  { zero := 0
    one := 1
    makePoint := fun x y z => (x * 1, y * 1, z * 1)
    skipSegment := fun lastPoint currPoint =>
      decide (lastPoint = (0, 0, 0)) || decide (currPoint = (0, 0, 0)) ||
      decide ((currPoint.1 - lastPoint.1) * (currPoint.1 - lastPoint.1)
        + (currPoint.2.1 - lastPoint.2.1) * (currPoint.2.1 - lastPoint.2.1)
        + (currPoint.2.2 - lastPoint.2.2) * (currPoint.2.2 - lastPoint.2.2)
        < 1 / 1000000000)
    fraction := fun u => u - ⌊u⌋
    pointThickness := fun _ => 1
    pointColor := fun _ _ _ r g b => (r, g, b) }

/-- A call with one point per strand, an array of points of 4 floats (not a multiple of 3), an
array of colors of a single float and no UVs, no image: every check of lines 790-923 passes. -/
def strandsShortArrays : StrandsInput ℚ :=
  { pointsPerStrand := 1
    points := ⟨4, fun i => [1, 0, 0, 2].getD i 0⟩
    colors := ⟨1, fun _ => 1⟩
    uvs := ⟨0, fun _ => 0⟩
    rootColorLen := 3
    tipColorLen := 3
    imageFilename := ""
    imageError := none
    copyUVs := false
    tessellationTypeStr := "ribbon"
    useThicknessArray := false
    useRootTipColors := false }

/-- The call `strandsShortArrays` with an empty array of colors. -/
def strandsOddPoints : StrandsInput ℚ :=
  { strandsShortArrays with colors := ⟨0, fun _ => 0⟩ }

/-- A call with a single strand of 65538 points `(1, 0, 0)`, `(2, 0, 0)`, ...,
`(65538, 0, 0)`: none is the invalid point and every segment has length 1. No colors, no UVs,
no image; every check of lines 790-923 passes. -/
def strandsLongStrand : StrandsInput ℚ :=
  { pointsPerStrand := 65538
    points := ⟨196614, fun i => if i % 3 = 0 then ((i / 3 + 1 : Nat) : ℚ) else 0⟩
    colors := ⟨0, fun _ => 0⟩
    uvs := ⟨0, fun _ => 0⟩
    rootColorLen := 3
    tipColorLen := 3
    imageFilename := ""
    imageError := none
    copyUVs := false
    tessellationTypeStr := "ribbon"
    useThicknessArray := false
    useRootTipColors := false }

/-- The point of index `k` of the strand of `strandsLongStrand`. -/
def linePoint (k : Nat) : ℚ × ℚ × ℚ :=
  (((k + 1 : Nat) : ℚ), 0, 0)

/-! ## The steps of `StartLockLess`, case by case -/

open BakeCPURenderEngine

theorem failed_error {α : Type} (w : World) (msg : String) :
    ({ world := w, result := .error msg } : Outcome α).failed = true := rfl

theorem newEvents_append (w w2 : World) (evs : List Event) (h : w2.trace = w.trace ++ evs) :
    newEvents w w2 = evs := by
  simp [newEvents, h]

theorem updateCache_length (f : PhotonGICache → PhotonGICache) (xs : List PhotonGICache)
    (c : CachePtr) : (updateCache f xs c).length = xs.length := by
  induction xs generalizing c with
  | nil => rfl
  | cons x xs ih =>
    cases c with
    | zero => rfl
    | succ c => simp [updateCache, ih]

theorem updateCache_get (f : PhotonGICache → PhotonGICache) (xs : List PhotonGICache)
    (c : CachePtr) : (updateCache f xs c)[c]? = xs[c]?.map f := by
  induction xs generalizing c with
  | nil => simp [updateCache]
  | cons x xs ih =>
    cases c with
    | zero => simp [updateCache]
    | succ c => simp [updateCache, ih]

theorem updateCache_append_last (f : PhotonGICache → PhotonGICache) (xs : List PhotonGICache)
    (x : PhotonGICache) : updateCache f (xs ++ [x]) xs.length = xs ++ [f x] := by
  induction xs with
  | nil => rfl
  | cons y ys ih => simp [updateCache, ih]

theorem checkEngineTag_ok (rs : BakeCPURenderState) (h : rs.engineTag = GetObjectTag) :
    CheckEngineTag rs GetObjectTag = .ok () := by
  simp [CheckEngineTag, h]

theorem checkEngineTag_error (rs : BakeCPURenderState) (h : rs.engineTag ≠ GetObjectTag) :
    ∃ msg, CheckEngineTag rs GetObjectTag = .error msg := by
  refine ⟨"Wrong engine type in a render state: " ++ rs.engineTag ++ " instead of " ++
    GetObjectTag, ?_⟩
  unfold CheckEngineTag
  rw [if_pos (fun h2 => h h2.symm)]

theorem restore_of_no_state (w : World) (h : w.engine.startRenderState = none) :
    restoreRenderState w = { world := w, result := .ok () } := by
  simp [restoreRenderState, h]

theorem restore_of_mismatch (w : World) (rs : BakeCPURenderState)
    (hstate : w.engine.startRenderState = some rs) (htag : rs.engineTag ≠ GetObjectTag) :
    ∃ msg, restoreRenderState w = { world := w, result := .error msg } := by
  obtain ⟨msg, hmsg⟩ := checkEngineTag_error rs htag
  exact ⟨msg, by simp [restoreRenderState, hstate, hmsg]⟩

theorem restore_of_cache (w : World) (rs : BakeCPURenderState) (c : CachePtr)
    (hstate : w.engine.startRenderState = some rs) (htag : rs.engineTag = GetObjectTag)
    (hc : rs.photonGICache = some c) :
    restoreRenderState w =
      { world :=
          { engine :=
              { w.engine with
                bootStrapSeed := (rs.bootStrapSeed + 1) % UINT_MOD
                photonGICache := some c
                startRenderState := none }
            caches := updateCache (PhotonGICache.SetScene w.engine.renderConfig.scene) w.caches c
            trace := w.trace ++
              [.setSeed ((rs.bootStrapSeed + 1) % UINT_MOD),
               .setScene c w.engine.renderConfig.scene,
               .deleteRenderState { rs with photonGICache := none }] }
        result := .ok () } := by
  simp [restoreRenderState, hstate, checkEngineTag_ok rs htag, transferRenderState, SetSeed, hc]

theorem restore_of_no_cache (w : World) (rs : BakeCPURenderState)
    (hstate : w.engine.startRenderState = some rs) (htag : rs.engineTag = GetObjectTag)
    (hc : rs.photonGICache = none) :
    restoreRenderState w =
      { world :=
          { engine :=
              { w.engine with
                bootStrapSeed := (rs.bootStrapSeed + 1) % UINT_MOD
                photonGICache := none
                startRenderState := none }
            caches := w.caches
            trace := w.trace ++
              [.setSeed ((rs.bootStrapSeed + 1) % UINT_MOD),
               .deleteRenderState { rs with photonGICache := none }] }
        result := .ok () } := by
  simp [restoreRenderState, hstate, checkEngineTag_ok rs htag, transferRenderState, SetSeed, hc]

theorem restore_engine (w : World) (rs : BakeCPURenderState)
    (hstate : w.engine.startRenderState = some rs) (htag : rs.engineTag = GetObjectTag) :
    (restoreRenderState w).result = .ok () ∧
    (restoreRenderState w).world.engine =
      { w.engine with
        bootStrapSeed := (rs.bootStrapSeed + 1) % UINT_MOD
        photonGICache := rs.photonGICache
        startRenderState := none } := by
  cases hc : rs.photonGICache with
  | none => rw [restore_of_no_cache w rs hstate htag hc]; exact ⟨rfl, rfl⟩
  | some c => rw [restore_of_cache w rs c hstate htag hc]; exact ⟨rfl, rfl⟩

theorem alloc_of_some (env : Env) (w : World) (c : CachePtr)
    (h : w.engine.photonGICache = some c) :
    allocPhotonGICache env w = { world := w, result := .ok () } := by
  simp [allocPhotonGICache, h]

theorem alloc_of_disabled (env : Env) (w : World) (h : w.engine.photonGICache = none)
    (hf : env.FromProperties w.engine.renderConfig.scene w.engine.renderConfig.cfg = false) :
    allocPhotonGICache env w =
      { world := { w with trace := w.trace ++
          [.fromProperties w.engine.renderConfig.scene w.engine.renderConfig.cfg none] }
        result := .ok () } := by
  simp [allocPhotonGICache, h, hf]

theorem alloc_of_raise (env : Env) (w : World) (msg : String)
    (h : w.engine.photonGICache = none)
    (hf : env.FromProperties w.engine.renderConfig.scene w.engine.renderConfig.cfg = true)
    (hp : env.Preprocess w.engine.renderConfig.scene w.engine.renderConfig.cfg
      w.engine.renderThreads = some msg) :
    allocPhotonGICache env w =
      { world :=
          { engine := { w.engine with photonGICache := some w.caches.length }
            caches := w.caches ++
              [{ scene := some w.engine.renderConfig.scene, preprocessed := 0, deleted := false }]
            trace := w.trace ++
              [.fromProperties w.engine.renderConfig.scene w.engine.renderConfig.cfg
                (some w.caches.length),
               .preprocess w.caches.length w.engine.renderThreads] }
        result := .error msg } := by
  simp [allocPhotonGICache, h, hf, hp]

theorem alloc_of_built (env : Env) (w : World)
    (h : w.engine.photonGICache = none)
    (hf : env.FromProperties w.engine.renderConfig.scene w.engine.renderConfig.cfg = true)
    (hp : env.Preprocess w.engine.renderConfig.scene w.engine.renderConfig.cfg
      w.engine.renderThreads = none) :
    allocPhotonGICache env w =
      { world :=
          { engine := { w.engine with photonGICache := some w.caches.length }
            caches := w.caches ++
              [{ scene := some w.engine.renderConfig.scene, preprocessed := 1, deleted := false }]
            trace := w.trace ++
              [.fromProperties w.engine.renderConfig.scene w.engine.renderConfig.cfg
                (some w.caches.length),
               .preprocess w.caches.length w.engine.renderThreads] }
        result := .ok () } := by
  simp [allocPhotonGICache, h, hf, hp, updateCache_append_last]

theorem alloc_cases (env : Env) (w : World) (P : Outcome Unit → Prop)
    (h1 : ∀ c, w.engine.photonGICache = some c → P (allocPhotonGICache env w))
    (h2 : w.engine.photonGICache = none →
      env.FromProperties w.engine.renderConfig.scene w.engine.renderConfig.cfg = false →
      P (allocPhotonGICache env w))
    (h3 : ∀ msg, w.engine.photonGICache = none →
      env.FromProperties w.engine.renderConfig.scene w.engine.renderConfig.cfg = true →
      env.Preprocess w.engine.renderConfig.scene w.engine.renderConfig.cfg
        w.engine.renderThreads = some msg → P (allocPhotonGICache env w))
    (h4 : w.engine.photonGICache = none →
      env.FromProperties w.engine.renderConfig.scene w.engine.renderConfig.cfg = true →
      env.Preprocess w.engine.renderConfig.scene w.engine.renderConfig.cfg
        w.engine.renderThreads = none → P (allocPhotonGICache env w)) :
    P (allocPhotonGICache env w) := by
  cases hc : w.engine.photonGICache with
  | some c => exact h1 c hc
  | none =>
    cases hf : env.FromProperties w.engine.renderConfig.scene w.engine.renderConfig.cfg with
    | false => exact h2 hc hf
    | true =>
      cases hp : env.Preprocess w.engine.renderConfig.scene w.engine.renderConfig.cfg
          w.engine.renderThreads with
      | some msg => exact h3 msg hc hf hp
      | none => exact h4 hc hf hp

theorem alloc_seed (env : Env) (w : World) :
    (allocPhotonGICache env w).world.engine.bootStrapSeed = w.engine.bootStrapSeed := by
  apply alloc_cases env w (fun o => o.world.engine.bootStrapSeed = w.engine.bootStrapSeed)
  · intro c h; rw [alloc_of_some env w c h]
  · intro h hf; rw [alloc_of_disabled env w h hf]
  · intro msg h hf hp; rw [alloc_of_raise env w msg h hf hp]
  · intro h hf hp; rw [alloc_of_built env w h hf hp]

theorem start_of_invalid (env : Env) (w : World) (msg : String)
    (h : checkSamplers env w.engine.renderConfig.cfg = some msg) :
    StartLockLess env w = { world := w, result := .error msg } := by
  simp [StartLockLess, h]

theorem start_of_restore_error (env : Env) (w : World) (msg : String)
    (h : checkSamplers env w.engine.renderConfig.cfg = none)
    (hr : (restoreRenderState w).result = .error msg) :
    StartLockLess env w = { world := (restoreRenderState w).world, result := .error msg } := by
  simp [StartLockLess, h, hr]

theorem start_of_alloc_error (env : Env) (w : World) (msg : String)
    (h : checkSamplers env w.engine.renderConfig.cfg = none)
    (hr : (restoreRenderState w).result = .ok ())
    (ha : (allocPhotonGICache env (restoreRenderState w).world).result = .error msg) :
    StartLockLess env w =
      { world := (allocPhotonGICache env (restoreRenderState w).world).world
        result := .error msg } := by
  simp [StartLockLess, h, hr, ha]

theorem start_of_alloc_ok (env : Env) (w : World)
    (h : checkSamplers env w.engine.renderConfig.cfg = none)
    (hr : (restoreRenderState w).result = .ok ())
    (ha : (allocPhotonGICache env (restoreRenderState w).world).result = .ok ()) :
    StartLockLess env w =
      { world := startPathTracerAndThreads
          (allocPhotonGICache env (restoreRenderState w).world).world
        result := .ok () } := by
  simp [StartLockLess, h, hr, ha]

theorem start_seed (env : Env) (w : World)
    (h : checkSamplers env w.engine.renderConfig.cfg = none) :
    (StartLockLess env w).world.engine.bootStrapSeed =
      (restoreRenderState w).world.engine.bootStrapSeed := by
  cases hr : (restoreRenderState w).result with
  | error msg => rw [start_of_restore_error env w msg h hr]
  | ok u =>
    cases ha : (allocPhotonGICache env (restoreRenderState w).world).result with
    | error msg => rw [start_of_alloc_error env w msg h hr ha]; exact alloc_seed _ _
    | ok u2 => rw [start_of_alloc_ok env w h hr ha]; exact alloc_seed _ _

theorem start_of_restored_cache (env : Env) (w : World) (rs : BakeCPURenderState)
    (c : CachePtr) (h : checkSamplers env w.engine.renderConfig.cfg = none)
    (hstate : w.engine.startRenderState = some rs) (htag : rs.engineTag = GetObjectTag)
    (hc : rs.photonGICache = some c) :
    StartLockLess env w =
      { world := startPathTracerAndThreads (restoreRenderState w).world, result := .ok () } := by
  have hr := (restore_engine w rs hstate htag).1
  have he : (restoreRenderState w).world.engine.photonGICache = some c := by
    rw [(restore_engine w rs hstate htag).2]; exact hc
  have ha := alloc_of_some env (restoreRenderState w).world c he
  rw [start_of_alloc_ok env w h hr (by rw [ha]), ha]

theorem restore_no_cache_frame (w : World)
    (hres : (restoreRenderState w).result = .ok ())
    (hnone : (restoreRenderState w).world.engine.photonGICache = none) :
    (restoreRenderState w).world.caches = w.caches ∧
    (restoreRenderState w).world.engine.renderConfig = w.engine.renderConfig ∧
    (restoreRenderState w).world.engine.renderThreads = w.engine.renderThreads ∧
    (restoreRenderState w).world.engine.threadsRunning = w.engine.threadsRunning ∧
    (restoreRenderState w).world.engine.startRenderState = none ∧
    ∃ evs, (restoreRenderState w).world.trace = w.trace ++ evs ∧
      factoryCalls evs = [] ∧ preprocessCalls evs = [] ∧ Event.startThreads ∉ evs := by
  cases hs : w.engine.startRenderState with
  | none =>
    rw [restore_of_no_state w hs]
    exact ⟨rfl, rfl, rfl, rfl, hs, [], by simp, rfl, rfl, by simp⟩
  | some rs =>
    by_cases htag : rs.engineTag = GetObjectTag
    · cases hc : rs.photonGICache with
      | none =>
        rw [restore_of_no_cache w rs hs htag hc]
        exact ⟨rfl, rfl, rfl, rfl, rfl, _, rfl, rfl, rfl, by simp⟩
      | some c =>
        exfalso
        rw [restore_of_cache w rs c hs htag hc] at hnone
        simp at hnone
    · exfalso
      obtain ⟨msg, hmsg⟩ := restore_of_mismatch w rs hs htag
      rw [hmsg] at hres
      simp at hres

theorem factoryCalls_append (xs ys : List Event) :
    factoryCalls (xs ++ ys) = factoryCalls xs ++ factoryCalls ys := by
  simp [factoryCalls]

theorem preprocessCalls_append (xs ys : List Event) :
    preprocessCalls (xs ++ ys) = preprocessCalls xs ++ preprocessCalls ys := by
  simp [preprocessCalls]

theorem checkSamplers_of_rtpath (env : Env) (cfg : Properties)
    (h : samplerType env cfg = .ok "RTPATHCPUSAMPLER") :
    ∃ msg, checkSamplers env cfg = some msg := by
  unfold checkSamplers
  cases env.CheckSamplersForNoTile engineTypeName cfg with
  | some msg => exact ⟨msg, rfl⟩
  | none => exact ⟨"BAKECPU render engine can not use RTPATHCPUSAMPLER",
      by simp [checkRTPathSampler, h]⟩

theorem samplerType_of_absent (env : Env) (cfg : Properties)
    (h : ∀ p ∈ cfg, p.name ≠ "sampler.type") :
    samplerType env cfg = .ok env.sobolTag := by
  have hfind : cfg.find? (fun p => p.name == "sampler.type") = none := by
    rw [List.find?_eq_none]
    intro p hp
    simpa using h p hp
  simp [samplerType, Properties.Get, hfind, Property.GetString]

theorem start_of_held_cache (env : Env) (w : World) (c : CachePtr)
    (h : checkSamplers env w.engine.renderConfig.cfg = none)
    (hstate : w.engine.startRenderState = none)
    (hc : w.engine.photonGICache = some c) :
    StartLockLess env w = { world := startPathTracerAndThreads w, result := .ok () } := by
  have hr := restore_of_no_state w hstate
  have ha := alloc_of_some env w c hc
  rw [start_of_alloc_ok env w h (by rw [hr]) (by rw [hr, ha]), hr, ha]

/-! ## Traces of sequences of calls -/

theorem preprocessedCaches_of_no_calls (xs : List Event) (h : preprocessCalls xs = []) :
    preprocessedCaches xs = [] := by
  simp [preprocessedCaches, h]

theorem deleteCache_length (caches : List PhotonGICache) (p : Option CachePtr) :
    (deleteCache caches p).length = caches.length := by
  cases p with
  | none => rfl
  | some c => exact updateCache_length _ _ _

theorem alloc_state (env : Env) (w : World) :
    (allocPhotonGICache env w).world.engine.startRenderState = w.engine.startRenderState := by
  apply alloc_cases env w
    (fun o => o.world.engine.startRenderState = w.engine.startRenderState)
  · intro c h; rw [alloc_of_some env w c h]
  · intro h hf; rw [alloc_of_disabled env w h hf]
  · intro msg h hf hp; rw [alloc_of_raise env w msg h hf hp]
  · intro h hf hp; rw [alloc_of_built env w h hf hp]

theorem start_state (env : Env) (w : World)
    (h : checkSamplers env w.engine.renderConfig.cfg = none) :
    (StartLockLess env w).world.engine.startRenderState =
      (restoreRenderState w).world.engine.startRenderState := by
  cases hr : (restoreRenderState w).result with
  | error msg => rw [start_of_restore_error env w msg h hr]
  | ok u =>
    cases ha : (allocPhotonGICache env (restoreRenderState w).world).result with
    | error msg => rw [start_of_alloc_error env w msg h hr ha]; exact alloc_state _ _
    | ok u2 => rw [start_of_alloc_ok env w h hr ha]; exact alloc_state _ _

theorem start_without_cache_trace (env : Env) (w : World)
    (hcfg : checkSamplers env w.engine.renderConfig.cfg = none)
    (hres : (restoreRenderState w).result = .ok ())
    (hnone : (restoreRenderState w).world.engine.photonGICache = none) :
    ∃ tail, (StartLockLess env w).world.trace = (restoreRenderState w).world.trace ++ tail ∧
      ((env.FromProperties w.engine.renderConfig.scene w.engine.renderConfig.cfg = false ∧
          tail = [.fromProperties w.engine.renderConfig.scene w.engine.renderConfig.cfg none,
            .parseOptions w.engine.renderConfig.cfg, .initPixelFilterDistribution,
            .setPhotonGICache none, .startThreads] ∧
          (StartLockLess env w).world.engine.photonGICache = none) ∨
        (env.FromProperties w.engine.renderConfig.scene w.engine.renderConfig.cfg = true ∧
          (tail = [.fromProperties w.engine.renderConfig.scene w.engine.renderConfig.cfg
              (some w.caches.length),
            .preprocess w.caches.length w.engine.renderThreads] ∨
           tail = [.fromProperties w.engine.renderConfig.scene w.engine.renderConfig.cfg
              (some w.caches.length),
            .preprocess w.caches.length w.engine.renderThreads,
            .parseOptions w.engine.renderConfig.cfg, .initPixelFilterDistribution,
            .setPhotonGICache (some w.caches.length), .startThreads]) ∧
          (StartLockLess env w).world.engine.photonGICache = some w.caches.length)) := by
  obtain ⟨hcaches, hconf, hthreads, -, -, -⟩ := restore_no_cache_frame w hres hnone
  cases hf : env.FromProperties w.engine.renderConfig.scene w.engine.renderConfig.cfg with
  | false =>
    have hA := alloc_of_disabled env (restoreRenderState w).world hnone
      (by rw [hconf]; exact hf)
    have hS := start_of_alloc_ok env w hcfg hres (by rw [hA])
    rw [hA] at hS
    rw [hS]
    refine ⟨_, ?_, Or.inl ⟨rfl, rfl, hnone⟩⟩
    simp [startPathTracerAndThreads, hconf, hnone]
  | true =>
    cases hp : env.Preprocess w.engine.renderConfig.scene w.engine.renderConfig.cfg
        w.engine.renderThreads with
    | some msg =>
      have hA := alloc_of_raise env (restoreRenderState w).world msg hnone
        (by rw [hconf]; exact hf) (by rw [hconf, hthreads]; exact hp)
      have hS := start_of_alloc_error env w msg hcfg hres (by rw [hA])
      rw [hA] at hS
      rw [hS]
      refine ⟨_, ?_, Or.inr ⟨rfl, Or.inl rfl, ?_⟩⟩
      · simp [hcaches, hconf, hthreads]
      · simp [hcaches]
    | none =>
      have hA := alloc_of_built env (restoreRenderState w).world hnone
        (by rw [hconf]; exact hf) (by rw [hconf, hthreads]; exact hp)
      have hS := start_of_alloc_ok env w hcfg hres (by rw [hA])
      rw [hA] at hS
      rw [hS]
      refine ⟨_, ?_, Or.inr ⟨rfl, Or.inr rfl, ?_⟩⟩
      · simp [startPathTracerAndThreads, hcaches, hconf, hthreads]
      · simp [startPathTracerAndThreads, hcaches]

theorem start_seed_of_no_state (env : Env) (w : World)
    (h : w.engine.startRenderState = none) :
    (StartLockLess env w).world.engine.bootStrapSeed = w.engine.bootStrapSeed := by
  cases hcheck : checkSamplers env w.engine.renderConfig.cfg with
  | some msg => rw [start_of_invalid env w msg hcheck]
  | none => rw [start_seed env w hcheck, restore_of_no_state w h]

/-! ## Device selection of the film -/

theorem toInt32_of_lt (n : Nat) (h : n < 2 ^ 31) : toInt32 n = (n : Int) := by
  have h1 : n % 2 ^ 32 = n := Nat.mod_eq_of_lt (by omega)
  unfold toInt32
  rw [h1, if_pos h]

theorem findGPU_lt (descs : List DeviceDescription) (k : Nat) (h : findGPU descs = some k) :
    k < descs.length := by
  induction descs generalizing k with
  | nil => cases h
  | cons d ds ih =>
    unfold findGPU at h
    split at h
    · injection h with h
      subst h
      simp
    · cases hf : findGPU ds with
      | none => rw [hf] at h; cases h
      | some j =>
        rw [hf] at h
        injection h with h
        subst h
        have := ih j hf
        simp
        omega

theorem findGPU_first (descs : List DeviceDescription) (k : Nat) (h : findGPU descs = some k) :
    (∃ d, descs[k]? = some d ∧ d.type = .DEVICE_TYPE_OPENCL_GPU) ∧
    ∀ j, j < k → ∀ dj, descs[j]? = some dj → dj.type ≠ .DEVICE_TYPE_OPENCL_GPU := by
  induction descs generalizing k with
  | nil => cases h
  | cons d ds ih =>
    unfold findGPU at h
    split at h
    · rename_i hd
      injection h with h
      subst h
      exact ⟨⟨d, by simp, hd⟩, fun j hj => absurd hj (Nat.not_lt_zero j)⟩
    · rename_i hd
      cases hf : findGPU ds with
      | none => rw [hf] at h; cases h
      | some i =>
        rw [hf] at h
        injection h with h
        subst h
        obtain ⟨⟨d2, hd2, hty⟩, hmin⟩ := ih i hf
        refine ⟨⟨d2, by simpa using hd2, hty⟩, ?_⟩
        intro j hj dj hdj
        cases j with
        | zero =>
          have : d = dj := by simpa using hdj
          subst this
          exact hd
        | succ j =>
          have hj2 : j + 1 < i + 1 := hj
          exact hmin j (by omega) dj (by simpa using hdj)

theorem findGPU_none (descs : List DeviceDescription) :
    findGPU descs = none ↔ ∀ d ∈ descs, d.type ≠ .DEVICE_TYPE_OPENCL_GPU := by
  induction descs with
  | nil => simp [findGPU]
  | cons d ds ih =>
    unfold findGPU
    by_cases hd : d.type = .DEVICE_TYPE_OPENCL_GPU
    · simp [hd]
    · simp [hd, ih]

theorem findGPU_congr (descs descs2 : List DeviceDescription)
    (h : descs.map (fun d => d.type) = descs2.map (fun d => d.type)) :
    findGPU descs = findGPU descs2 := by
  induction descs generalizing descs2 with
  | nil =>
    cases descs2 with
    | nil => rfl
    | cons d2 ds2 => simp at h
  | cons d ds ih =>
    cases descs2 with
    | nil => simp at h
    | cons d2 ds2 =>
      simp only [List.map_cons, List.cons.injEq] at h
      unfold findGPU
      rw [h.1, ih ds2 h.2]

theorem selectDevice_congr (idx : Int) (descs descs2 : List DeviceDescription)
    (h : descs.map (fun d => d.type) = descs2.map (fun d => d.type)) :
    selectDevice idx descs = selectDevice idx descs2 := by
  have hlen : descs.length = descs2.length := by
    have := congrArg List.length h
    simpa using this
  unfold selectDevice
  rw [findGPU_congr descs descs2 h, hlen]

theorem selectDevice_lt (idx : Int) (descs : List DeviceDescription) (k : Nat)
    (hlen : descs.length < 2 ^ 31) (h : selectDevice idx descs = some k) :
    k < descs.length := by
  unfold selectDevice at h
  rw [toInt32_of_lt _ hlen] at h
  split at h
  · rename_i hin
    injection h with h
    omega
  · split at h
    · exact findGPU_lt descs k h
    · cases h

theorem create_selected (allocError : Nat → Option String) (descs : List DeviceDescription)
    (film : Film) :
    (Film.CreateOCLContext allocError descs film).film.selectedDeviceDesc
      = selectDevice film.oclDeviceIndex descs := by
  unfold Film.CreateOCLContext
  cases hsel : selectDevice film.oclDeviceIndex descs with
  | none => simp [hsel]
  | some k =>
    cases ha : allocError k with
    | some msg => simp [hsel, ha]
    | none =>
      simp only [hsel, ha]
      split <;> rfl

/-! ## The bake maps read by the constructor -/

theorem readObjectNames_of_present (cfg : Properties) (name : String) (p : Property)
    (h : cfg.find? (fun q => q.name == name) = some p) :
    readObjectNames cfg name = .ok p.values := by
  unfold readObjectNames
  rw [h]

theorem readObjectNames_of_absent (cfg : Properties) (name : String)
    (h : ∀ p ∈ cfg, p.name ≠ name) :
    readObjectNames cfg name = .error (.danglingDefault name) := by
  have hfind : cfg.find? (fun p => p.name == name) = none := by
    rw [List.find?_eq_none]
    intro p hp
    simpa using h p hp
  unfold readObjectNames
  rw [hfind]

theorem readObjectNames_ok_inv (cfg : Properties) (name : String) (values : List String)
    (h : readObjectNames cfg name = .ok values) :
    ∃ p, cfg.find? (fun q => q.name == name) = some p ∧ values = p.values := by
  unfold readObjectNames at h
  split at h
  · rename_i p hp
    injection h with h
    exact ⟨p, hp, h.symm⟩
  · cases h

theorem parseBakeMap_eq (cfg : Properties) (mapKey fileName : String) (width height : Nat)
    (htag : Property.ExtractField mapKey 2 ≠ "")
    (htype : (Properties.Get cfg
      { name := "bake.maps." ++ Property.ExtractField mapKey 2 ++ ".type"
        values := ["LIGHTMAP"] }).GetString = .ok "LIGHTMAP")
    (hfile : (Properties.Get cfg
      { name := "bake.maps." ++ Property.ExtractField mapKey 2 ++ ".filename"
        values := ["objectNameToBake"] }).GetString = .ok fileName)
    (hwidth : (Properties.Get cfg
      { name := "bake.maps." ++ Property.ExtractField mapKey 2 ++ ".width"
        values := ["512"] }).GetUInt = .ok width)
    (hheight : (Properties.Get cfg
      { name := "bake.maps." ++ Property.ExtractField mapKey 2 ++ ".height"
        values := ["512"] }).GetUInt = .ok height) :
    parseBakeMap cfg mapKey =
      match readObjectNames cfg
        ("bake.maps." ++ Property.ExtractField mapKey 2 ++ ".objectnames") with
      | .error fault => .error fault
      | .ok objectNames =>
        .ok { type := .LIGHTMAP
              fileName := fileName
              width := width
              height := height
              objectNames := objectNames } := by
  unfold parseBakeMap
  simp only [htag, htype, hfile, hwidth, hheight, if_false, if_true]

theorem parseBakeMap_of_readable (cfg : Properties) (mapKey : String)
    (h : readableBakeMap cfg mapKey) : ∃ info, parseBakeMap cfg mapKey = .ok info := by
  obtain ⟨htag, htype, ⟨fileName, hfile⟩, ⟨width, hwidth⟩, ⟨height, hheight⟩, ⟨p, hp⟩⟩ := h
  refine ⟨{ type := .LIGHTMAP, fileName := fileName, width := width, height := height,
            objectNames := p.values }, ?_⟩
  rw [parseBakeMap_eq cfg mapKey fileName width height htag htype hfile hwidth hheight,
    readObjectNames_of_present cfg _ p hp]

theorem parseBakeMaps_ok (cfg : Properties) (keys : List String) (acc : List BakeMapInfo)
    (h : ∀ key ∈ keys, ∃ info, parseBakeMap cfg key = .ok info) :
    ∃ infos, parseBakeMaps cfg keys acc = .ok (acc ++ infos) ∧
      keys.map (parseBakeMap cfg) = infos.map Except.ok := by
  induction keys generalizing acc with
  | nil => exact ⟨[], by simp [parseBakeMaps], rfl⟩
  | cons key rest ih =>
    obtain ⟨info, hinfo⟩ := h key (List.mem_cons_self _ _)
    obtain ⟨infos, hparse, hmap⟩ := ih (acc ++ [info])
      (fun k hk => h k (List.mem_cons_of_mem _ hk))
    refine ⟨info :: infos, ?_, ?_⟩
    · simp only [parseBakeMaps, hinfo, hparse, List.append_assoc, List.singleton_append]
    · simp only [List.map_cons, hinfo, hmap]

theorem uniqueNames_nodup (names defined : List String) (h : defined.Nodup) :
    (uniqueNames names defined).Nodup := by
  induction names generalizing defined with
  | nil => exact h
  | cons name rest ih =>
    unfold uniqueNames
    split
    · rename_i hnew
      apply ih
      rw [List.nodup_append]
      refine ⟨h, List.nodup_singleton _, ?_⟩
      intro a ha hb
      rw [List.mem_singleton] at hb
      subst hb
      exact hnew.2 ha
    · exact ih defined h

theorem getAllUniqueSubNames_of_no_key (cfg : Properties) (key : String)
    (h : ∀ p ∈ cfg, key.toList.isPrefixOf p.name.toList = false) :
    Properties.GetAllUniqueSubNames cfg key = [] := by
  have hfilter : ((cfg.map fun p => p.name).filter
      fun name => key.toList.isPrefixOf name.toList) = [] := by
    rw [List.filter_eq_nil_iff]
    intro name hname
    obtain ⟨p, hp, rfl⟩ := List.mem_map.mp hname
    rw [h p hp]
    simp
  unfold Properties.GetAllUniqueSubNames
  rw [hfilter]
  rfl

theorem get_of_absent (cfg : Properties) (name : String) (values : List String)
    (h : ∀ p ∈ cfg, p.name ≠ name) :
    Properties.Get cfg { name := name, values := values }
      = { name := name, values := values } := by
  have hfind : cfg.find? (fun p => p.name == name) = none := by
    rw [List.find?_eq_none]
    intro p hp
    simpa using h p hp
  simp [Properties.Get, hfind]

theorem get_of_present (cfg : Properties) (name : String) (values : List String)
    (p : Property) (h : cfg.find? (fun q => q.name == name) = some p) :
    Properties.Get cfg { name := name, values := values } = p := by
  simp [Properties.Get, h]

theorem getString_inv (p : Property) (v : String) (h : p.GetString = .ok v) :
    p.values = [v] := by
  unfold Property.GetString at h
  split at h
  · rename_i w hw
    injection h with h
    rw [hw, h]
  · cases h

theorem getUInt_inv (p : Property) (n : Nat) (h : p.GetUInt = .ok n) :
    ∃ v, p.values = [v] ∧ decimalValue v.toList 0 = some n ∧ n < UINT_MOD := by
  unfold Property.GetUInt at h
  split at h
  · rename_i v hv
    refine ⟨v, hv, ?_⟩
    split at h
    · cases h
    · rename_i c cs hcs
      split at h
      · rename_i m hm
        split at h
        · rename_i hlt
          injection h with h
          subst h
          exact ⟨by rw [hcs]; exact hm, hlt⟩
        · cases h
      · cases h
  · cases h

theorem parseBakeMap_ok_inv (cfg : Properties) (mapKey : String) (info : BakeMapInfo)
    (h : parseBakeMap cfg mapKey = .ok info) :
    Property.ExtractField mapKey 2 ≠ "" ∧
    (bakeMapProperty cfg mapKey ".type" "LIGHTMAP").GetString = .ok "LIGHTMAP" ∧
    info.type = .LIGHTMAP ∧
    (bakeMapProperty cfg mapKey ".filename" "objectNameToBake").GetString
      = .ok info.fileName ∧
    (bakeMapProperty cfg mapKey ".width" "512").GetUInt = .ok info.width ∧
    (bakeMapProperty cfg mapKey ".height" "512").GetUInt = .ok info.height ∧
    ∃ p, keyPresent cfg (bakeMapKeyName mapKey ".objectnames") p ∧
      info.objectNames = p.values := by
  unfold parseBakeMap at h
  simp only [] at h
  split at h
  · cases h
  · rename_i htag
    split at h
    · cases h
    · rename_i mapType htype
      split at h
      · rename_i hlight
        split at h
        · cases h
        · rename_i fileName hfile
          split at h
          · cases h
          · rename_i width hwidth
            split at h
            · cases h
            · rename_i height hheight
              split at h
              · cases h
              · rename_i objectNames hobj
                obtain ⟨p, hp, hvalues⟩ := readObjectNames_ok_inv cfg _ objectNames hobj
                injection h with h
                subst h
                subst hlight
                exact ⟨htag, htype, rfl, hfile, hwidth, hheight, p, hp, hvalues⟩
      · cases h

theorem parseBakeMap_fields (cfg : Properties) (mapKey : String) (info : BakeMapInfo)
    (h : parseBakeMap cfg mapKey = .ok info) :
    info.type = .LIGHTMAP ∧
    (∀ p, keyPresent cfg (bakeMapKeyName mapKey ".filename") p →
      p.values = [info.fileName]) ∧
    (∀ p, keyPresent cfg (bakeMapKeyName mapKey ".width") p →
      ∃ v, p.values = [v] ∧ decimalValue v.toList 0 = some info.width) ∧
    (∀ p, keyPresent cfg (bakeMapKeyName mapKey ".height") p →
      ∃ v, p.values = [v] ∧ decimalValue v.toList 0 = some info.height) ∧
    (∃ p, keyPresent cfg (bakeMapKeyName mapKey ".objectnames") p ∧
      info.objectNames = p.values) ∧
    (keyAbsent cfg (bakeMapKeyName mapKey ".filename") →
      info.fileName = "objectNameToBake") ∧
    (keyAbsent cfg (bakeMapKeyName mapKey ".width") → info.width = 512) ∧
    (keyAbsent cfg (bakeMapKeyName mapKey ".height") → info.height = 512) := by
  obtain ⟨-, -, htype, hfile, hwidth, hheight, hobj⟩ := parseBakeMap_ok_inv cfg mapKey info h
  refine ⟨htype, ?_, ?_, ?_, hobj, ?_, ?_, ?_⟩
  · intro p hp
    have hget : bakeMapProperty cfg mapKey ".filename" "objectNameToBake" = p :=
      get_of_present cfg _ _ p hp
    rw [hget] at hfile
    exact getString_inv p _ hfile
  · intro p hp
    have hget : bakeMapProperty cfg mapKey ".width" "512" = p :=
      get_of_present cfg _ _ p hp
    rw [hget] at hwidth
    obtain ⟨v, hv, hd, -⟩ := getUInt_inv p _ hwidth
    exact ⟨v, hv, hd⟩
  · intro p hp
    have hget : bakeMapProperty cfg mapKey ".height" "512" = p :=
      get_of_present cfg _ _ p hp
    rw [hget] at hheight
    obtain ⟨v, hv, hd, -⟩ := getUInt_inv p _ hheight
    exact ⟨v, hv, hd⟩
  · intro habs
    have hget : bakeMapProperty cfg mapKey ".filename" "objectNameToBake"
        = { name := bakeMapKeyName mapKey ".filename", values := ["objectNameToBake"] } :=
      get_of_absent cfg _ _ habs
    rw [hget] at hfile
    have := getString_inv _ _ hfile
    simpa using this.symm
  · intro habs
    have hget : bakeMapProperty cfg mapKey ".width" "512"
        = { name := bakeMapKeyName mapKey ".width", values := ["512"] } :=
      get_of_absent cfg _ _ habs
    rw [hget] at hwidth
    have h512 : Property.GetUInt { name := bakeMapKeyName mapKey ".width", values := ["512"] }
        = .ok 512 := rfl
    rw [h512] at hwidth
    injection hwidth with hwidth
    exact hwidth.symm
  · intro habs
    have hget : bakeMapProperty cfg mapKey ".height" "512"
        = { name := bakeMapKeyName mapKey ".height", values := ["512"] } :=
      get_of_absent cfg _ _ habs
    rw [hget] at hheight
    have h512 : Property.GetUInt { name := bakeMapKeyName mapKey ".height", values := ["512"] }
        = .ok 512 := rfl
    rw [h512] at hheight
    injection hheight with hheight
    exact hheight.symm

theorem construct_one_descriptor_per_subname (rcfg : RenderConfig) (seed threads : Nat) :
    ((∀ key ∈ Properties.GetAllUniqueSubNames rcfg.cfg "bake.maps",
        readableBakeMap rcfg.cfg key) →
      (Properties.GetAllUniqueSubNames rcfg.cfg "bake.maps").Nodup ∧
      ∃ e, construct rcfg seed threads = .ok e ∧
        e.mapInfos.length = (Properties.GetAllUniqueSubNames rcfg.cfg "bake.maps").length ∧
        (Properties.GetAllUniqueSubNames rcfg.cfg "bake.maps").map (parseBakeMap rcfg.cfg)
          = e.mapInfos.map Except.ok) ∧
    ((∀ p ∈ rcfg.cfg, "bake.maps".toList.isPrefixOf p.name.toList = false) →
      ∃ e, construct rcfg seed threads = .ok e ∧ e.mapInfos = []) := by
  constructor
  · intro h
    obtain ⟨infos, hparse, hmap⟩ := parseBakeMaps_ok rcfg.cfg
      (Properties.GetAllUniqueSubNames rcfg.cfg "bake.maps") []
      (fun key hkey => parseBakeMap_of_readable rcfg.cfg key (h key hkey))
    refine ⟨uniqueNames_nodup _ [] List.nodup_nil, ?_⟩
    unfold construct
    rw [hparse]
    refine ⟨_, rfl, ?_, ?_⟩
    · have := congrArg List.length hmap
      simpa using this.symm
    · simpa using hmap
  · intro h
    unfold construct
    rw [getAllUniqueSubNames_of_no_key rcfg.cfg "bake.maps" h]
    exact ⟨_, rfl, rfl⟩

theorem construct_empty_tag_raises :
    Properties.GetAllUniqueSubNames cfgEmptyTag "bake.maps" = ["bake.maps."] ∧
    Property.ExtractField "bake.maps." 2 = "" ∧
    construct { cfg := cfgEmptyTag, scene := 5 } 131 4
      = .error (.raised "Syntax error in bake map definition: bake.maps.") := by
  refine ⟨by decide, by decide, rfl⟩

/-! ## The order of the calls of `StartLockLess` and `StopLockLess` -/

theorem restore_events (w : World) :
    ∃ R, (restoreRenderState w).world.trace = w.trace ++ R ∧
      ∀ ev ∈ R, ev.beforePathTracer = true := by
  cases hst : w.engine.startRenderState with
  | none =>
    rw [restore_of_no_state w hst]
    exact ⟨[], by simp, fun ev h => nomatch h⟩
  | some rs =>
    by_cases htag : rs.engineTag = GetObjectTag
    · cases hc : rs.photonGICache with
      | none =>
        rw [restore_of_no_cache w rs hst htag hc]
        refine ⟨_, rfl, ?_⟩
        intro ev hev
        simp only [List.mem_cons, List.mem_singleton, List.not_mem_nil, or_false] at hev
        rcases hev with h | h <;> subst h <;> rfl
      | some c =>
        rw [restore_of_cache w rs c hst htag hc]
        refine ⟨_, rfl, ?_⟩
        intro ev hev
        simp only [List.mem_cons, List.mem_singleton, List.not_mem_nil, or_false] at hev
        rcases hev with h | h | h <;> subst h <;> rfl
    · obtain ⟨msg, hmsg⟩ := restore_of_mismatch w rs hst htag
      rw [hmsg]
      exact ⟨[], by simp, fun ev h => nomatch h⟩

theorem alloc_events (env : Env) (w : World) :
    ∃ A, (allocPhotonGICache env w).world.trace = w.trace ++ A ∧
      ∀ ev ∈ A, ev.beforePathTracer = true := by
  apply alloc_cases env w (fun o => ∃ A, o.world.trace = w.trace ++ A ∧
      ∀ ev ∈ A, ev.beforePathTracer = true)
  · intro c h
    rw [alloc_of_some env w c h]
    exact ⟨[], by simp, fun ev h => nomatch h⟩
  · intro h hf
    rw [alloc_of_disabled env w h hf]
    refine ⟨_, rfl, ?_⟩
    intro ev hev
    simp only [List.mem_singleton] at hev
    subst hev
    rfl
  · intro msg h hf hp
    rw [alloc_of_raise env w msg h hf hp]
    refine ⟨_, rfl, ?_⟩
    intro ev hev
    simp only [List.mem_cons, List.mem_singleton, List.not_mem_nil, or_false] at hev
    rcases hev with h | h <;> subst h <;> rfl
  · intro h hf hp
    rw [alloc_of_built env w h hf hp]
    refine ⟨_, rfl, ?_⟩
    intro ev hev
    simp only [List.mem_cons, List.mem_singleton, List.not_mem_nil, or_false] at hev
    rcases hev with h | h <;> subst h <;> rfl

theorem start_ok_events (env : Env) (w : World) (hok : (StartLockLess env w).result = .ok ()) :
    ∃ evs, (StartLockLess env w).world.trace = w.trace ++ (evs ++
        [.parseOptions (StartLockLess env w).world.engine.renderConfig.cfg,
         .initPixelFilterDistribution,
         .setPhotonGICache (StartLockLess env w).world.engine.photonGICache,
         .startThreads]) ∧
      (∀ ev ∈ evs, ev.beforePathTracer = true) ∧
      (StartLockLess env w).world.engine.threadsRunning = true ∧
      (StartLockLess env w).world.engine.pathTracer.pixelFilterDistribution = true := by
  cases hcheck : checkSamplers env w.engine.renderConfig.cfg with
  | some msg => rw [start_of_invalid env w msg hcheck] at hok; cases hok
  | none =>
    cases hr : (restoreRenderState w).result with
    | error msg => rw [start_of_restore_error env w msg hcheck hr] at hok; cases hok
    | ok u =>
      cases ha : (allocPhotonGICache env (restoreRenderState w).world).result with
      | error msg => rw [start_of_alloc_error env w msg hcheck hr ha] at hok; cases hok
      | ok u2 =>
        obtain ⟨R, hR, hRb⟩ := restore_events w
        obtain ⟨A, hA, hAb⟩ := alloc_events env (restoreRenderState w).world
        rw [start_of_alloc_ok env w hcheck hr ha]
        refine ⟨R ++ A, ?_, ?_, rfl, rfl⟩
        · show (allocPhotonGICache env (restoreRenderState w).world).world.trace ++ _ = _
          rw [hA, hR]
          simp only [List.append_assoc]
          rfl
        · intro ev hev
          rcases List.mem_append.mp hev with h | h
          · exact hRb ev h
          · exact hAb ev h

theorem vertexMapFind_mem (index value : Nat) (m : List (Nat × Nat))
    (h : vertexMapFind index m = some value) : ∃ kv ∈ m, kv.2 = value := by
  induction m with
  | nil => cases h
  | cons kv rest ih =>
    obtain ⟨key, v⟩ := kv
    unfold vertexMapFind at h
    split at h
    · injection h with h
      exact ⟨(key, v), List.mem_cons_self _ _, h⟩
    · obtain ⟨kv2, hmem, hv⟩ := ih h
      exact ⟨kv2, List.mem_cons_of_mem _ hmem, hv⟩

theorem addMeshVertex_inv (d : BlenderMeshData) (st : MeshBuild) (tri index : Nat)
    (normal : NormalSource) (h : MeshInv d st) :
    MeshInv d (addMeshVertex d st tri index normal).1 ∧
    (addMeshVertex d st tri index normal).2
      < (addMeshVertex d st tri index normal).1.tmpMeshVerts.length ∧
    (addMeshVertex d st tri index normal).1.tmpMeshVerts.length
      = st.tmpMeshVerts.length + 1 ∧
    (addMeshVertex d st tri index normal).1.tmpMeshTris = st.tmpMeshTris ∧
    (addMeshVertex d st tri index normal).1.vertexMap = st.vertexMap := by
  have hlen : (addMeshVertex d st tri index normal).1.tmpMeshVerts.length
      = st.tmpMeshVerts.length + 1 := by
    simp [addMeshVertex]
  refine ⟨⟨?_, ?_, ?_, ?_, ?_, ?_⟩, ?_, hlen, rfl, rfl⟩
  · rw [hlen]
    simp [addMeshVertex, h.norms]
  · intro hu
    rw [hlen]
    simp [addMeshVertex, hu, h.uvs hu]
  · intro hc
    rw [hlen]
    simp [addMeshVertex, hc, h.cols hc]
  · intro t ht
    rw [hlen]
    have := h.tris t ht
    omega
  · intro kv hkv
    rw [hlen]
    have := h.map kv hkv
    omega
  · rw [hlen]
    show (st.vertFreeIndex + 1) % UINT_MOD ≤ _
    have h1 := Nat.mod_le (st.vertFreeIndex + 1) UINT_MOD
    have h2 := h.free
    omega
  · rw [hlen]
    show st.vertFreeIndex < _
    have := h.free
    omega

theorem smoothMeshVertex_inv (d : BlenderMeshData) (st : MeshBuild) (tri : Nat)
    (h : MeshInv d st) :
    MeshInv d (smoothMeshVertex d st tri).1 ∧
    (smoothMeshVertex d st tri).2 < (smoothMeshVertex d st tri).1.tmpMeshVerts.length ∧
    st.tmpMeshVerts.length ≤ (smoothMeshVertex d st tri).1.tmpMeshVerts.length ∧
    (smoothMeshVertex d st tri).1.tmpMeshTris = st.tmpMeshTris := by
  obtain ⟨hinv, hlt, hlen, htris, hmap⟩ :=
    addMeshVertex_inv d st tri (d.loopV tri) (.vertex (d.loopV tri)) h
  have hfresh :
      MeshInv d
        { (addMeshVertex d st tri (d.loopV tri) (.vertex (d.loopV tri))).1 with
          vertexMap := (d.loopV tri,
            (addMeshVertex d st tri (d.loopV tri) (.vertex (d.loopV tri))).2) ::
            (addMeshVertex d st tri (d.loopV tri) (.vertex (d.loopV tri))).1.vertexMap } := by
    refine ⟨hinv.norms, hinv.uvs, hinv.cols, hinv.tris, ?_, hinv.free⟩
    intro kv hkv
    rcases List.mem_cons.mp hkv with h1 | h1
    · subst h1
      exact hlt
    · exact hinv.map kv h1
  unfold smoothMeshVertex
  simp only []
  split
  · exact ⟨hfresh, hlt, by rw [hlen]; exact Nat.le_succ _, htris⟩
  · rename_i mappedIndex hfind
    split
    · exact ⟨hfresh, hlt, by rw [hlen]; exact Nat.le_succ _, htris⟩
    · obtain ⟨kv, hmem, hv⟩ := vertexMapFind_mem _ _ _ hfind
      refine ⟨h, ?_, Nat.le_refl _, rfl⟩
      show mappedIndex < st.tmpMeshVerts.length
      rw [← hv]
      exact h.map kv hmem

theorem addLoopTri_inv (d : BlenderMeshData) (matIndex : Int) (st : MeshBuild)
    (loopTri : MLoopTri) (h : MeshInv d st) :
    MeshInv d (addLoopTri d matIndex st loopTri) ∧
    (addLoopTri d matIndex st loopTri).tmpMeshTris.length
      = st.tmpMeshTris.length + (if matchesMaterial d matIndex loopTri then 1 else 0) := by
  unfold addLoopTri matchesMaterial
  by_cases hmat : (d.polygons loopTri.poly).mat_nr = matIndex
  · simp only [hmat, ne_eq, not_true_eq_false, if_false, decide_True, if_true]
    by_cases hsmooth : (d.polygons loopTri.poly).smooth = true
    · simp only [hsmooth, if_true]
      obtain ⟨i0, l0, g0, t0⟩ := smoothMeshVertex_inv d st loopTri.tri0 h
      obtain ⟨i1, l1, g1, t1⟩ :=
        smoothMeshVertex_inv d (smoothMeshVertex d st loopTri.tri0).1 loopTri.tri1 i0
      obtain ⟨i2, l2, g2, t2⟩ :=
        smoothMeshVertex_inv d
          (smoothMeshVertex d (smoothMeshVertex d st loopTri.tri0).1 loopTri.tri1).1
          loopTri.tri2 i1
      refine ⟨⟨i2.norms, i2.uvs, i2.cols, ?_, i2.map, i2.free⟩, ?_⟩
      · intro t ht
        rcases List.mem_append.mp ht with h1 | h1
        · exact i2.tris t h1
        · rw [List.mem_singleton] at h1
          subst h1
          exact ⟨Nat.lt_of_lt_of_le l0 (Nat.le_trans g1 g2), Nat.lt_of_lt_of_le l1 g2, l2⟩
      · simp [t2, t1, t0]
    · simp only [hsmooth, if_false]
      obtain ⟨i0, l0, g0, t0, -⟩ := addMeshVertex_inv d st loopTri.tri0 (d.loopV loopTri.tri0)
        (.face (d.loopV loopTri.tri0) (d.loopV loopTri.tri1) (d.loopV loopTri.tri2)) h
      obtain ⟨i1, l1, g1, t1, -⟩ := addMeshVertex_inv d
        (addMeshVertex d st loopTri.tri0 (d.loopV loopTri.tri0)
          (.face (d.loopV loopTri.tri0) (d.loopV loopTri.tri1) (d.loopV loopTri.tri2))).1
        loopTri.tri1 (d.loopV loopTri.tri1)
        (.face (d.loopV loopTri.tri0) (d.loopV loopTri.tri1) (d.loopV loopTri.tri2)) i0
      obtain ⟨i2, l2, g2, t2, -⟩ := addMeshVertex_inv d
        (addMeshVertex d
          (addMeshVertex d st loopTri.tri0 (d.loopV loopTri.tri0)
            (.face (d.loopV loopTri.tri0) (d.loopV loopTri.tri1) (d.loopV loopTri.tri2))).1
          loopTri.tri1 (d.loopV loopTri.tri1)
          (.face (d.loopV loopTri.tri0) (d.loopV loopTri.tri1) (d.loopV loopTri.tri2))).1
        loopTri.tri2 (d.loopV loopTri.tri2)
        (.face (d.loopV loopTri.tri0) (d.loopV loopTri.tri1) (d.loopV loopTri.tri2)) i1
      refine ⟨⟨i2.norms, i2.uvs, i2.cols, ?_, i2.map, i2.free⟩, ?_⟩
      · intro t ht
        rcases List.mem_append.mp ht with h1 | h1
        · exact i2.tris t h1
        · rw [List.mem_singleton] at h1
          subst h1
          refine ⟨?_, ?_, l2⟩
          · exact Nat.lt_of_lt_of_le l0
              (Nat.le_trans (Nat.le_trans (Nat.le_succ _) (Nat.le_of_eq g1.symm))
                (Nat.le_trans (Nat.le_succ _) (Nat.le_of_eq g2.symm)))
          · exact Nat.lt_of_lt_of_le l1 (Nat.le_trans (Nat.le_succ _) (Nat.le_of_eq g2.symm))
      · simp [t2, t1, t0]
  · simp only [hmat, ne_eq, not_false_eq_true, if_true, decide_False, Bool.false_eq_true,
      if_false, Nat.add_zero]
    exact ⟨h, trivial⟩

theorem foldl_addLoopTri_inv (d : BlenderMeshData) (matIndex : Int) (loopTris : List MLoopTri)
    (st : MeshBuild) (h : MeshInv d st) :
    MeshInv d (loopTris.foldl (addLoopTri d matIndex) st) ∧
    (loopTris.foldl (addLoopTri d matIndex) st).tmpMeshTris.length
      = st.tmpMeshTris.length + (loopTris.filter (matchesMaterial d matIndex)).length := by
  induction loopTris generalizing st with
  | nil => exact ⟨h, rfl⟩
  | cons loopTri rest ih =>
    obtain ⟨h1, hlen1⟩ := addLoopTri_inv d matIndex st loopTri h
    obtain ⟨h2, hlen2⟩ := ih (addLoopTri d matIndex st loopTri) h1
    refine ⟨h2, ?_⟩
    rw [List.foldl_cons, hlen2, hlen1, List.filter_cons]
    by_cases hm : matchesMaterial d matIndex loopTri = true
    · simp [hm]; omega
    · simp [hm]

theorem meshInv_empty (d : BlenderMeshData) : MeshInv d MeshBuild.empty :=
  { norms := rfl
    uvs := fun _ => rfl
    cols := fun _ => rfl
    tris := fun _ h => nomatch h
    map := fun _ h => nomatch h
    free := Nat.le_refl _ }

theorem vertexMapFind_mem_key (index value : Nat) (m : List (Nat × Nat))
    (h : vertexMapFind index m = some value) : (index, value) ∈ m := by
  induction m with
  | nil => cases h
  | cons kv rest ih =>
    obtain ⟨key, v⟩ := kv
    unfold vertexMapFind at h
    split at h
    · rename_i hk
      injection h with h
      subst h
      subst hk
      exact List.mem_cons_self _ _
    · exact List.mem_cons_of_mem _ (ih h)

theorem getElem?_append_of_some {α : Type} (l e : List α) (i : Nat) (x : α)
    (h : l[i]? = some x) : (l ++ e)[i]? = some x := by
  have hi : i < l.length := by
    by_contra hc
    rw [List.getElem?_eq_none (Nat.le_of_not_lt hc)] at h
    cases h
  rw [List.getElem?_append_left hi]
  exact h

theorem getElem?_append_add {α : Type} (l e : List α) (k : Nat) :
    (l ++ e)[l.length + k]? = e[k]? := by
  rw [List.getElem?_append_right (Nat.le_add_right _ _), Nat.add_sub_cancel_left]

theorem triangleOf_append (d : BlenderMeshData) (verts ext : List Nat) (t : Nat × Nat × Nat)
    (loopTri : MLoopTri) (h : triangleOf d verts t loopTri) :
    triangleOf d (verts ++ ext) t loopTri :=
  ⟨getElem?_append_of_some _ _ _ _ h.1, getElem?_append_of_some _ _ _ _ h.2.1,
    getElem?_append_of_some _ _ _ _ h.2.2⟩

theorem addMeshVertex_ord (d : BlenderMeshData) (st : MeshBuild) (tri index : Nat)
    (normal : NormalSource) (hfree : st.vertFreeIndex = st.tmpMeshVerts.length)
    (hsize : st.tmpMeshVerts.length + 1 < UINT_MOD) :
    (addMeshVertex d st tri index normal).1.tmpMeshVerts = st.tmpMeshVerts ++ [index] ∧
    (addMeshVertex d st tri index normal).1.vertFreeIndex
      = (addMeshVertex d st tri index normal).1.tmpMeshVerts.length ∧
    (addMeshVertex d st tri index normal).2 = st.tmpMeshVerts.length := by
  refine ⟨rfl, ?_, hfree⟩
  show (st.vertFreeIndex + 1) % UINT_MOD = (st.tmpMeshVerts ++ [index]).length
  rw [hfree, Nat.mod_eq_of_lt hsize, List.length_append]
  rfl

theorem smoothMeshVertex_ord (d : BlenderMeshData) (st : MeshBuild) (tri : Nat)
    (hfree : st.vertFreeIndex = st.tmpMeshVerts.length)
    (hmap : ∀ kv ∈ st.vertexMap, st.tmpMeshVerts[kv.2]? = some kv.1)
    (hsize : st.tmpMeshVerts.length + 1 < UINT_MOD) :
    ∃ ext : List Nat,
      (smoothMeshVertex d st tri).1.tmpMeshVerts = st.tmpMeshVerts ++ ext ∧
      ext.length ≤ 1 ∧
      (smoothMeshVertex d st tri).1.vertFreeIndex
        = (smoothMeshVertex d st tri).1.tmpMeshVerts.length ∧
      (∀ kv ∈ (smoothMeshVertex d st tri).1.vertexMap,
        (smoothMeshVertex d st tri).1.tmpMeshVerts[kv.2]? = some kv.1) ∧
      (smoothMeshVertex d st tri).1.tmpMeshVerts[(smoothMeshVertex d st tri).2]?
        = some (d.loopV tri) := by
  obtain ⟨hv, hf, hi⟩ :=
    addMeshVertex_ord d st tri (d.loopV tri) (.vertex (d.loopV tri)) hfree hsize
  have hfresh : ∃ ext : List Nat,
      (addMeshVertex d st tri (d.loopV tri) (.vertex (d.loopV tri))).1.tmpMeshVerts
        = st.tmpMeshVerts ++ ext ∧
      ext.length ≤ 1 ∧
      (addMeshVertex d st tri (d.loopV tri) (.vertex (d.loopV tri))).1.vertFreeIndex
        = (addMeshVertex d st tri (d.loopV tri) (.vertex (d.loopV tri))).1.tmpMeshVerts.length ∧
      (∀ kv ∈ (d.loopV tri, (addMeshVertex d st tri (d.loopV tri) (.vertex (d.loopV tri))).2) ::
          (addMeshVertex d st tri (d.loopV tri) (.vertex (d.loopV tri))).1.vertexMap,
        (addMeshVertex d st tri (d.loopV tri) (.vertex (d.loopV tri))).1.tmpMeshVerts[kv.2]?
          = some kv.1) ∧
      (addMeshVertex d st tri (d.loopV tri) (.vertex (d.loopV tri))).1.tmpMeshVerts[
        (addMeshVertex d st tri (d.loopV tri) (.vertex (d.loopV tri))).2]?
        = some (d.loopV tri) := by
    have hnew : (addMeshVertex d st tri (d.loopV tri) (.vertex (d.loopV tri))).1.tmpMeshVerts[
        (addMeshVertex d st tri (d.loopV tri) (.vertex (d.loopV tri))).2]?
        = some (d.loopV tri) := by
      rw [hv, hi]
      exact List.getElem?_concat_length _ _
    refine ⟨[d.loopV tri], hv, Nat.le_refl _, hf, ?_, hnew⟩
    intro kv hkv
    rcases List.mem_cons.mp hkv with h1 | h1
    · subst h1
      exact hnew
    · rw [hv]
      exact getElem?_append_of_some _ _ _ _ (hmap kv h1)
  unfold smoothMeshVertex
  simp only []
  split
  · exact hfresh
  · rename_i mappedIndex hfind
    split
    · exact hfresh
    · refine ⟨[], (List.append_nil _).symm, Nat.zero_le _, hfree, hmap, ?_⟩
      exact hmap _ (vertexMapFind_mem_key _ _ _ hfind)

theorem meshOrd_skip (d : BlenderMeshData) (matIndex : Int) (processed : List MLoopTri)
    (st : MeshBuild) (loopTri : MLoopTri) (h : MeshOrd d matIndex processed st)
    (hmat : matchesMaterial d matIndex loopTri = false) :
    MeshOrd d matIndex (processed ++ [loopTri]) st := by
  have hf : (processed ++ [loopTri]).filter (matchesMaterial d matIndex)
      = processed.filter (matchesMaterial d matIndex) := by
    simp [List.filter_append, hmat]
  exact ⟨h.free, h.map, by rw [hf]; exact h.tris, by rw [hf]; exact h.size⟩

theorem meshOrd_emit (d : BlenderMeshData) (matIndex : Int) (processed : List MLoopTri)
    (st st2 : MeshBuild) (loopTri : MLoopTri) (ext : List Nat) (t : Nat × Nat × Nat)
    (h : MeshOrd d matIndex processed st)
    (hmat : matchesMaterial d matIndex loopTri = true)
    (hverts : st2.tmpMeshVerts = st.tmpMeshVerts ++ ext) (hext : ext.length ≤ 3)
    (hfree : st2.vertFreeIndex = st2.tmpMeshVerts.length)
    (hmap : ∀ kv ∈ st2.vertexMap, st2.tmpMeshVerts[kv.2]? = some kv.1)
    (htris : st2.tmpMeshTris = st.tmpMeshTris ++ [t])
    (ht : triangleOf d st2.tmpMeshVerts t loopTri) :
    MeshOrd d matIndex (processed ++ [loopTri]) st2 := by
  have hf : (processed ++ [loopTri]).filter (matchesMaterial d matIndex)
      = processed.filter (matchesMaterial d matIndex) ++ [loopTri] := by
    simp [List.filter_append, hmat]
  refine ⟨hfree, hmap, ?_, ?_⟩
  · rw [hf, htris]
    refine List.rel_append ?_ (List.Forall₂.cons ht List.Forall₂.nil)
    rw [hverts]
    exact h.tris.imp (fun a b hab => triangleOf_append d _ ext a b hab)
  · rw [hf, hverts, List.length_append, List.length_append]
    have := h.size
    simp only [List.length_singleton]
    omega

theorem smoothMeshVertex_tris (d : BlenderMeshData) (st : MeshBuild) (tri : Nat) :
    (smoothMeshVertex d st tri).1.tmpMeshTris = st.tmpMeshTris := by
  unfold smoothMeshVertex
  simp only []
  split
  · rfl
  · split
    · rfl
    · rfl

theorem addLoopTri_ord (d : BlenderMeshData) (matIndex : Int) (processed : List MLoopTri)
    (st : MeshBuild) (loopTri : MLoopTri) (h : MeshOrd d matIndex processed st)
    (hsize : 3 * ((processed ++ [loopTri]).filter (matchesMaterial d matIndex)).length
      < UINT_MOD) :
    MeshOrd d matIndex (processed ++ [loopTri]) (addLoopTri d matIndex st loopTri) := by
  by_cases hm : matchesMaterial d matIndex loopTri = true
  · have hf : (processed ++ [loopTri]).filter (matchesMaterial d matIndex)
        = processed.filter (matchesMaterial d matIndex) ++ [loopTri] := by
      simp [List.filter_append, hm]
    rw [hf, List.length_append, List.length_singleton] at hsize
    have hlen := h.size
    have hmat : (d.polygons loopTri.poly).mat_nr = matIndex := by
      simpa [matchesMaterial] using hm
    unfold addLoopTri
    simp only [hmat, ne_eq, not_true_eq_false, if_false]
    by_cases hsmooth : (d.polygons loopTri.poly).smooth = true
    · simp only [hsmooth, if_true]
      obtain ⟨e0, v0, n0, f0, m0, x0⟩ :=
        smoothMeshVertex_ord d st loopTri.tri0 h.free h.map (by omega)
      have s0 : (smoothMeshVertex d st loopTri.tri0).1.tmpMeshVerts.length + 1 < UINT_MOD := by
        rw [v0, List.length_append]
        omega
      obtain ⟨e1, v1, n1, f1, m1, x1⟩ :=
        smoothMeshVertex_ord d (smoothMeshVertex d st loopTri.tri0).1 loopTri.tri1 f0 m0 s0
      have s1 : (smoothMeshVertex d (smoothMeshVertex d st loopTri.tri0).1
          loopTri.tri1).1.tmpMeshVerts.length + 1 < UINT_MOD := by
        rw [v1, v0, List.length_append, List.length_append]
        omega
      obtain ⟨e2, v2, n2, f2, m2, x2⟩ :=
        smoothMeshVertex_ord d
          (smoothMeshVertex d (smoothMeshVertex d st loopTri.tri0).1 loopTri.tri1).1
          loopTri.tri2 f1 m1 s1
      refine meshOrd_emit d matIndex processed st _ loopTri (e0 ++ (e1 ++ e2))
        ((smoothMeshVertex d st loopTri.tri0).2,
          (smoothMeshVertex d (smoothMeshVertex d st loopTri.tri0).1 loopTri.tri1).2,
          (smoothMeshVertex d
            (smoothMeshVertex d (smoothMeshVertex d st loopTri.tri0).1 loopTri.tri1).1
            loopTri.tri2).2) h hm ?_ ?_ f2 m2 ?_ ⟨?_, ?_, x2⟩
      · show (smoothMeshVertex d
          (smoothMeshVertex d (smoothMeshVertex d st loopTri.tri0).1 loopTri.tri1).1
          loopTri.tri2).1.tmpMeshVerts = _
        rw [v2, v1, v0, List.append_assoc, List.append_assoc]
      · rw [List.length_append, List.length_append]
        omega
      · show (smoothMeshVertex d
          (smoothMeshVertex d (smoothMeshVertex d st loopTri.tri0).1 loopTri.tri1).1
          loopTri.tri2).1.tmpMeshTris ++ _ = _
        rw [smoothMeshVertex_tris, smoothMeshVertex_tris, smoothMeshVertex_tris]
      · show (smoothMeshVertex d
          (smoothMeshVertex d (smoothMeshVertex d st loopTri.tri0).1 loopTri.tri1).1
          loopTri.tri2).1.tmpMeshVerts[(smoothMeshVertex d st loopTri.tri0).2]? = _
        rw [v2, v1]
        exact getElem?_append_of_some _ _ _ _ (getElem?_append_of_some _ _ _ _ x0)
      · show (smoothMeshVertex d
          (smoothMeshVertex d (smoothMeshVertex d st loopTri.tri0).1 loopTri.tri1).1
          loopTri.tri2).1.tmpMeshVerts[(smoothMeshVertex d
            (smoothMeshVertex d st loopTri.tri0).1 loopTri.tri1).2]? = _
        rw [v2]
        exact getElem?_append_of_some _ _ _ _ x1
    · simp only [hsmooth, if_false]
      obtain ⟨v0, f0, i0⟩ := addMeshVertex_ord d st loopTri.tri0 (d.loopV loopTri.tri0)
        (.face (d.loopV loopTri.tri0) (d.loopV loopTri.tri1) (d.loopV loopTri.tri2))
        h.free (by omega)
      have s0 : (addMeshVertex d st loopTri.tri0 (d.loopV loopTri.tri0)
          (.face (d.loopV loopTri.tri0) (d.loopV loopTri.tri1)
            (d.loopV loopTri.tri2))).1.tmpMeshVerts.length + 1 < UINT_MOD := by
        rw [v0, List.length_append, List.length_singleton]
        omega
      obtain ⟨v1, f1, i1⟩ := addMeshVertex_ord d
        (addMeshVertex d st loopTri.tri0 (d.loopV loopTri.tri0)
          (.face (d.loopV loopTri.tri0) (d.loopV loopTri.tri1) (d.loopV loopTri.tri2))).1
        loopTri.tri1 (d.loopV loopTri.tri1)
        (.face (d.loopV loopTri.tri0) (d.loopV loopTri.tri1) (d.loopV loopTri.tri2)) f0 s0
      have s1 : (addMeshVertex d
          (addMeshVertex d st loopTri.tri0 (d.loopV loopTri.tri0)
            (.face (d.loopV loopTri.tri0) (d.loopV loopTri.tri1) (d.loopV loopTri.tri2))).1
          loopTri.tri1 (d.loopV loopTri.tri1)
          (.face (d.loopV loopTri.tri0) (d.loopV loopTri.tri1)
            (d.loopV loopTri.tri2))).1.tmpMeshVerts.length + 1 < UINT_MOD := by
        rw [v1, v0, List.length_append, List.length_append, List.length_singleton,
          List.length_singleton]
        omega
      obtain ⟨v2, f2, i2⟩ := addMeshVertex_ord d
        (addMeshVertex d
          (addMeshVertex d st loopTri.tri0 (d.loopV loopTri.tri0)
            (.face (d.loopV loopTri.tri0) (d.loopV loopTri.tri1) (d.loopV loopTri.tri2))).1
          loopTri.tri1 (d.loopV loopTri.tri1)
          (.face (d.loopV loopTri.tri0) (d.loopV loopTri.tri1) (d.loopV loopTri.tri2))).1
        loopTri.tri2 (d.loopV loopTri.tri2)
        (.face (d.loopV loopTri.tri0) (d.loopV loopTri.tri1) (d.loopV loopTri.tri2)) f1 s1
      have hverts : (addMeshVertex d
          (addMeshVertex d
            (addMeshVertex d st loopTri.tri0 (d.loopV loopTri.tri0)
              (.face (d.loopV loopTri.tri0) (d.loopV loopTri.tri1) (d.loopV loopTri.tri2))).1
            loopTri.tri1 (d.loopV loopTri.tri1)
            (.face (d.loopV loopTri.tri0) (d.loopV loopTri.tri1) (d.loopV loopTri.tri2))).1
          loopTri.tri2 (d.loopV loopTri.tri2)
          (.face (d.loopV loopTri.tri0) (d.loopV loopTri.tri1)
            (d.loopV loopTri.tri2))).1.tmpMeshVerts
          = st.tmpMeshVerts ++
            [d.loopV loopTri.tri0, d.loopV loopTri.tri1, d.loopV loopTri.tri2] := by
        rw [v2, v1, v0]
        simp
      refine meshOrd_emit d matIndex processed st _ loopTri
        [d.loopV loopTri.tri0, d.loopV loopTri.tri1, d.loopV loopTri.tri2] _ h hm hverts
        (Nat.le_refl _) f2 ?_ rfl ⟨?_, ?_, ?_⟩
      · intro kv hkv
        have hkv2 : kv ∈ st.vertexMap := hkv
        have hold := h.map kv hkv2
        show (addMeshVertex d
          (addMeshVertex d
            (addMeshVertex d st loopTri.tri0 (d.loopV loopTri.tri0)
              (.face (d.loopV loopTri.tri0) (d.loopV loopTri.tri1) (d.loopV loopTri.tri2))).1
            loopTri.tri1 (d.loopV loopTri.tri1)
            (.face (d.loopV loopTri.tri0) (d.loopV loopTri.tri1) (d.loopV loopTri.tri2))).1
          loopTri.tri2 (d.loopV loopTri.tri2)
          (.face (d.loopV loopTri.tri0) (d.loopV loopTri.tri1)
            (d.loopV loopTri.tri2))).1.tmpMeshVerts[kv.2]? = _
        rw [hverts]
        exact getElem?_append_of_some _ _ _ _ hold
      · show (addMeshVertex d
          (addMeshVertex d
            (addMeshVertex d st loopTri.tri0 (d.loopV loopTri.tri0)
              (.face (d.loopV loopTri.tri0) (d.loopV loopTri.tri1) (d.loopV loopTri.tri2))).1
            loopTri.tri1 (d.loopV loopTri.tri1)
            (.face (d.loopV loopTri.tri0) (d.loopV loopTri.tri1) (d.loopV loopTri.tri2))).1
          loopTri.tri2 (d.loopV loopTri.tri2)
          (.face (d.loopV loopTri.tri0) (d.loopV loopTri.tri1)
            (d.loopV loopTri.tri2))).1.tmpMeshVerts[st.vertFreeIndex]? = _
        rw [hverts, h.free]
        exact (getElem?_append_add _ _ 0).trans rfl
      · show (addMeshVertex d
          (addMeshVertex d
            (addMeshVertex d st loopTri.tri0 (d.loopV loopTri.tri0)
              (.face (d.loopV loopTri.tri0) (d.loopV loopTri.tri1) (d.loopV loopTri.tri2))).1
            loopTri.tri1 (d.loopV loopTri.tri1)
            (.face (d.loopV loopTri.tri0) (d.loopV loopTri.tri1) (d.loopV loopTri.tri2))).1
          loopTri.tri2 (d.loopV loopTri.tri2)
          (.face (d.loopV loopTri.tri0) (d.loopV loopTri.tri1)
            (d.loopV loopTri.tri2))).1.tmpMeshVerts[(addMeshVertex d st loopTri.tri0
              (d.loopV loopTri.tri0) (.face (d.loopV loopTri.tri0) (d.loopV loopTri.tri1)
                (d.loopV loopTri.tri2))).1.vertFreeIndex]? = _
        rw [hverts, f0, v0, List.length_append, List.length_singleton]
        exact (getElem?_append_add _ _ 1).trans rfl
      · show (addMeshVertex d
          (addMeshVertex d
            (addMeshVertex d st loopTri.tri0 (d.loopV loopTri.tri0)
              (.face (d.loopV loopTri.tri0) (d.loopV loopTri.tri1) (d.loopV loopTri.tri2))).1
            loopTri.tri1 (d.loopV loopTri.tri1)
            (.face (d.loopV loopTri.tri0) (d.loopV loopTri.tri1) (d.loopV loopTri.tri2))).1
          loopTri.tri2 (d.loopV loopTri.tri2)
          (.face (d.loopV loopTri.tri0) (d.loopV loopTri.tri1)
            (d.loopV loopTri.tri2))).1.tmpMeshVerts[(addMeshVertex d
              (addMeshVertex d st loopTri.tri0 (d.loopV loopTri.tri0)
                (.face (d.loopV loopTri.tri0) (d.loopV loopTri.tri1)
                  (d.loopV loopTri.tri2))).1
              loopTri.tri1 (d.loopV loopTri.tri1)
              (.face (d.loopV loopTri.tri0) (d.loopV loopTri.tri1)
                (d.loopV loopTri.tri2))).1.vertFreeIndex]? = _
        rw [hverts, f1, v1, v0, List.length_append, List.length_append, List.length_singleton,
          List.length_singleton]
        exact (getElem?_append_add _ _ 2).trans rfl
  · have hm2 : matchesMaterial d matIndex loopTri = false := by
      simpa using hm
    have hmat : (d.polygons loopTri.poly).mat_nr ≠ matIndex := by
      simpa [matchesMaterial] using hm2
    have hskip : addLoopTri d matIndex st loopTri = st := by
      unfold addLoopTri
      simp only [hmat, ne_eq, not_false_eq_true, if_true]
    rw [hskip]
    exact meshOrd_skip d matIndex processed st loopTri h hm2

theorem foldl_addLoopTri_ord (d : BlenderMeshData) (matIndex : Int) (rest : List MLoopTri)
    (processed : List MLoopTri) (st : MeshBuild) (h : MeshOrd d matIndex processed st)
    (hsize : 3 * ((processed ++ rest).filter (matchesMaterial d matIndex)).length
      < UINT_MOD) :
    MeshOrd d matIndex (processed ++ rest) (rest.foldl (addLoopTri d matIndex) st) := by
  induction rest generalizing processed st with
  | nil => simpa using h
  | cons loopTri rest ih =>
    have happ : processed ++ loopTri :: rest = (processed ++ [loopTri]) ++ rest := by simp
    rw [happ] at hsize ⊢
    refine ih (processed ++ [loopTri]) (addLoopTri d matIndex st loopTri) ?_ hsize
    refine addLoopTri_ord d matIndex processed st loopTri h ?_
    refine Nat.lt_of_le_of_lt ?_ hsize
    rw [List.filter_append (processed ++ [loopTri]) rest, List.length_append]
    omega

theorem meshOrd_empty (d : BlenderMeshData) (matIndex : Int) :
    MeshOrd d matIndex [] MeshBuild.empty :=
  { free := rfl
    map := fun _ h => nomatch h
    tris := List.Forall₂.nil
    size := Nat.zero_le _ }

/-! ## The `while` loop of `Scene_DefineBlenderStrands` ends -/

theorem readPoint_pointIdx {F : Type} (ops : StrandFloats F) (inp : StrandsInput F)
    (st st2 : StrandsState F) (point : F × F × F)
    (h : readPoint ops inp st = .ok (point, st2)) : st2.pointIdx = st.pointIdx + 3 := by
  unfold readPoint at h
  split at h
  · cases h
  · split at h
    · cases h
    · split at h
      · cases h
      · injection h with h
        injection h with _ h
        subst h
        rfl

theorem readStrandUV_pointIdx {F : Type} (ops : StrandFloats F) (inp : StrandsInput F)
    (st st2 : StrandsState F) (u v : F)
    (h : readStrandUV ops inp st = .ok (u, v, st2)) : st2.pointIdx = st.pointIdx := by
  unfold readStrandUV at h
  split at h
  · split at h
    · cases h
    · split at h
      · cases h
      · injection h with h
        injection h with _ h
        injection h with _ h
        subst h
        rfl
  · injection h with h
    injection h with _ h
    injection h with _ h
    subst h
    rfl

theorem readStrandColor_pointIdx {F : Type} (ops : StrandFloats F) (inp : StrandsInput F)
    (st st2 : StrandsState F) (r g b : F)
    (h : readStrandColor ops inp st = .ok (r, g, b, st2)) : st2.pointIdx = st.pointIdx := by
  unfold readStrandColor at h
  split at h
  · split at h
    · cases h
    · split at h
      · cases h
      · split at h
        · cases h
        · injection h with h
          injection h with _ h
          injection h with _ h
          injection h with _ h
          subst h
          rfl
  · injection h with h
    injection h with _ h
    injection h with _ h
    injection h with _ h
    subst h
    rfl

theorem strandStep_pointIdx {F : Type} (ops : StrandFloats F) (inp : StrandsInput F)
    (head : StrandHead F) (step : Nat) (currPoint point : F × F × F) (count count2 : Nat)
    (st st2 : StrandsState F)
    (h : strandStep ops inp head step currPoint count st = .ok (point, count2, st2)) :
    st2.pointIdx = st.pointIdx + 3 := by
  unfold strandStep at h
  simp only [] at h
  split at h
  · cases h
  · rename_i p st1 hread
    have h1 := readPoint_pointIdx ops inp st st1 p hread
    split at h
    · injection h with h
      injection h with _ h
      injection h with _ h
      subst h
      exact h1
    · split at h
      · injection h with h
        injection h with _ h
        injection h with _ h
        subst h
        exact h1
      · injection h with h
        injection h with _ h
        injection h with _ h
        subst h
        exact h1

theorem strandSteps_pointIdx {F : Type} (ops : StrandFloats F) (inp : StrandsInput F)
    (head : StrandHead F) (remaining : Nat) :
    ∀ (step : Nat) (currPoint point : F × F × F) (count count2 : Nat)
      (st st2 : StrandsState F),
      strandSteps ops inp head remaining step currPoint count st = .ok (point, count2, st2) →
      st.pointIdx ≤ st2.pointIdx := by
  induction remaining with
  | zero =>
    intro step currPoint point count count2 st st2 h
    unfold strandSteps at h
    injection h with h
    injection h with _ h
    injection h with _ h
    subst h
    exact Nat.le_refl _
  | succ remaining ih =>
    intro step currPoint point count count2 st st2 h
    unfold strandSteps at h
    split at h
    · cases h
    · rename_i p c st1 hstep
      have h1 := strandStep_pointIdx ops inp head step currPoint p count c st st1 hstep
      have h2 := ih (step + 1) p point c count2 st1 st2 h
      omega

theorem closeStrand_pointIdx {F : Type} (inp : StrandsInput F) (count : Nat)
    (st : StrandsState F) : (closeStrand inp count st).pointIdx = st.pointIdx := by
  unfold closeStrand
  split
  · rfl
  · split
    · rfl
    · rfl

theorem strandBody_pointIdx {F : Type} (ops : StrandFloats F) (inp : StrandsInput F)
    (st st2 : StrandsState F) (h : strandBody ops inp st = .ok st2) :
    st.pointIdx < st2.pointIdx := by
  unfold strandBody at h
  split at h
  · cases h
  · rename_i u v st1 huv
    have h1 := readStrandUV_pointIdx ops inp st st1 u v huv
    split at h
    · cases h
    · rename_i r g b st3 hcol
      have h2 := readStrandColor_pointIdx ops inp st1 st3 r g b hcol
      split at h
      · cases h
      · rename_i p st4 hpt
        have h3 := readPoint_pointIdx ops inp st3 st4 p hpt
        split at h
        · cases h
        · rename_i p2 count st5 hsteps
          have h4 := strandSteps_pointIdx ops inp _ _ _ _ _ _ _ _ _ hsteps
          injection h with h
          subst h
          rw [closeStrand_pointIdx]
          omega

theorem strandsLoop_total {F : Type} (ops : StrandFloats F) (inp : StrandsInput F)
    (fuel : Nat) :
    ∀ st : StrandsState F, inp.points.size ≤ st.pointIdx + fuel →
      strandsLoop ops inp fuel st ≠ none := by
  induction fuel with
  | zero =>
    intro st hfuel
    unfold strandsLoop
    rw [if_neg (by omega)]
    exact fun h => nomatch h
  | succ fuel ih =>
    intro st hfuel
    unfold strandsLoop
    split
    · split
      · exact fun h => nomatch h
      · rename_i st2 hbody
        have hlt := strandBody_pointIdx ops inp st st2 hbody
        exact ih st2 (by omega)
    · exact fun h => nomatch h

theorem Scene_DefineBlenderStrands_total {F : Type} (ops : StrandFloats F)
    (inp : StrandsInput F) : Scene_DefineBlenderStrands ops inp ≠ none := by
  have hloop := strandsLoop_total ops inp inp.points.size (StrandsState.start ops inp)
    (Nat.le_add_left _ _)
  unfold Scene_DefineBlenderStrands
  split
  · exact fun h => nomatch h
  · split
    · rename_i hnone
      exact absurd hnone hloop
    · exact fun h => nomatch h
    · split
      · exact fun h => nomatch h
      · exact fun h => nomatch h

/-! ## The filtering loop of `Scene_DefineBlenderStrands` on a long strand -/

theorem longStrand_readPoint (k : Nat) (hk : k < 65538) (st : StrandsState ℚ)
    (hp : st.pointIdx = 3 * k) :
    readPoint exactFloats strandsLongStrand st
      = .ok (linePoint k, { st with pointIdx := 3 * k + 3 }) := by
  have h0 : (3 * k) % 3 = 0 := Nat.mul_mod_right 3 k
  have h1 : (3 * k + 1) % 3 = 1 := by omega
  have h2 : (3 * k + 2) % 3 = 2 := by omega
  have hd : 3 * k / 3 = k := by omega
  have b0 : 3 * k < 196614 := by omega
  have b1 : 3 * k + 1 < 196614 := by omega
  have b2 : 3 * k + 2 < 196614 := by omega
  simp [readPoint, readArray, strandsLongStrand, exactFloats, linePoint, hp, h0, h1, h2, hd,
    b0, b1, b2]

theorem longStrand_skipSegment (k : Nat) :
    exactFloats.skipSegment (linePoint k) (linePoint (k + 1)) = false := by
  have hk : ((k : ℚ) + 1) ≠ 0 := by positivity
  have hk2 : ((k : ℚ) + 1 + 1) ≠ 0 := by positivity
  simp [exactFloats, linePoint, hk, hk2]
  norm_num

theorem longStrand_pushStrandPoint (head : StrandHead ℚ) (step : Nat) (point : ℚ × ℚ × ℚ)
    (st : StrandsState ℚ) :
    pushStrandPoint exactFloats strandsLongStrand head step point st
      = { st with filteredPoints := st.filteredPoints ++ [point.1, point.2.1, point.2.2] } :=
  rfl

theorem longStrand_strandStep (head : StrandHead ℚ) (k : Nat) (hk1 : 1 ≤ k)
    (hk : k + 1 < 65538) (count : Nat) (st : StrandsState ℚ)
    (hp : st.pointIdx = 3 * (k + 1)) :
    strandStep exactFloats strandsLongStrand head (k + 1) (linePoint k) count st
      = .ok (linePoint (k + 1), incrValidPointCount count,
          { st with
            pointIdx := 3 * (k + 1) + 3
            filteredPoints := st.filteredPoints ++
              [(linePoint (k + 1)).1, (linePoint (k + 1)).2.1, (linePoint (k + 1)).2.2] }) := by
  have hne : k + 1 ≠ 1 := by omega
  unfold strandStep
  simp only [longStrand_readPoint (k + 1) hk st hp, longStrand_skipSegment, hne, if_false,
    Bool.false_eq_true, longStrand_pushStrandPoint]

theorem longStrand_firstStep (head : StrandHead ℚ) (st : StrandsState ℚ)
    (hp : st.pointIdx = 3) :
    strandStep exactFloats strandsLongStrand head 1 (linePoint 0) 0 st
      = .ok (linePoint 1, 2,
          { st with
            pointIdx := 6
            filteredPoints := (st.filteredPoints ++
              [(linePoint 0).1, (linePoint 0).2.1, (linePoint 0).2.2]) ++
              [(linePoint 1).1, (linePoint 1).2.1, (linePoint 1).2.2] }) := by
  have hp2 : st.pointIdx = 3 * 1 := hp
  unfold strandStep
  simp only [longStrand_readPoint 1 (by omega) st hp2, longStrand_skipSegment, if_true,
    if_false, Bool.false_eq_true, longStrand_pushStrandPoint]
  rfl

theorem longStrand_strandSteps (head : StrandHead ℚ) (remaining : Nat) :
    ∀ (k count : Nat) (st : StrandsState ℚ), 1 ≤ k → k + remaining < 65538 →
      count < 65536 → st.pointIdx = 3 * (k + 1) →
      ∃ p st2,
        strandSteps exactFloats strandsLongStrand head remaining (k + 1) (linePoint k) count st
          = .ok (p, (count + remaining) % 65536, st2) ∧
        st2.pointIdx = 3 * (k + 1 + remaining) ∧
        st2.filteredPoints.length = st.filteredPoints.length + 3 * remaining ∧
        st2.segments = st.segments ∧ st2.thickness = st.thickness ∧
        st2.filteredColors = st.filteredColors ∧ st2.filteredUVs = st.filteredUVs := by
  induction remaining with
  | zero =>
    intro k count st _ _ hc hp
    exact ⟨linePoint k, st, by simp [strandSteps, Nat.mod_eq_of_lt hc], hp, rfl, rfl, rfl,
      rfl, rfl⟩
  | succ remaining ih =>
    intro k count st hk1 hk hc hp
    have hstep := longStrand_strandStep head k hk1 (by omega) count st hp
    obtain ⟨p, st2, hrun, hidx, hlen, hseg, hth, hcol, huv⟩ :=
      ih (k + 1) (incrValidPointCount count)
        { st with
          pointIdx := 3 * (k + 1) + 3
          filteredPoints := st.filteredPoints ++
            [(linePoint (k + 1)).1, (linePoint (k + 1)).2.1, (linePoint (k + 1)).2.2] }
        (by omega) (by omega) (Nat.mod_lt _ (by decide)) (by show 3 * (k + 1) + 3 = _; omega)
    refine ⟨p, st2, ?_, ?_, ?_, hseg, hth, hcol, huv⟩
    · unfold strandSteps
      rw [hstep]
      simp only []
      rw [hrun]
      have hmod : (incrValidPointCount count + remaining) % 65536
          = (count + (remaining + 1)) % 65536 := by
        unfold incrValidPointCount
        omega
      rw [hmod]
    · rw [hidx]
      omega
    · rw [hlen]
      simp only [List.length_append, List.length_cons, List.length_nil]
      omega

theorem longStrand_strand (head : StrandHead ℚ) (st : StrandsState ℚ) (hp : st.pointIdx = 3) :
    ∃ p st2,
      strandSteps exactFloats strandsLongStrand head (65536 + 1) 1 (linePoint 0) 0 st
        = .ok (p, 2, st2) ∧
      st2.pointIdx = 196614 ∧
      st2.filteredPoints.length = st.filteredPoints.length + 196614 ∧
      st2.segments = st.segments ∧ st2.thickness = st.thickness ∧
      st2.filteredColors = st.filteredColors ∧ st2.filteredUVs = st.filteredUVs := by
  obtain ⟨p, st2, hrun, hidx, hlen, hseg, hth, hcol, huv⟩ :=
    longStrand_strandSteps head 65536 1 2
      { st with
        pointIdx := 6
        filteredPoints := (st.filteredPoints ++
          [(linePoint 0).1, (linePoint 0).2.1, (linePoint 0).2.2]) ++
          [(linePoint 1).1, (linePoint 1).2.1, (linePoint 1).2.2] }
      (Nat.le_refl _) (by omega) (by omega) rfl
  refine ⟨p, st2, ?_, hidx, ?_, hseg, hth, hcol, huv⟩
  · unfold strandSteps
    rw [longStrand_firstStep head st hp]
    simp only []
    rw [hrun]
  · have h3 : ∀ a b c : ℚ, [a, b, c].length = 3 := fun _ _ _ => rfl
    have hcalc : ((st.filteredPoints ++
        [(linePoint 0).1, (linePoint 0).2.1, (linePoint 0).2.2]) ++
        [(linePoint 1).1, (linePoint 1).2.1, (linePoint 1).2.2]).length
        = st.filteredPoints.length + 6 := by
      rw [List.length_append, List.length_append, h3, h3]
    have hlen2 : st2.filteredPoints.length = ((st.filteredPoints ++
        [(linePoint 0).1, (linePoint 0).2.1, (linePoint 0).2.2]) ++
        [(linePoint 1).1, (linePoint 1).2.1, (linePoint 1).2.2]).length + 3 * 65536 := hlen
    rw [hcalc] at hlen2
    omega

theorem strandBody_of_parts {F : Type} (ops : StrandFloats F) (inp : StrandsInput F)
    (st st1 st3 st4 st5 : StrandsState F) (u v r g b : F) (point point2 : F × F × F)
    (count : Nat)
    (huv : readStrandUV ops inp st = .ok (u, v, st1))
    (hcol : readStrandColor ops inp st1 = .ok (r, g, b, st3))
    (hpt : readPoint ops inp st3 = .ok (point, st4))
    (hsteps : strandSteps ops inp ⟨u, v, r, g, b⟩ (inp.pointsPerStrand - 1) 1 point 0 st4
      = .ok (point2, count, st5)) :
    strandBody ops inp st = .ok (closeStrand inp count st5) := by
  unfold strandBody
  rw [huv]
  simp only []
  rw [hcol]
  simp only []
  rw [hpt]
  simp only []
  rw [hsteps]

theorem closeStrand_of_two {F : Type} (inp : StrandsInput F) (st : StrandsState F) :
    closeStrand inp 2 st = { st with segments := st.segments ++ [1] } := by
  unfold closeStrand
  rw [if_neg (by decide), if_pos (by decide)]

theorem longStrand_strandBody :
    ∃ st2,
      strandBody exactFloats strandsLongStrand (StrandsState.start exactFloats strandsLongStrand)
        = .ok st2 ∧
      st2.pointIdx = 196614 ∧ st2.segments = [1] ∧ st2.filteredPoints.length = 196614 ∧
      st2.thickness = [1] ∧ st2.filteredColors = [] ∧ st2.filteredUVs = [] := by
  have huv : readStrandUV exactFloats strandsLongStrand
      (StrandsState.start exactFloats strandsLongStrand)
      = .ok (0, 0, StrandsState.start exactFloats strandsLongStrand) := rfl
  have hcol : readStrandColor exactFloats strandsLongStrand
      (StrandsState.start exactFloats strandsLongStrand)
      = .ok (1, 1, 1, StrandsState.start exactFloats strandsLongStrand) := rfl
  have hpt := longStrand_readPoint 0 (by omega)
    (StrandsState.start exactFloats strandsLongStrand) rfl
  have hpps : strandsLongStrand.pointsPerStrand - 1 = 65536 + 1 := rfl
  obtain ⟨p, st2, hrun, hidx, hlen, hseg, hth, hcols, huvs⟩ :=
    longStrand_strand ⟨0, 0, 1, 1, 1⟩
      { StrandsState.start exactFloats strandsLongStrand with pointIdx := 3 * 0 + 3 } rfl
  have hbody := strandBody_of_parts exactFloats strandsLongStrand
    (StrandsState.start exactFloats strandsLongStrand)
    (StrandsState.start exactFloats strandsLongStrand)
    (StrandsState.start exactFloats strandsLongStrand)
    { StrandsState.start exactFloats strandsLongStrand with pointIdx := 3 * 0 + 3 } st2
    0 0 1 1 1 (linePoint 0) p 2 huv hcol hpt (hpps ▸ hrun)
  rw [closeStrand_of_two] at hbody
  refine ⟨_, hbody, hidx, ?_, ?_, hth, hcols, huvs⟩
  · show st2.segments ++ [1] = [1]
    rw [hseg]
    rfl
  · show st2.filteredPoints.length = 196614
    rw [hlen]
    exact Nat.zero_add _

theorem strandsLoop_done {F : Type} (ops : StrandFloats F) (inp : StrandsInput F) (fuel : Nat)
    (st : StrandsState F) (h : ¬ st.pointIdx < inp.points.size) :
    strandsLoop ops inp fuel st = some (.ok st) := by
  cases fuel with
  | zero => simp [strandsLoop, h]
  | succ fuel => simp [strandsLoop, h]

theorem strandsLoop_of_one_strand {F : Type} (ops : StrandFloats F) (inp : StrandsInput F)
    (fuel : Nat) (st st2 : StrandsState F) (hlt : st.pointIdx < inp.points.size)
    (hbody : strandBody ops inp st = .ok st2) (hdone : ¬ st2.pointIdx < inp.points.size) :
    strandsLoop ops inp (fuel + 1) st = some (.ok st2) := by
  unfold strandsLoop
  rw [if_pos hlt, hbody]
  simp only []
  exact strandsLoop_done ops inp fuel st2 hdone

theorem Scene_DefineBlenderStrands_of_loop {F : Type} (ops : StrandFloats F)
    (inp : StrandsInput F) (st : StrandsState F) (hvalid : strandsValidate inp = none)
    (hloop : strandsLoop ops inp inp.points.size (StrandsState.start ops inp) = some (.ok st))
    (hseg : st.segments.isEmpty = false) :
    Scene_DefineBlenderStrands ops inp
      = some (.defined
          { hairCount := st.segments.length
            pointCount := st.filteredPoints.length / 3
            segments := st.segments
            points := st.filteredPoints
            thickness := st.thickness
            colors := st.filteredColors
            uvs := st.filteredUVs }) := by
  unfold Scene_DefineBlenderStrands
  rw [hvalid]
  simp only []
  rw [hloop]
  simp only [hseg, Bool.false_eq_true, if_false]

theorem longStrand_strandsLoop :
    ∃ st2,
      strandsLoop exactFloats strandsLongStrand strandsLongStrand.points.size
        (StrandsState.start exactFloats strandsLongStrand) = some (.ok st2) ∧
      st2.segments = [1] ∧ st2.filteredPoints.length = 196614 ∧
      st2.thickness = [1] ∧ st2.filteredColors = [] ∧ st2.filteredUVs = [] := by
  obtain ⟨st2, hbody, hidx, hrest⟩ := longStrand_strandBody
  have hsize : strandsLongStrand.points.size = 196613 + 1 := rfl
  have hlt : (StrandsState.start exactFloats strandsLongStrand).pointIdx
      < strandsLongStrand.points.size := by decide
  have hdone : ¬ st2.pointIdx < strandsLongStrand.points.size := by
    rw [hidx]
    decide
  have hloop := strandsLoop_of_one_strand exactFloats strandsLongStrand 196613
    (StrandsState.start exactFloats strandsLongStrand) st2 hlt hbody hdone
  exact ⟨st2, hsize ▸ hloop, hrest⟩

/-! ## The claims -/

/-- C1: when `StartLockLess` runs with a pending render state whose tag is the engine's tag and
with a sampler configuration that passes both checks, the boot seed of the engine afterwards is
the recorded `bootStrapSeed` plus 1 in `u_int` arithmetic, whatever seed the engine held before
and whatever the later steps of `StartLockLess` do. -/
theorem C1_start_seed_is_state_seed_plus_one (env : Env) (w : World) (rs : BakeCPURenderState)
    (hstate : w.engine.startRenderState = some rs)
    (htag : rs.engineTag = GetObjectTag)
    (hcfg : validSamplers env w.engine.renderConfig.cfg) :
    (StartLockLess env w).world.engine.bootStrapSeed = (rs.bootStrapSeed + 1) % UINT_MOD := by
  rw [start_seed env w hcfg, (restore_engine w rs hstate htag).2]

/-- Witness of C1: the engine of `worldResume` held seed 131, the state recorded 41, and the
engine holds 42 after `StartLockLess`. -/
theorem C1_start_seed_witness :
    worldResume.engine.bootStrapSeed = 131 ∧
    (StartLockLess envEnabled worldResume).world.engine.bootStrapSeed = 42 :=
  ⟨rfl, C1_start_seed_is_state_seed_plus_one envEnabled worldResume stateResume rfl rfl
    (by decide)⟩

/-- C2: when the pending render state carries a tag other than the engine's tag,
`StartLockLess` raises an error and the world is exactly the world before the call: the boot
seed, the cache pointer and the pending render state of the engine (which still holds its cache
pointer) are unchanged, the heap of caches is unchanged and no call has been made. -/
theorem C2_start_tag_mismatch_fails_unmodified (env : Env) (w : World)
    (rs : BakeCPURenderState)
    (hstate : w.engine.startRenderState = some rs)
    (htag : rs.engineTag ≠ GetObjectTag) :
    (StartLockLess env w).failed = true ∧
    (StartLockLess env w).world = w ∧
    (StartLockLess env w).world.engine.startRenderState = some rs ∧
    factoryCalls (newEvents w (StartLockLess env w).world) = [] := by
  have key : ∃ msg, StartLockLess env w = { world := w, result := .error msg } := by
    cases hs : checkSamplers env w.engine.renderConfig.cfg with
    | some msg => exact ⟨msg, start_of_invalid env w msg hs⟩
    | none =>
      obtain ⟨msg, hmsg⟩ := restore_of_mismatch w rs hstate htag
      refine ⟨msg, ?_⟩
      rw [start_of_restore_error env w msg hs (by rw [hmsg]), hmsg]
  obtain ⟨msg, hmsg⟩ := key
  rw [hmsg]
  exact ⟨rfl, rfl, hstate, by simp [newEvents, factoryCalls]⟩

/-- Witness of C2: the state of `worldForeign` is tagged PATHCPU. -/
theorem C2_start_tag_mismatch_witness :
    (StartLockLess envEnabled worldForeign).failed = true ∧
    (StartLockLess envEnabled worldForeign).world = worldForeign ∧
    (StartLockLess envEnabled worldForeign).world.engine.startRenderState = some stateForeign ∧
    factoryCalls (newEvents worldForeign (StartLockLess envEnabled worldForeign).world) = [] :=
  C2_start_tag_mismatch_fails_unmodified envEnabled worldForeign stateForeign rfl (by decide)

/-- C3: in a `StartLockLess` whose restore step succeeds on a render state `rs`, when `rs` holds
a cache `c` the engine's cache pointer becomes `c` and the cache pointer of `rs` is null while
`rs` is still the pending state, so that the state which is then deleted holds no cache; the
engine still holds `c` when `StartLockLess` returns. When `rs` holds no cache the restore step
leaves the engine with no cache. -/
theorem C3_restore_moves_cache_into_engine (env : Env) (w : World) (rs : BakeCPURenderState)
    (hstate : w.engine.startRenderState = some rs)
    (htag : rs.engineTag = GetObjectTag)
    (hcfg : validSamplers env w.engine.renderConfig.cfg) :
    (∀ c, rs.photonGICache = some c →
      (transferRenderState w rs).1.engine.photonGICache = some c ∧
      (transferRenderState w rs).1.engine.startRenderState =
        some { rs with photonGICache := none } ∧
      (transferRenderState w rs).2.photonGICache = none ∧
      newEvents w (restoreRenderState w).world =
        [.setSeed ((rs.bootStrapSeed + 1) % UINT_MOD),
         .setScene c w.engine.renderConfig.scene,
         .deleteRenderState { rs with photonGICache := none }] ∧
      (restoreRenderState w).world.engine.photonGICache = some c ∧
      (StartLockLess env w).result = .ok () ∧
      (StartLockLess env w).world.engine.photonGICache = some c ∧
      (StartLockLess env w).world.engine.startRenderState = none) ∧
    (rs.photonGICache = none →
      (restoreRenderState w).result = .ok () ∧
      (restoreRenderState w).world.engine.photonGICache = none) := by
  constructor
  · intro c hc
    refine ⟨?_, ?_, ?_, ?_, ?_, ?_, ?_, ?_⟩
    · simp [transferRenderState, SetSeed, hc]
    · simp [transferRenderState, SetSeed, hc]
    · simp [transferRenderState, SetSeed, hc]
    · apply newEvents_append
      rw [restore_of_cache w rs c hstate htag hc]
    · rw [restore_of_cache w rs c hstate htag hc]
    · rw [start_of_restored_cache env w rs c hcfg hstate htag hc]
    · rw [start_of_restored_cache env w rs c hcfg hstate htag hc,
        restore_of_cache w rs c hstate htag hc]
      rfl
    · rw [start_of_restored_cache env w rs c hcfg hstate htag hc,
        restore_of_cache w rs c hstate htag hc]
      rfl
  · intro hc
    rw [restore_of_no_cache w rs hstate htag hc]
    exact ⟨rfl, rfl⟩

/-- Witness of C3: the state of `worldResume` holds the cache at address 0. -/
theorem C3_restore_moves_cache_witness :
    (restoreRenderState worldResume).world.engine.photonGICache = some 0 ∧
    (transferRenderState worldResume stateResume).2.photonGICache = none :=
  have h := (C3_restore_moves_cache_into_engine envEnabled worldResume stateResume rfl rfl
    (by decide)).1 0 rfl
  ⟨h.2.2.2.2.1, h.2.2.1⟩

/-- C4, as the claim states it, fails: after construct and `Start` the engine holds the cache at
address 0, and after `GetRenderState` the engine still holds that cache while the returned
render state holds it too. -/
theorem C4_capture_counterexample :
    worldRunning.engine.photonGICache = some 0 ∧
    (GetRenderState worldRunning).result =
      .ok { engineTag := "BAKECPU", bootStrapSeed := 131, photonGICache := some 0 } ∧
    ¬ (GetRenderState worldRunning).world.engine.photonGICache = none := by
  refine ⟨by decide, rfl, by decide⟩

/-- C4, amended: `GetRenderState` does not transfer ownership. For every engine, the returned
render state records the engine's tag, boot seed and cache pointer, and the engine (its cache
pointer included), the heap and the trace are unchanged; an engine holding a cache `c` and the
returned state both hold `c` afterwards. The engine keeps owning the cache: `StopLockLess` and
the destructor, called after the capture, delete the cache the engine held, which is the one
the returned state holds. -/
theorem C4_capture_shares_cache (w : World) :
    (GetRenderState w).result =
      .ok { engineTag := GetObjectTag
            bootStrapSeed := w.engine.bootStrapSeed
            photonGICache := w.engine.photonGICache } ∧
    (GetRenderState w).world = w ∧
    (GetRenderState w).world.engine.photonGICache = w.engine.photonGICache ∧
    (StopLockLess (GetRenderState w).world).caches
      = deleteCache w.caches w.engine.photonGICache ∧
    newEvents (GetRenderState w).world (StopLockLess (GetRenderState w).world) =
      [.stopThreads, .deletePixelFilterDistribution, .deleteCache w.engine.photonGICache] ∧
    (destroy (GetRenderState w).world).caches
      = deleteCache w.caches w.engine.photonGICache ∧
    newEvents (GetRenderState w).world (destroy (GetRenderState w).world) =
      [.deleteCache w.engine.photonGICache] ∧
    (∀ c, w.engine.photonGICache = some c → c < w.caches.length →
      (GetRenderState w).result = .ok (newRenderState w.engine.bootStrapSeed (some c)) ∧
      (StopLockLess (GetRenderState w).world).caches[c]?.map (fun x => x.deleted)
        = some true ∧
      (destroy (GetRenderState w).world).caches[c]?.map (fun x => x.deleted) = some true) := by
  refine ⟨rfl, rfl, rfl, rfl, newEvents_append _ _ _ rfl, rfl, newEvents_append _ _ _ rfl, ?_⟩
  intro c hc hlive
  refine ⟨?_, ?_, ?_⟩
  · show Except.ok (newRenderState w.engine.bootStrapSeed w.engine.photonGICache) = _
    rw [hc]
  · show (deleteCache w.caches w.engine.photonGICache)[c]?.map (fun x => x.deleted) = some true
    simp [hc, deleteCache, updateCache_get, List.getElem?_eq_getElem hlive]
  · show (deleteCache w.caches w.engine.photonGICache)[c]?.map (fun x => x.deleted) = some true
    simp [hc, deleteCache, updateCache_get, List.getElem?_eq_getElem hlive]

/-- Witness of C4 amended, at the running engine of `worldRunning`: the captured state holds
the cache at address 0, which `StopLockLess` and the destructor delete. -/
theorem C4_capture_shares_cache_witness :
    (GetRenderState worldRunning).result = .ok (newRenderState 131 (some 0)) ∧
    (StopLockLess (GetRenderState worldRunning).world).caches[0]?.map (fun x => x.deleted)
      = some true ∧
    (destroy (GetRenderState worldRunning).world).caches[0]?.map (fun x => x.deleted)
      = some true :=
  (C4_capture_shares_cache worldRunning).2.2.2.2.2.2.2 0 (by decide) (by decide)

/-- C5, as the claim states it, fails: the running engine of `worldRunning` holds the cache at
address 0; after `StopLockLess` its cache pointer is null and that cache has been deleted. -/
theorem C5_stop_counterexample :
    worldRunning.engine.threadsRunning = true ∧
    worldRunning.engine.photonGICache = some 0 ∧
    ¬ (StopLockLess worldRunning).engine.photonGICache = some 0 ∧
    (StopLockLess worldRunning).caches[0]?.map (fun x => x.deleted) = some true := by
  decide

/-- C5, amended: `StopLockLess` releases the cache. For every engine holding a cache `c`, after
`StopLockLess` the engine's cache pointer is null, the cache `c` has been deleted, and the
deletion comes after the worker threads were stopped. -/
theorem C5_stop_releases_cache (w : World) (c : CachePtr)
    (hc : w.engine.photonGICache = some c) (hlive : c < w.caches.length) :
    (StopLockLess w).engine.photonGICache = none ∧
    (StopLockLess w).caches[c]?.map (fun x => x.deleted) = some true ∧
    newEvents w (StopLockLess w) =
      [.stopThreads, .deletePixelFilterDistribution, .deleteCache (some c)] := by
  refine ⟨rfl, ?_, ?_⟩
  · simp [StopLockLess, hc, deleteCache, updateCache_get, List.getElem?_eq_getElem hlive]
  · apply newEvents_append
    simp [StopLockLess, hc]

/-- Witness of C5 amended, at the running engine of `worldRunning`. -/
theorem C5_stop_releases_cache_witness :
    (StopLockLess worldRunning).engine.photonGICache = none ∧
    (StopLockLess worldRunning).caches[0]?.map (fun x => x.deleted) = some true ∧
    newEvents worldRunning (StopLockLess worldRunning) =
      [.stopThreads, .deletePixelFilterDistribution, .deleteCache (some 0)] :=
  C5_stop_releases_cache worldRunning 0 (by decide) (by decide)

/-- C6, as the claim states it, fails: `GetRenderState` on the running engine of `worldRunning`
raises no error and returns a render state. -/
theorem C6_capture_running_counterexample :
    worldRunning.engine.threadsRunning = true ∧
    (GetRenderState worldRunning).failed = false ∧
    ∃ st, (GetRenderState worldRunning).result = .ok st :=
  ⟨by decide, rfl, _, rfl⟩

/-- C6, amended: `GetRenderState` is never rejected. Whether the worker threads of the engine
are running or not, it raises no error and returns a render state. -/
theorem C6_capture_succeeds_in_every_state (w : World) (running : Bool) :
    (GetRenderState
      { w with engine := { w.engine with threadsRunning := running } }).failed = false ∧
    ∃ st, (GetRenderState
      { w with engine := { w.engine with threadsRunning := running } }).result = .ok st :=
  ⟨rfl, _, rfl⟩

/-- C8: when `sampler.type` reads `RTPATHCPUSAMPLER`, `StartLockLess` raises an error and the
world is exactly the world before the call: boot seed, cache pointer, pending render state (and
the cache pointer in it), heap and thread state are unchanged and no call (factory,
`Preprocess`, thread start) has been made. When the configuration has no `sampler.type` key the
value read is the Sobol tag, and the `RTPATHCPUSAMPLER` check passes whenever that tag is not
`RTPATHCPUSAMPLER`. -/
theorem C8_start_rejects_rtpath_sampler (env : Env) (w : World) :
    (samplerType env w.engine.renderConfig.cfg = .ok "RTPATHCPUSAMPLER" →
      (StartLockLess env w).failed = true ∧
      (StartLockLess env w).world = w ∧
      newEvents w (StartLockLess env w).world = []) ∧
    ((∀ p ∈ w.engine.renderConfig.cfg, p.name ≠ "sampler.type") →
      samplerType env w.engine.renderConfig.cfg = .ok env.sobolTag ∧
      (env.sobolTag ≠ "RTPATHCPUSAMPLER" →
        checkRTPathSampler env w.engine.renderConfig.cfg = none)) := by
  constructor
  · intro h
    obtain ⟨msg, hmsg⟩ := checkSamplers_of_rtpath env w.engine.renderConfig.cfg h
    rw [start_of_invalid env w msg hmsg]
    exact ⟨rfl, rfl, by simp [newEvents]⟩
  · intro h
    have hs := samplerType_of_absent env w.engine.renderConfig.cfg h
    refine ⟨hs, fun hne => ?_⟩
    simp [checkRTPathSampler, hs, hne]

/-- Witness of C8: `worldRTPath` has `sampler.type = RTPATHCPUSAMPLER` and a pending render
state holding a cache; `worldFresh` has an empty configuration. -/
theorem C8_start_rejects_rtpath_sampler_witness :
    ((StartLockLess envEnabled worldRTPath).failed = true ∧
      (StartLockLess envEnabled worldRTPath).world = worldRTPath ∧
      newEvents worldRTPath (StartLockLess envEnabled worldRTPath).world = []) ∧
    (samplerType envEnabled worldFresh.engine.renderConfig.cfg = .ok "SOBOL" ∧
      checkRTPathSampler envEnabled worldFresh.engine.renderConfig.cfg = none) :=
  ⟨(C8_start_rejects_rtpath_sampler envEnabled worldRTPath).1 rfl,
   ((C8_start_rejects_rtpath_sampler envEnabled worldFresh).2 (by decide)).1,
   ((C8_start_rejects_rtpath_sampler envEnabled worldFresh).2 (by decide)).2 (by decide)⟩

/-- C9, as the claim states it, fails: in `worldFailedStart` the factory has returned the cache
at address 0 and `Preprocess` has raised; the engine still holds that cache, which is neither
deleted nor preprocessed, and a second `StartLockLess` calls neither the factory nor
`Preprocess` and hands that cache to the path tracer. -/
theorem C9_failed_preprocess_counterexample :
    (StartLockLess envRaising worldFresh).result = .error "out of memory" ∧
    ¬ worldFailedStart.engine.photonGICache = none ∧
    worldFailedStart.caches = [{ scene := some 5, preprocessed := 0, deleted := false }] ∧
    factoryCalls (newEvents worldFailedStart
      (StartLockLess envRaising worldFailedStart).world) = [] ∧
    preprocessCalls (newEvents worldFailedStart
      (StartLockLess envRaising worldFailedStart).world) = [] ∧
    (StartLockLess envRaising worldFailedStart).world.engine.pathTracer.photonGICache
      = some 0 := by
  refine ⟨rfl, by decide, by decide, by decide, by decide, by decide⟩

/-- C9, amended: if in `StartLockLess` the restore step leaves the engine without cache, the
factory returns a cache and `Preprocess` raises, then `StartLockLess` raises that error, the
engine holds the new cache, which is in the heap, not deleted and not preprocessed, and the
worker threads are as they were (no thread start). A later `StartLockLess` calls neither the
factory nor `Preprocess`: it succeeds, keeps that cache, hands it to the path tracer and starts
the worker threads. -/
theorem C9_failed_preprocess_keeps_cache (env : Env) (w : World) (msg : String)
    (hcfg : validSamplers env w.engine.renderConfig.cfg)
    (hres : (restoreRenderState w).result = .ok ())
    (hnone : (restoreRenderState w).world.engine.photonGICache = none)
    (hf : env.FromProperties w.engine.renderConfig.scene w.engine.renderConfig.cfg = true)
    (hp : env.Preprocess w.engine.renderConfig.scene w.engine.renderConfig.cfg
      w.engine.renderThreads = some msg) :
    (StartLockLess env w).result = .error msg ∧
    (StartLockLess env w).world.engine.photonGICache = some w.caches.length ∧
    (StartLockLess env w).world.caches = w.caches ++
      [{ scene := some w.engine.renderConfig.scene, preprocessed := 0, deleted := false }] ∧
    (StartLockLess env w).world.engine.threadsRunning = w.engine.threadsRunning ∧
    Event.startThreads ∉ newEvents w (StartLockLess env w).world ∧
    (StartLockLess env (StartLockLess env w).world).result = .ok () ∧
    (StartLockLess env (StartLockLess env w).world).world.engine.photonGICache
      = some w.caches.length ∧
    (StartLockLess env (StartLockLess env w).world).world.caches
      = (StartLockLess env w).world.caches ∧
    newEvents (StartLockLess env w).world (StartLockLess env (StartLockLess env w).world).world =
      [.parseOptions w.engine.renderConfig.cfg, .initPixelFilterDistribution,
       .setPhotonGICache (some w.caches.length), .startThreads] := by
  obtain ⟨hcaches, hconf, hthreads, hrun, hstate, evs, htrace, -, -, hstart⟩ :=
    restore_no_cache_frame w hres hnone
  have hA := alloc_of_raise env (restoreRenderState w).world msg hnone
    (by rw [hconf]; exact hf) (by rw [hconf, hthreads]; exact hp)
  have hS := start_of_alloc_error env w msg hcfg hres (by rw [hA])
  rw [hA] at hS
  have e1 : (StartLockLess env w).result = .error msg := by rw [hS]
  have e2 : (StartLockLess env w).world.engine.photonGICache = some w.caches.length := by
    rw [hS]; simp [hcaches]
  have e3 : (StartLockLess env w).world.caches = w.caches ++
      [{ scene := some w.engine.renderConfig.scene, preprocessed := 0, deleted := false }] := by
    rw [hS]; simp [hcaches, hconf]
  have e4 : (StartLockLess env w).world.engine.threadsRunning = w.engine.threadsRunning := by
    rw [hS]; exact hrun
  have e5 : (StartLockLess env w).world.trace = w.trace ++ (evs ++
      [.fromProperties w.engine.renderConfig.scene w.engine.renderConfig.cfg
        (some w.caches.length),
       .preprocess w.caches.length w.engine.renderThreads]) := by
    rw [hS]; simp [htrace, hcaches, hconf, hthreads]
  have e6 : (StartLockLess env w).world.engine.startRenderState = none := by
    rw [hS]; exact hstate
  have e7 : (StartLockLess env w).world.engine.renderConfig = w.engine.renderConfig := by
    rw [hS]; exact hconf
  have hS2 := start_of_held_cache env (StartLockLess env w).world w.caches.length
    (by rw [e7]; exact hcfg) e6 e2
  refine ⟨e1, e2, e3, e4, ?_, ?_, ?_, ?_, ?_⟩
  · rw [newEvents_append _ _ _ e5]; simp [hstart]
  · rw [hS2]
  · rw [hS2]; exact e2
  · rw [hS2]; rfl
  · apply newEvents_append
    rw [hS2]
    simp [startPathTracerAndThreads, e7, e2]

/-- Witness of C9 amended, at the fresh engine in an environment where `Preprocess` raises. -/
theorem C9_failed_preprocess_keeps_cache_witness :
    (StartLockLess envRaising worldFresh).result = .error "out of memory" ∧
    (StartLockLess envRaising worldFresh).world.engine.photonGICache = some 0 :=
  have h := C9_failed_preprocess_keeps_cache envRaising worldFresh "out of memory"
    (by decide) rfl rfl rfl rfl
  ⟨h.1, h.2.1⟩

/-- C10: in every `StartLockLess` that passes the sampler checks and whose restore step leaves
the engine without cache, the factory is called exactly once, with the engine's scene and
configuration. If it returns a cache, that cache (a new heap object) becomes the engine's cache
and `Preprocess` is called exactly once, on that cache, with `renderThreads.size()`. If it
returns `nullptr`, `Preprocess` is not called, the engine holds no cache, the heap is unchanged
and `StartLockLess` completes without error, the worker threads started. -/
theorem C10_start_builds_cache_when_absent (env : Env) (w : World)
    (hcfg : validSamplers env w.engine.renderConfig.cfg)
    (hres : (restoreRenderState w).result = .ok ())
    (hnone : (restoreRenderState w).world.engine.photonGICache = none) :
    factoryCalls (newEvents w (StartLockLess env w).world) =
      [(w.engine.renderConfig.scene, w.engine.renderConfig.cfg)] ∧
    (env.FromProperties w.engine.renderConfig.scene w.engine.renderConfig.cfg = true →
      (StartLockLess env w).world.engine.photonGICache = some w.caches.length ∧
      (StartLockLess env w).world.caches.length = w.caches.length + 1 ∧
      Event.fromProperties w.engine.renderConfig.scene w.engine.renderConfig.cfg
        (some w.caches.length) ∈ newEvents w (StartLockLess env w).world ∧
      preprocessCalls (newEvents w (StartLockLess env w).world) =
        [(w.caches.length, w.engine.renderThreads)]) ∧
    (env.FromProperties w.engine.renderConfig.scene w.engine.renderConfig.cfg = false →
      preprocessCalls (newEvents w (StartLockLess env w).world) = [] ∧
      (StartLockLess env w).world.engine.photonGICache = none ∧
      (StartLockLess env w).world.caches = w.caches ∧
      (StartLockLess env w).result = .ok () ∧
      (StartLockLess env w).world.engine.threadsRunning = true) := by
  obtain ⟨hcaches, hconf, hthreads, -, -, evs, htrace, hfac, hpre, -⟩ :=
    restore_no_cache_frame w hres hnone
  cases hf : env.FromProperties w.engine.renderConfig.scene w.engine.renderConfig.cfg with
  | false =>
    have hA := alloc_of_disabled env (restoreRenderState w).world hnone
      (by rw [hconf]; exact hf)
    have hS := start_of_alloc_ok env w hcfg hres (by rw [hA])
    rw [hA] at hS
    have e5 : (StartLockLess env w).world.trace = w.trace ++ (evs ++
        [.fromProperties w.engine.renderConfig.scene w.engine.renderConfig.cfg none,
         .parseOptions w.engine.renderConfig.cfg, .initPixelFilterDistribution,
         .setPhotonGICache none, .startThreads]) := by
      rw [hS]; simp [startPathTracerAndThreads, htrace, hconf, hnone]
    rw [newEvents_append _ _ _ e5, factoryCalls_append, preprocessCalls_append, hfac, hpre]
    refine ⟨rfl, fun h => by simp at h, fun _ => ⟨rfl, ?_, ?_, ?_, ?_⟩⟩
    · rw [hS]; exact hnone
    · rw [hS]; exact hcaches
    · rw [hS]
    · rw [hS]; rfl
  | true =>
    cases hp : env.Preprocess w.engine.renderConfig.scene w.engine.renderConfig.cfg
        w.engine.renderThreads with
    | some msg =>
      have hA := alloc_of_raise env (restoreRenderState w).world msg hnone
        (by rw [hconf]; exact hf) (by rw [hconf, hthreads]; exact hp)
      have hS := start_of_alloc_error env w msg hcfg hres (by rw [hA])
      rw [hA] at hS
      have e5 : (StartLockLess env w).world.trace = w.trace ++ (evs ++
          [.fromProperties w.engine.renderConfig.scene w.engine.renderConfig.cfg
            (some w.caches.length),
           .preprocess w.caches.length w.engine.renderThreads]) := by
        rw [hS]; simp [htrace, hcaches, hconf, hthreads]
      rw [newEvents_append _ _ _ e5, factoryCalls_append, preprocessCalls_append, hfac, hpre]
      refine ⟨rfl, fun _ => ⟨?_, ?_, by simp, rfl⟩, fun h => by simp at h⟩
      · rw [hS]; simp [hcaches]
      · rw [hS]; simp [hcaches]
    | none =>
      have hA := alloc_of_built env (restoreRenderState w).world hnone
        (by rw [hconf]; exact hf) (by rw [hconf, hthreads]; exact hp)
      have hS := start_of_alloc_ok env w hcfg hres (by rw [hA])
      rw [hA] at hS
      have e5 : (StartLockLess env w).world.trace = w.trace ++ (evs ++
          [.fromProperties w.engine.renderConfig.scene w.engine.renderConfig.cfg
            (some w.caches.length),
           .preprocess w.caches.length w.engine.renderThreads,
           .parseOptions w.engine.renderConfig.cfg, .initPixelFilterDistribution,
           .setPhotonGICache (some w.caches.length), .startThreads]) := by
        rw [hS]; simp [startPathTracerAndThreads, htrace, hcaches, hconf, hthreads]
      rw [newEvents_append _ _ _ e5, factoryCalls_append, preprocessCalls_append, hfac, hpre]
      refine ⟨rfl, fun _ => ⟨?_, ?_, by simp, rfl⟩, fun h => by simp at h⟩
      · rw [hS]; simp [startPathTracerAndThreads, hcaches]
      · rw [hS]; simp [startPathTracerAndThreads, hcaches]

/-- Witness of C10: the fresh engine started with the cache enabled, and with it disabled. -/
theorem C10_start_builds_cache_when_absent_witness :
    ((StartLockLess envEnabled worldFresh).world.engine.photonGICache = some 0 ∧
      preprocessCalls (newEvents worldFresh (StartLockLess envEnabled worldFresh).world)
        = [(0, 4)]) ∧
    (factoryCalls (newEvents worldFresh (StartLockLess envDisabled worldFresh).world)
        = [(5, [])] ∧
      preprocessCalls (newEvents worldFresh (StartLockLess envDisabled worldFresh).world) = [] ∧
      (StartLockLess envDisabled worldFresh).result = .ok ()) :=
  have h1 := (C10_start_builds_cache_when_absent envEnabled worldFresh (by decide) rfl rfl).2.1
    rfl
  have h2 := C10_start_builds_cache_when_absent envDisabled worldFresh (by decide) rfl rfl
  ⟨⟨h1.1, h1.2.2.2⟩, h2.1, (h2.2.2 rfl).1, (h2.2.2 rfl).2.2.2.1⟩

/-- C12: in a `StartLockLess` that restores a render state holding a cache `c`, the calls made
are, in this order: `SetSeed`, `SetScene` on `c` with the scene of the engine's configuration,
the deletion of the state, `ParseOptions`, `InitPixelFilterDistribution`, `SetPhotonGICache`
with `c`, and the start of the worker threads; so the scene of `c` is set before the path tracer
receives `c` and before the threads start, and `c` (when it is a cache of the heap) has that
scene afterwards. When the state holds no cache, `SetScene` is not called at all. -/
theorem C12_restore_reattaches_scene_first (env : Env) (w : World) (rs : BakeCPURenderState)
    (hstate : w.engine.startRenderState = some rs)
    (htag : rs.engineTag = GetObjectTag)
    (hcfg : validSamplers env w.engine.renderConfig.cfg) :
    (∀ c, rs.photonGICache = some c →
      newEvents w (StartLockLess env w).world =
        [.setSeed ((rs.bootStrapSeed + 1) % UINT_MOD),
         .setScene c w.engine.renderConfig.scene,
         .deleteRenderState { rs with photonGICache := none },
         .parseOptions w.engine.renderConfig.cfg, .initPixelFilterDistribution,
         .setPhotonGICache (some c), .startThreads] ∧
      (c < w.caches.length →
        (StartLockLess env w).world.caches[c]?.map (fun x => x.scene)
          = some (some w.engine.renderConfig.scene))) ∧
    (rs.photonGICache = none →
      ∀ c scene, Event.setScene c scene ∉ newEvents w (StartLockLess env w).world) := by
  constructor
  · intro c hc
    have hS := start_of_restored_cache env w rs c hcfg hstate htag hc
    have hR := restore_of_cache w rs c hstate htag hc
    constructor
    · apply newEvents_append
      rw [hS, hR]
      simp [startPathTracerAndThreads]
    · intro hlive
      rw [hS, hR]
      simp [startPathTracerAndThreads, updateCache_get, List.getElem?_eq_getElem hlive,
        PhotonGICache.SetScene]
  · intro hc c scene
    have hR := restore_of_no_cache w rs hstate htag hc
    obtain ⟨tail, htrace, htail⟩ := start_without_cache_trace env w hcfg
      (by rw [hR]) (by rw [hR])
    have htrace2 : (StartLockLess env w).world.trace = w.trace ++
        ([.setSeed ((rs.bootStrapSeed + 1) % UINT_MOD),
          .deleteRenderState { rs with photonGICache := none }] ++ tail) := by
      rw [htrace, hR]
      simp
    rw [newEvents_append _ _ _ htrace2]
    rcases htail with ⟨-, h, -⟩ | ⟨-, h | h, -⟩ <;> rw [h] <;> simp

/-- Witness of C12: the state of `worldResume` holds the deserialized cache at address 0, which
has no scene before and scene 5 after `StartLockLess`. -/
theorem C12_restore_reattaches_scene_witness :
    worldResume.caches[0]?.map (fun x => x.scene) = some none ∧
    (StartLockLess envEnabled worldResume).world.caches[0]?.map (fun x => x.scene)
      = some (some 5) :=
  ⟨by decide,
   ((C12_restore_reattaches_scene_first envEnabled worldResume stateResume rfl rfl
      (by decide)).1 0 rfl).2 (by decide)⟩

/-- C13: a render state is used once. After a `StartLockLess` that consumed a render state
`rs`, the engine has no pending state and its boot seed is the recorded seed plus 1 (`u_int`).
After `StopLockLess` it still has none, so the restore step of the next `StartLockLess` (in any
environment) does nothing: that `StartLockLess` does not call `SetSeed` and the boot seed is
still the recorded seed plus 1. -/
theorem C13_render_state_single_use (env env2 : Env) (w : World) (rs : BakeCPURenderState)
    (hstate : w.engine.startRenderState = some rs)
    (htag : rs.engineTag = GetObjectTag)
    (hcfg : validSamplers env w.engine.renderConfig.cfg) :
    (StartLockLess env w).world.engine.startRenderState = none ∧
    (StartLockLess env w).world.engine.bootStrapSeed = (rs.bootStrapSeed + 1) % UINT_MOD ∧
    (StopLockLess (StartLockLess env w).world).engine.startRenderState = none ∧
    restoreRenderState (StopLockLess (StartLockLess env w).world) =
      { world := StopLockLess (StartLockLess env w).world, result := .ok () } ∧
    (StartLockLess env2 (StopLockLess (StartLockLess env w).world)).world.engine.bootStrapSeed
      = (rs.bootStrapSeed + 1) % UINT_MOD ∧
    (∀ seed, Event.setSeed seed ∉ newEvents (StopLockLess (StartLockLess env w).world)
      (StartLockLess env2 (StopLockLess (StartLockLess env w).world)).world) := by
  have hE := (restore_engine w rs hstate htag).2
  have h1 : (StartLockLess env w).world.engine.startRenderState = none := by
    rw [start_state env w hcfg, hE]
  have h2 : (StartLockLess env w).world.engine.bootStrapSeed
      = (rs.bootStrapSeed + 1) % UINT_MOD := by
    rw [start_seed env w hcfg, hE]
  have h3 : (StopLockLess (StartLockLess env w).world).engine.startRenderState = none := h1
  refine ⟨h1, h2, h3, restore_of_no_state _ h3, ?_, ?_⟩
  · rw [start_seed_of_no_state env2 _ h3]
    exact h2
  · intro seed
    cases hcheck : checkSamplers env2
        (StopLockLess (StartLockLess env w).world).engine.renderConfig.cfg with
    | some msg =>
      rw [start_of_invalid env2 _ msg hcheck]
      simp [newEvents]
    | none =>
      have hR := restore_of_no_state _ h3
      obtain ⟨tail, htrace, htail⟩ := start_without_cache_trace env2
        (StopLockLess (StartLockLess env w).world) hcheck (by rw [hR]) (by rw [hR]; rfl)
      rw [hR] at htrace
      rw [newEvents_append _ _ _ htrace]
      rcases htail with ⟨-, h, -⟩ | ⟨-, h | h, -⟩ <;> rw [h] <;> simp

/-- Witness of C13: `worldResume` restored (seed 42), stopped and started again. -/
theorem C13_render_state_single_use_witness :
    (StartLockLess envEnabled worldResume).world.engine.startRenderState = none ∧
    (StartLockLess envEnabled
      (StopLockLess (StartLockLess envEnabled worldResume).world)).world.engine.bootStrapSeed
      = 42 :=
  have h := C13_render_state_single_use envEnabled envEnabled worldResume stateResume rfl rfl
    (by decide)
  ⟨h.1, h.2.2.2.2.1⟩

/-- C14: for every engine with no pending render state and a sampler configuration that passes
both checks, `StopLockLess` followed by `StartLockLess` builds a fresh cache. `StopLockLess`
nulls the engine's cache pointer and, when the engine held a cache `c`, deletes `c`;
`StartLockLess` then calls the cache factory once with the engine's scene and configuration and
the engine does not hold `c` afterwards. A cache returned by the factory is a new heap object,
it becomes the engine's cache and `Preprocess` is called once on it with
`renderThreads.size()`; when the factory returns `nullptr` the engine holds no cache and
`Preprocess` is not called. -/
theorem C14_stop_start_builds_fresh_cache (env : Env) (w : World)
    (hstate : w.engine.startRenderState = none)
    (hcfg : validSamplers env w.engine.renderConfig.cfg) :
    (StopLockLess w).engine.photonGICache = none ∧
    (∀ c, w.engine.photonGICache = some c → c < w.caches.length →
      (StopLockLess w).caches[c]?.map (fun x => x.deleted) = some true ∧
      (StartLockLess env (StopLockLess w)).world.engine.photonGICache ≠ some c ∧
      Event.setPhotonGICache (some c) ∉
        newEvents (StopLockLess w) (StartLockLess env (StopLockLess w)).world) ∧
    factoryCalls (newEvents (StopLockLess w) (StartLockLess env (StopLockLess w)).world) =
      [(w.engine.renderConfig.scene, w.engine.renderConfig.cfg)] ∧
    (env.FromProperties w.engine.renderConfig.scene w.engine.renderConfig.cfg = true →
      (StartLockLess env (StopLockLess w)).world.engine.photonGICache
        = some w.caches.length ∧
      preprocessCalls (newEvents (StopLockLess w) (StartLockLess env (StopLockLess w)).world)
        = [(w.caches.length, w.engine.renderThreads)]) ∧
    (env.FromProperties w.engine.renderConfig.scene w.engine.renderConfig.cfg = false →
      (StartLockLess env (StopLockLess w)).world.engine.photonGICache = none ∧
      preprocessCalls (newEvents (StopLockLess w) (StartLockLess env (StopLockLess w)).world)
        = []) := by
  have hR := restore_of_no_state (StopLockLess w) hstate
  have hlen : (StopLockLess w).caches.length = w.caches.length := deleteCache_length _ _
  obtain ⟨tail, htrace, htail⟩ := start_without_cache_trace env (StopLockLess w) hcfg
    (by rw [hR]) (by rw [hR]; rfl)
  rw [hR] at htrace
  rw [newEvents_append _ _ _ htrace]
  rw [hlen] at htail
  refine ⟨rfl, ?_, ?_, ?_, ?_⟩
  · intro c hc hlive
    have hne : w.caches.length ≠ c := fun h => Nat.lt_irrefl _ (h ▸ hlive)
    refine ⟨?_, ?_, ?_⟩
    · simp [StopLockLess, hc, deleteCache, updateCache_get, List.getElem?_eq_getElem hlive]
    · rcases htail with ⟨-, -, h⟩ | ⟨-, -, h⟩
      · rw [h]; exact fun h2 => nomatch h2
      · rw [h]
        intro h2
        injection h2 with h2
        exact hne h2
    · rcases htail with ⟨-, h, -⟩ | ⟨-, h | h, -⟩ <;> rw [h] <;> simp [Ne.symm hne]
  · rcases htail with ⟨-, h, -⟩ | ⟨-, h | h, -⟩ <;> rw [h] <;> rfl
  · intro hf
    rcases htail with ⟨hf2, -, -⟩ | ⟨-, h, h3⟩
    · have : env.FromProperties w.engine.renderConfig.scene w.engine.renderConfig.cfg
          = false := hf2
      rw [hf] at this; cases this
    · refine ⟨h3, ?_⟩
      rcases h with h | h <;> rw [h] <;> rfl
  · intro hf
    rcases htail with ⟨-, h, h3⟩ | ⟨hf2, -, -⟩
    · exact ⟨h3, by rw [h]; rfl⟩
    · have : env.FromProperties w.engine.renderConfig.scene w.engine.renderConfig.cfg
          = true := hf2
      rw [hf] at this; cases this

/-- Witness of C14: the running engine of `worldRunning` (cache 0) stopped and started again
holds the new cache at address 1. -/
theorem C14_stop_start_builds_fresh_cache_witness :
    (StartLockLess envEnabled (StopLockLess worldRunning)).world.engine.photonGICache
      = some 1 ∧
    preprocessCalls (newEvents (StopLockLess worldRunning)
      (StartLockLess envEnabled (StopLockLess worldRunning)).world) = [(1, 4)] :=
  (C14_stop_start_builds_fresh_cache envEnabled worldRunning (by decide)
    (by decide)).2.2.2.1 rfl

/-- C15, as the claim states it, fails: the state of `worldMaxSeed` recorded the seed
`4294967295`, a `u_int` value, and after `StartLockLess` the boot seed of the engine is 0,
which is not greater. -/
theorem C15_seed_wraps_counterexample :
    stateMaxSeed.bootStrapSeed < UINT_MOD ∧
    (StartLockLess envDisabled worldMaxSeed).result = .ok () ∧
    (StartLockLess envDisabled worldMaxSeed).world.engine.bootStrapSeed = 0 ∧
    ¬ stateMaxSeed.bootStrapSeed
      < (StartLockLess envDisabled worldMaxSeed).world.engine.bootStrapSeed := by
  refine ⟨by decide, rfl, by decide, by decide⟩

/-- C15, amended: for every render state consumed by `StartLockLess` whose recorded seed `s` is
a `u_int` value, the new boot seed is `(s + 1) mod 2^32`. It differs from `s`; it is `s + 1`,
strictly greater than `s`, for every `s` below `2^32 - 1`, and it is 0 for `s = 2^32 - 1`. -/
theorem C15_new_seed_is_successor_mod (env : Env) (w : World) (rs : BakeCPURenderState)
    (hstate : w.engine.startRenderState = some rs)
    (htag : rs.engineTag = GetObjectTag)
    (hcfg : validSamplers env w.engine.renderConfig.cfg)
    (hrange : rs.bootStrapSeed < UINT_MOD) :
    (StartLockLess env w).world.engine.bootStrapSeed = (rs.bootStrapSeed + 1) % UINT_MOD ∧
    (StartLockLess env w).world.engine.bootStrapSeed ≠ rs.bootStrapSeed ∧
    (rs.bootStrapSeed + 1 < UINT_MOD →
      (StartLockLess env w).world.engine.bootStrapSeed = rs.bootStrapSeed + 1 ∧
      rs.bootStrapSeed < (StartLockLess env w).world.engine.bootStrapSeed) ∧
    (rs.bootStrapSeed + 1 = UINT_MOD →
      (StartLockLess env w).world.engine.bootStrapSeed = 0) := by
  have hseed : (StartLockLess env w).world.engine.bootStrapSeed
      = (rs.bootStrapSeed + 1) % UINT_MOD := by
    rw [start_seed env w hcfg, (restore_engine w rs hstate htag).2]
  rw [hseed]
  unfold UINT_MOD at hrange ⊢
  refine ⟨rfl, ?_, ?_, ?_⟩
  · omega
  · intro h; omega
  · intro h; omega

/-- Witness of C15 amended: the state of `worldResume` recorded 41, the new seed is 42. -/
theorem C15_new_seed_is_successor_mod_witness :
    (StartLockLess envEnabled worldResume).world.engine.bootStrapSeed = 42 ∧
    (StartLockLess envEnabled worldResume).world.engine.bootStrapSeed ≠ 41 :=
  have h := C15_new_seed_is_successor_mod envEnabled worldResume stateResume rfl rfl
    (by decide) (by decide)
  ⟨h.1, h.2.1⟩

/-- C16: device selection of `Film::CreateOCLContext`. For every filtered list of descriptions
`descs` (short enough for `(int)descs.size()` to be exact, that is shorter than `2^31`) and
every requested index `i` with `0 <= i < descs.size()`, the selected description is `descs[i]`,
whatever the class of that device and of the other devices of the list. -/
theorem C16_in_range_index_selects_that_device (allocError : Nat → Option String)
    (descs : List DeviceDescription) (film : Film)
    (hlen : descs.length < 2 ^ 31)
    (h0 : 0 ≤ film.oclDeviceIndex) (hlt : film.oclDeviceIndex < (descs.length : Int)) :
    (Film.CreateOCLContext allocError descs film).film.selectedDeviceDesc
      = some film.oclDeviceIndex.toNat ∧
    ∃ d, descs[film.oclDeviceIndex.toNat]? = some d ∧
      selectedDevice descs (Film.CreateOCLContext allocError descs film).film = some d := by
  have hsel : selectDevice film.oclDeviceIndex descs = some film.oclDeviceIndex.toNat := by
    unfold selectDevice
    rw [toInt32_of_lt _ hlen, if_pos ⟨h0, hlt⟩]
  have hk : film.oclDeviceIndex.toNat < descs.length := by omega
  refine ⟨by rw [create_selected, hsel], descs[film.oclDeviceIndex.toNat], ?_, ?_⟩
  · exact List.getElem?_eq_getElem hk
  · unfold selectedDevice
    rw [create_selected, hsel]
    exact List.getElem?_eq_getElem hk

/-- Witness of C16: index 2 of `descsMixed` is a CPU device, and it is selected although the
list holds GPU devices. -/
theorem C16_in_range_index_witness :
    (Film.CreateOCLContext allocAlways descsMixed filmIndex2).film.selectedDeviceDesc
      = some 2 ∧
    (descsMixed[2]?.map fun d => d.type) = some .DEVICE_TYPE_OPENCL_CPU :=
  ⟨(C16_in_range_index_selects_that_device allocAlways descsMixed filmIndex2 (by decide)
      (by decide) (by decide)).1, by decide⟩

/-- C17: device selection of `Film::CreateOCLContext`. For every filtered list of descriptions
(shorter than `2^31`) that holds a device of class GPU and every requested index that is
negative or not below the length of the list, the selected description is the first one of
class GPU: it has class GPU and every description before it in the list has another class. -/
theorem C17_out_of_range_index_selects_first_gpu (allocError : Nat → Option String)
    (descs : List DeviceDescription) (film : Film)
    (hlen : descs.length < 2 ^ 31)
    (hgpu : ∃ d ∈ descs, d.type = .DEVICE_TYPE_OPENCL_GPU)
    (hout : film.oclDeviceIndex < 0 ∨ (descs.length : Int) ≤ film.oclDeviceIndex) :
    ∃ k d, (Film.CreateOCLContext allocError descs film).film.selectedDeviceDesc = some k ∧
      descs[k]? = some d ∧ d.type = .DEVICE_TYPE_OPENCL_GPU ∧
      selectedDevice descs (Film.CreateOCLContext allocError descs film).film = some d ∧
      ∀ j, j < k → ∀ dj, descs[j]? = some dj → dj.type ≠ .DEVICE_TYPE_OPENCL_GPU := by
  have hpos : descs.length > 0 := by
    obtain ⟨d, hd, -⟩ := hgpu
    exact List.length_pos_of_mem hd
  have hsel : selectDevice film.oclDeviceIndex descs = findGPU descs := by
    unfold selectDevice
    rw [toInt32_of_lt _ hlen, if_neg (by omega), if_pos hpos]
  cases hf : findGPU descs with
  | none =>
    exfalso
    obtain ⟨d, hd, hty⟩ := hgpu
    exact (findGPU_none descs).mp hf d hd hty
  | some k =>
    obtain ⟨⟨d, hd, hty⟩, hmin⟩ := findGPU_first descs k hf
    refine ⟨k, d, by rw [create_selected, hsel, hf], hd, hty, ?_, hmin⟩
    unfold selectedDevice
    rw [create_selected, hsel, hf]
    exact hd

/-- Witness of C17: with the default index -1, the device of index 1, the first GPU of
`descsMixed`, is selected. -/
theorem C17_out_of_range_index_witness :
    ∃ k d, (Film.CreateOCLContext allocAlways descsMixed filmSetUp).film.selectedDeviceDesc
        = some k ∧
      descsMixed[k]? = some d ∧ d.type = .DEVICE_TYPE_OPENCL_GPU ∧
      selectedDevice descsMixed (Film.CreateOCLContext allocAlways descsMixed filmSetUp).film
        = some d ∧
      ∀ j, j < k → ∀ dj, descsMixed[j]? = some dj → dj.type ≠ .DEVICE_TYPE_OPENCL_GPU :=
  C17_out_of_range_index_selects_first_gpu allocAlways descsMixed filmSetUp (by decide)
    ⟨_, List.mem_cons_of_mem _ (List.mem_cons_self _ _), rfl⟩ (Or.inl (by decide))

/-- C18: device selection of `Film::CreateOCLContext` on an empty list of descriptions. For
every requested index, `selectedDeviceDesc` is null, no error is raised, nothing is logged, the
new context has allocated no device, and `oclIntersectionDevice` is what it was. -/
theorem C18_empty_list_selects_nothing (allocError : Nat → Option String) (film : Film) :
    (Film.CreateOCLContext allocError [] film).film.selectedDeviceDesc = none ∧
    (Film.CreateOCLContext allocError [] film).result = .ok () ∧
    (Film.CreateOCLContext allocError [] film).log = [] ∧
    (Film.CreateOCLContext allocError [] film).film.ctx
      = some { platformIndex := film.oclPlatformIndex, devices := [], deleted := false } ∧
    (Film.CreateOCLContext allocError [] film).film.oclIntersectionDevice
      = film.oclIntersectionDevice := by
  have hsel : selectDevice film.oclDeviceIndex [] = none := by
    unfold selectDevice
    rw [if_neg, if_neg]
    · simp
    · intro h
      have h2 : toInt32 0 = 0 := by decide
      simp only [List.length_nil, h2] at h
      omega
  unfold Film.CreateOCLContext
  simp [hsel]

/-- C19: the OpenCL 1.1 check of `Film::CreateOCLContext` is soft. For two lists of
descriptions of the same devices (same classes at the same positions) that may differ in the
OpenCL versions they report, the resulting film and the result of the call are the same. When
the selected device is allocated, the call raises no error, the film holds the new context with
that one device, the device has its data parallel support disabled, and the only thing that
depends on the OpenCL 1.1 flag is the last line of the log, the warning. -/
theorem C19_capability_check_only_warns (allocError : Nat → Option String)
    (descs descs2 : List DeviceDescription) (film : Film)
    (hsame : descs.map (fun d => d.type) = descs2.map (fun d => d.type)) :
    (Film.CreateOCLContext allocError descs film).film
      = (Film.CreateOCLContext allocError descs2 film).film ∧
    (Film.CreateOCLContext allocError descs film).result
      = (Film.CreateOCLContext allocError descs2 film).result ∧
    ∀ k d, selectDevice film.oclDeviceIndex descs = some k → descs[k]? = some d →
      allocError k = none →
      (Film.CreateOCLContext allocError descs film).result = .ok () ∧
      (Film.CreateOCLContext allocError descs film).film =
        { film with
          ctx := some { platformIndex := film.oclPlatformIndex, devices := [k],
                        deleted := false }
          selectedDeviceDesc := some k
          oclIntersectionDevice := some { deviceDesc := k, dataParallelSupport := false } } ∧
      (Film.CreateOCLContext allocError descs film).log =
        ["Film OpenCL Device used: " ++ d.name,
         "  Device OpenCL version: " ++ d.openCLVersion] ++
        (if d.isOpenCL_1_1 then []
         else ["WARNING: OpenCL version 1.1 or better is required. Device " ++ d.name ++
           " may not work."]) := by
  have hsel := selectDevice_congr film.oclDeviceIndex descs descs2 hsame
  refine ⟨?_, ?_, ?_⟩
  · unfold Film.CreateOCLContext
    rw [← hsel]
    cases hs : selectDevice film.oclDeviceIndex descs with
    | none => simp
    | some k =>
      cases ha : allocError k with
      | some msg => simp [ha]
      | none =>
        simp only [ha]
        split <;> split <;> rfl
  · unfold Film.CreateOCLContext
    rw [← hsel]
    cases hs : selectDevice film.oclDeviceIndex descs with
    | none => simp
    | some k =>
      cases ha : allocError k with
      | some msg => simp [ha]
      | none =>
        simp only [ha]
        split <;> split <;> rfl
  · intro k d hs hd ha
    unfold Film.CreateOCLContext
    cases hflag : d.isOpenCL_1_1 <;> simp [hs, ha, hd, hflag]

/-- Witness of C19: the first GPU of `descsMixed` reports OpenCL 1.0 and the one of
`descsMixedNew` OpenCL 1.2; the films are the same and no error is raised. -/
theorem C19_capability_check_only_warns_witness :
    (Film.CreateOCLContext allocAlways descsMixed filmSetUp).film
      = (Film.CreateOCLContext allocAlways descsMixedNew filmSetUp).film ∧
    (Film.CreateOCLContext allocAlways descsMixed filmSetUp).result = .ok () :=
  have h := C19_capability_check_only_warns allocAlways descsMixed descsMixedNew filmSetUp
    (by decide)
  ⟨h.1, (h.2.2 1
    { name := "gpu0", type := .DEVICE_TYPE_OPENCL_GPU, openCLVersion := "OpenCL 1.0",
      isOpenCL_1_1 := false } (by decide) (by decide) rfl).1⟩

/-- C20 (the code does not do what the claim says): in `cfgNoObjectNames` the only bake map
tag, `0`, has the recognized type `LIGHTMAP` and there is one unique sub-name under
`bake.maps`, but the key `bake.maps.0.objectnames` is not defined: the constructor does not end
with a list of one descriptor, it reads the default `Property` of line 61 after its
destruction (lines 62-63). -/
theorem C20_missing_objectnames_no_descriptor_list :
    Properties.GetAllUniqueSubNames cfgNoObjectNames "bake.maps" = ["bake.maps.0"] ∧
    Property.ExtractField "bake.maps.0" 2 = "0" ∧
    bakeMapTypeCheck cfgNoObjectNames "bake.maps.0" = .ok .LIGHTMAP ∧
    keyAbsent cfgNoObjectNames "bake.maps.0.objectnames" ∧
    construct { cfg := cfgNoObjectNames, scene := 5 } 131 4
      = .error (.danglingDefault "bake.maps.0.objectnames") ∧
    ¬ ∃ e, construct { cfg := cfgNoObjectNames, scene := 5 } 131 4 = .ok e := by
  refine ⟨by decide, by decide, rfl, by decide, rfl, ?_⟩
  rintro ⟨e, he⟩
  cases he

/-- C21 (the code does not do what the claim says): when the key `.objectnames` of a tag is
absent the descriptor does not get the list `[objectNameToBake]`. The loop body binds a
reference to the default `Property` (line 61), a temporary destroyed at the end of that
declaration, and reads it afterwards (lines 62-63). This happens for the map `0` of
`cfgTwoMaps`, which defines its type, width and file name only, and for a tag with no key at
all. -/
theorem C21_absent_objectnames_reads_destroyed_default :
    keyAbsent cfgTwoMaps (bakeMapKeyName "bake.maps.0" ".objectnames") ∧
    bakeMapKeyName "bake.maps.0" ".objectnames" = "bake.maps.0.objectnames" ∧
    readObjectNames cfgTwoMaps "bake.maps.0.objectnames"
      = .error (.danglingDefault "bake.maps.0.objectnames") ∧
    parseBakeMap cfgTwoMaps "bake.maps.0"
      = .error (.danglingDefault "bake.maps.0.objectnames") ∧
    parseBakeMap cfgTwoMaps "bake.maps.0"
      ≠ .ok { type := .LIGHTMAP, fileName := "f.png", width := 64, height := 512,
              objectNames := ["objectNameToBake"] } ∧
    parseBakeMap [] "bake.maps.m" = .error (.danglingDefault "bake.maps.m.objectnames") := by
  refine ⟨by decide, by decide, rfl, rfl, ?_, rfl⟩
  intro h
  cases h

/-- C23: `Film::DeleteOCLContext` on a film whose context pointer is null changes nothing:
every member of the film is as before, in particular right after `SetUpOCL`; the function has
no `throw`. On a film holding a context it deletes that context and assigns no member. -/
theorem C23_delete_null_context_is_noop (film : Film) :
    (film.ctx = none → Film.DeleteOCLContext film = film) ∧
    Film.DeleteOCLContext (Film.SetUpOCL film) = Film.SetUpOCL film ∧
    (∀ c, film.ctx = some c →
      Film.DeleteOCLContext film = { film with ctx := some { c with deleted := true } } ∧
      (Film.DeleteOCLContext film).oclIntersectionDevice = film.oclIntersectionDevice ∧
      (Film.DeleteOCLContext film).selectedDeviceDesc = film.selectedDeviceDesc ∧
      (Film.DeleteOCLContext film).oclPlatformIndex = film.oclPlatformIndex ∧
      (Film.DeleteOCLContext film).oclDeviceIndex = film.oclDeviceIndex) := by
  refine ⟨?_, rfl, ?_⟩
  · intro h
    unfold Film.DeleteOCLContext
    rw [h]
  · intro c h
    unfold Film.DeleteOCLContext
    rw [h]
    exact ⟨rfl, rfl, rfl, rfl, rfl⟩

/-- Witness of C23: `filmRaw` has no context; the film made by `CreateOCLContext` has one. -/
theorem C23_delete_null_context_witness :
    Film.DeleteOCLContext filmRaw = filmRaw ∧
    (Film.DeleteOCLContext
      (Film.CreateOCLContext allocAlways descsMixed filmSetUp).film).ctx
      = some { platformIndex := -1, devices := [1], deleted := true } :=
  ⟨(C23_delete_null_context_is_noop filmRaw).1 rfl,
   congrArg Film.ctx
    ((C23_delete_null_context_is_noop
      (Film.CreateOCLContext allocAlways descsMixed filmSetUp).film).2.2
      { platformIndex := -1, devices := [1], deleted := false } (by decide)).1⟩

/-- C24: `StopLockLess` is the stop of the worker threads, then the release of the pixel filter
distribution, then the release of the cache. After the first step the threads are stopped and
nothing has been released yet, so the pixel filter distribution is released while no worker
thread runs. A `StartLockLess` that completes acquires in the opposite order: its calls end
with `ParseOptions`, `InitPixelFilterDistribution`, `SetPhotonGICache`, thread start, and every
call before them belongs to the restore of the render state or to the allocation of the cache;
the `StopLockLess` that follows releases the threads, the pixel filter distribution and that
cache, in this order. -/
theorem C24_stop_releases_in_reverse_order (env : Env) (w : World) :
    StopLockLess w =
      releasePhotonGICache (releasePixelFilterDistribution (stopWorkerThreads w)) ∧
    newEvents w (StopLockLess w) =
      [.stopThreads, .deletePixelFilterDistribution, .deleteCache w.engine.photonGICache] ∧
    (stopWorkerThreads w).engine.threadsRunning = false ∧
    (stopWorkerThreads w).engine.pathTracer = w.engine.pathTracer ∧
    (stopWorkerThreads w).engine.photonGICache = w.engine.photonGICache ∧
    (stopWorkerThreads w).caches = w.caches ∧
    (releasePixelFilterDistribution (stopWorkerThreads w)).engine.threadsRunning = false ∧
    (releasePixelFilterDistribution (stopWorkerThreads w)).caches = w.caches ∧
    ((StartLockLess env w).result = .ok () →
      ∃ evs, newEvents w (StartLockLess env w).world = evs ++
          [.parseOptions (StartLockLess env w).world.engine.renderConfig.cfg,
           .initPixelFilterDistribution,
           .setPhotonGICache (StartLockLess env w).world.engine.photonGICache,
           .startThreads] ∧
        (∀ ev ∈ evs, ev.beforePathTracer = true) ∧
        Event.initPixelFilterDistribution ∉ evs ∧ Event.startThreads ∉ evs ∧
        newEvents (StartLockLess env w).world (StopLockLess (StartLockLess env w).world) =
          [.stopThreads, .deletePixelFilterDistribution,
           .deleteCache (StartLockLess env w).world.engine.photonGICache]) := by
  have hstop : ∀ v : World, newEvents v (StopLockLess v) =
      [.stopThreads, .deletePixelFilterDistribution, .deleteCache v.engine.photonGICache] :=
    fun v => newEvents_append v _ _ rfl
  refine ⟨?_, hstop w, rfl, rfl, rfl, rfl, rfl, rfl, ?_⟩
  · simp [StopLockLess, releasePhotonGICache, releasePixelFilterDistribution,
      stopWorkerThreads]
  · intro hok
    obtain ⟨evs, htrace, hbefore, -, -⟩ := start_ok_events env w hok
    refine ⟨evs, newEvents_append _ _ _ htrace, hbefore, ?_, ?_, hstop _⟩
    · intro h
      have := hbefore _ h
      cases this
    · intro h
      have := hbefore _ h
      cases this

/-- Witness of C24: the fresh engine started with the cache enabled, then stopped. -/
theorem C24_stop_releases_in_reverse_order_witness :
    newEvents worldFresh worldRunning =
      [.fromProperties 5 [] (some 0), .preprocess 0 4] ++
      [.parseOptions [], .initPixelFilterDistribution, .setPhotonGICache (some 0),
       .startThreads] ∧
    newEvents worldRunning (StopLockLess worldRunning) =
      [.stopThreads, .deletePixelFilterDistribution, .deleteCache (some 0)] :=
  ⟨by decide, (C24_stop_releases_in_reverse_order envEnabled worldRunning).2.1⟩

/-- C29: the device selection of `Film::CreateOCLContext`, for a filtered list of descriptions
shorter than `2^31`. No description is selected if and only if the requested index is negative
or not below the length of the list and the list holds no device of class GPU. A selected
description is an element of the list. The selection is the function `selectDevice` of the
requested index and the list: it does not depend on the other members of the film nor on the
allocation of the device. -/
theorem C29_selection_characterised (allocError allocError2 : Nat → Option String)
    (descs : List DeviceDescription) (film film2 : Film)
    (hlen : descs.length < 2 ^ 31) :
    ((Film.CreateOCLContext allocError descs film).film.selectedDeviceDesc = none ↔
      (film.oclDeviceIndex < 0 ∨ (descs.length : Int) ≤ film.oclDeviceIndex) ∧
      ∀ d ∈ descs, d.type ≠ .DEVICE_TYPE_OPENCL_GPU) ∧
    (∀ k, (Film.CreateOCLContext allocError descs film).film.selectedDeviceDesc = some k →
      k < descs.length ∧
      ∃ d ∈ descs,
        selectedDevice descs (Film.CreateOCLContext allocError descs film).film = some d) ∧
    (Film.CreateOCLContext allocError descs film).film.selectedDeviceDesc
      = selectDevice film.oclDeviceIndex descs ∧
    (film2.oclDeviceIndex = film.oclDeviceIndex →
      (Film.CreateOCLContext allocError2 descs film2).film.selectedDeviceDesc
        = (Film.CreateOCLContext allocError descs film).film.selectedDeviceDesc) := by
  refine ⟨?_, ?_, create_selected _ _ _, ?_⟩
  · rw [create_selected]
    unfold selectDevice
    rw [toInt32_of_lt _ hlen]
    by_cases hin : film.oclDeviceIndex ≥ 0 ∧ film.oclDeviceIndex < (descs.length : Int)
    · rw [if_pos hin]
      constructor
      · intro h; cases h
      · intro h; omega
    · rw [if_neg hin]
      have hout : film.oclDeviceIndex < 0 ∨ (descs.length : Int) ≤ film.oclDeviceIndex := by
        omega
      by_cases hpos : descs.length > 0
      · rw [if_pos hpos, findGPU_none]
        exact ⟨fun h => ⟨hout, h⟩, fun h => h.2⟩
      · rw [if_neg hpos]
        have hnil : descs = [] := List.eq_nil_of_length_eq_zero (by omega)
        subst hnil
        exact ⟨fun _ => ⟨hout, fun d hd => nomatch hd⟩, fun _ => rfl⟩
  · intro k hk
    rw [create_selected] at hk
    have hlt := selectDevice_lt film.oclDeviceIndex descs k hlen hk
    refine ⟨hlt, descs[k], List.getElem_mem _, ?_⟩
    unfold selectedDevice
    rw [create_selected, hk]
    exact List.getElem?_eq_getElem hlt
  · intro h
    rw [create_selected, create_selected, h]

/-- Witness of C29: a list of CPU devices only with the default index selects nothing; with
`descsMixed` the selected description is in the list. -/
theorem C29_selection_characterised_witness :
    (Film.CreateOCLContext allocAlways (descsMixed.take 1) filmSetUp).film.selectedDeviceDesc
      = none ∧
    (Film.CreateOCLContext allocAlways descsMixed filmSetUp).film.selectedDeviceDesc
      = some 1 :=
  ⟨(C29_selection_characterised allocAlways allocAlways (descsMixed.take 1) filmSetUp filmSetUp
      (by decide)).1.mpr ⟨Or.inl (by decide), by decide⟩,
   (C29_selection_characterised allocAlways allocAlways descsMixed filmSetUp filmSetUp
      (by decide)).2.2.1⟩

/-- C25 (the code does not do what the claim says): in
`ConvertFilmChannelOutput_4xFloat_To_4xFloatList` the test `i % 4 != 0` of the loop that looks
for the maximum leaves out the red components and lets the alpha components in. For the single
pixel `(8, 2, 4, 1)` the maximum of the code is 4, whereas the largest RGB component is 8; and
with the alpha component changed to 16 the maximum of the code becomes 16, so the alpha
component changes the scale. -/
theorem C25_maximum_skips_red_and_reads_alpha :
    normalizeMaxValue 1 1 [.finite 8, .finite 2, .finite 4, .finite 1] = 4 ∧
    maxRGBLoop [.finite 8, .finite 2, .finite 4, .finite 1] 0 0 = 8 ∧
    normalizeMaxValue 1 1 [.finite 8, .finite 2, .finite 4, .finite 16] = 16 ∧
    maxRGBLoop [.finite 8, .finite 2, .finite 4, .finite 16] 0 0 = 8 := by
  decide

/-- C28: `Scene_DefineBlenderMesh` returns false (`none`) exactly when no loop triangle has a
polygon of material `matIndex`; otherwise the mesh has one triangle per matching loop triangle,
every vertex index of every triangle is below the number of vertices, there is one normal per
vertex, and one UV and one color per vertex when these inputs are given. As long as the
`u_int` vertex counter does not wrap, the triangles are those of the matching loop triangles in
input order: each corner is a copy of the Blender vertex of that corner. -/
theorem C28_mesh_well_formed (d : BlenderMeshData) (matIndex : Int)
    (_hcount : d.loopTris.length < UINT_MOD) :
    (Scene_DefineBlenderMesh d matIndex = none ↔
      ∀ loopTri ∈ d.loopTris, (d.polygons loopTri.poly).mat_nr ≠ matIndex) ∧
    ∀ mesh, Scene_DefineBlenderMesh d matIndex = some mesh →
      mesh.triCount = mesh.tris.length ∧
      mesh.vertCount = mesh.verts.length ∧
      mesh.tris.length = (d.loopTris.filter (matchesMaterial d matIndex)).length ∧
      (∀ t ∈ mesh.tris,
        t.1 < mesh.vertCount ∧ t.2.1 < mesh.vertCount ∧ t.2.2 < mesh.vertCount) ∧
      mesh.norms.length = mesh.vertCount ∧
      (d.hasUVs = true → ∃ uvs, mesh.uvs = some uvs ∧ uvs.length = mesh.vertCount) ∧
      (d.hasCols = true → ∃ cols, mesh.cols = some cols ∧ cols.length = mesh.vertCount) ∧
      (3 * (d.loopTris.filter (matchesMaterial d matIndex)).length < UINT_MOD →
        List.Forall₂ (triangleOf d mesh.verts) mesh.tris
          (d.loopTris.filter (matchesMaterial d matIndex))) := by
  obtain ⟨hinv, hlen⟩ :=
    foldl_addLoopTri_inv d matIndex d.loopTris MeshBuild.empty (meshInv_empty d)
  have hlen2 : (d.loopTris.foldl (addLoopTri d matIndex) MeshBuild.empty).tmpMeshTris.length
      = (d.loopTris.filter (matchesMaterial d matIndex)).length := by
    rw [hlen]
    exact Nat.zero_add _
  have hnone : (d.loopTris.filter (matchesMaterial d matIndex)).length = 0 ↔
      ∀ loopTri ∈ d.loopTris, (d.polygons loopTri.poly).mat_nr ≠ matIndex := by
    rw [List.length_eq_zero, List.filter_eq_nil_iff]
    simp [matchesMaterial]
  constructor
  · unfold Scene_DefineBlenderMesh
    simp only []
    rw [hlen2, ← hnone]
    constructor
    · intro h
      split at h
      · assumption
      · cases h
    · intro h
      rw [if_pos h]
  · intro mesh hmesh
    unfold Scene_DefineBlenderMesh at hmesh
    simp only [] at hmesh
    split at hmesh
    · cases hmesh
    · injection hmesh with hmesh
      subst hmesh
      refine ⟨rfl, rfl, hlen2, hinv.tris, hinv.norms, ?_, ?_, ?_⟩
      · intro hu
        exact ⟨_, if_pos hu, hinv.uvs hu⟩
      · intro hc
        exact ⟨_, if_pos hc, hinv.cols hc⟩
      · intro hsize
        exact (foldl_addLoopTri_ord d matIndex d.loopTris [] MeshBuild.empty
          (meshOrd_empty d matIndex) hsize).tris

/-- Witness of C28: `meshExample` has three loop triangles, two of them of material 0; the mesh
defined for the material 0 is `meshExampleResult`, whose two triangles use the four vertices. -/
theorem C28_mesh_well_formed_witness :
    meshExample.loopTris.length < UINT_MOD ∧
    Scene_DefineBlenderMesh meshExample 0 = some meshExampleResult ∧
    (∀ t ∈ meshExampleResult.tris,
      t.1 < meshExampleResult.vertCount ∧ t.2.1 < meshExampleResult.vertCount ∧
      t.2.2 < meshExampleResult.vertCount) ∧
    meshExampleResult.norms.length = meshExampleResult.vertCount :=
  ⟨by decide, by decide,
    ((C28_mesh_well_formed meshExample 0 (by decide)).2 meshExampleResult (by decide)).2.2.2.1,
    ((C28_mesh_well_formed meshExample 0 (by decide)).2 meshExampleResult
      (by decide)).2.2.2.2.1⟩

/-- C26 (the code does not do what the claim says): `Scene_DefineBlenderStrands` checks
neither the size of the array of colors nor that the size of the array of points is a multiple
of `3 * pointsPerStrand`. The call `strandsShortArrays` passes every check, and the filtering
loop reads `colors[1]` in an array of one float; with an empty array of colors
(`strandsOddPoints`) the second iteration of the loop reads `points[4]` in an array of 4
floats. -/
theorem C26_reads_outside_the_arrays :
    strandsValidate strandsShortArrays = none ∧
    strandsShortArrays.colors.size = 1 ∧
    Scene_DefineBlenderStrands exactFloats strandsShortArrays
      = some (.outOfBounds .colors 1) ∧
    strandsValidate strandsOddPoints = none ∧
    strandsOddPoints.points.size = 4 ∧
    Scene_DefineBlenderStrands exactFloats strandsOddPoints
      = some (.outOfBounds .points 4) := by
  refine ⟨by decide, rfl, by decide, by decide, rfl, by decide⟩

/-- C27 (the code does not do what the claim says): `validPointCount` is an `u_short` and
`pointsPerStrand` an `u_int`, so the count of the points of a strand wraps at 65536. For the
call `strandsLongStrand` (one strand of 65538 valid points) `Scene_DefineBlenderStrands`
reaches the hair file header with one hair of 1 segment and 65538 filtered points: the number
of points is not the sum of the segment counts plus one. -/
theorem C27_long_strand_breaks_segment_sum :
    strandsValidate strandsLongStrand = none ∧
    ∃ hair, Scene_DefineBlenderStrands exactFloats strandsLongStrand = some (.defined hair) ∧
      hair.segments = [1] ∧ hair.hairCount = 1 ∧
      hair.points.length = 3 * 65538 ∧ hair.pointCount = 65538 ∧
      (hair.segments.map (fun segmentCount => segmentCount + 1)).sum = 2 ∧
      hair.pointCount ≠ (hair.segments.map (fun segmentCount => segmentCount + 1)).sum := by
  obtain ⟨st2, hloop, hseg, hlen, -, -, -⟩ := longStrand_strandsLoop
  have hvalid : strandsValidate strandsLongStrand = none := by decide
  have hne : st2.segments.isEmpty = false := by
    rw [hseg]
    rfl
  refine ⟨hvalid, _,
    Scene_DefineBlenderStrands_of_loop exactFloats strandsLongStrand st2 hvalid hloop hne,
    hseg, ?_, hlen, ?_, ?_, ?_⟩
  · show st2.segments.length = 1
    rw [hseg]
    rfl
  · show st2.filteredPoints.length / 3 = 65538
    rw [hlen]
  · show (st2.segments.map (fun segmentCount => segmentCount + 1)).sum = 2
    rw [hseg]
    rfl
  · show st2.filteredPoints.length / 3 ≠ (st2.segments.map (fun segmentCount => segmentCount + 1)).sum
    rw [hlen, hseg]
    decide

end LuxCore
